import Mathlib

set_option maxRecDepth 20000

/-!
Verification of the OpenRCT2 `.park` save-format engine (`src/openrct2/ParkFile.cpp`).

The file shallowly embeds the parts of the codec the claims are about:
byte streams are `List Nat` (each element one byte value), the chunk-stream
reader `OrcaStream::ChunkStream` is modelled as a state monad over the input
byte list together with a trace of the fields that were decoded, and the
domain codecs (`ReadWritePeep`, `ReadWriteParkChunk`, `ReadWriteBannersChunk`,
...) are transcribed read-step by read-step from the source.

`OrcaStream` itself, the live game state types and the numeric constants from
headers outside the source file are not part of the provided source; where
they are needed they are modelled from the specification (fixed-width
little-endian integers, `u32` length-prefixed strings and vectors, fixed-size
live tables) and documented as such at the definition site.
-/

namespace ParkFile

/-! ## Byte-level codec primitives

Modelled from the spec: primitive read/write of fixed-width integers in a
single fixed byte order (little-endian), length-prefixed strings and
count-prefixed vectors; a short read past end-of-stream is fatal. -/

/-- Little-endian byte encoding of `v` in `w` bytes. -/
def toLE : Nat → Nat → List Nat
  | 0, _ => []
  | w + 1, v => v % 256 :: toLE w (v / 256)

/-- Value of a little-endian byte list. -/
def leVal (bs : List Nat) : Nat := bs.foldr (fun b a => b + 256 * a) 0

/-- Reader state: remaining input bytes plus a trace of decoded fields
(field name together with the raw bytes that were consumed for it). -/
structure RSt where
  input : List Nat
  trace : List (String × List Nat)
deriving DecidableEq

instance {ε α : Type} [DecidableEq ε] [DecidableEq α] : DecidableEq (Except ε α) := fun a b =>
  match a, b with
  | .error e1, .error e2 =>
    match decEq e1 e2 with
    | isTrue h => isTrue (by rw [h])
    | isFalse h => isFalse (fun he => h (Except.error.inj he))
  | .error _, .ok _ => isFalse (fun he => Except.noConfusion he)
  | .ok _, .error _ => isFalse (fun he => Except.noConfusion he)
  | .ok a1, .ok a2 =>
    match decEq a1 a2 with
    | isTrue h => isTrue (by rw [h])
    | isFalse h => isFalse (fun he => h (Except.ok.inj he))

/-- The chunk-stream reader monad: state plus fatal decode errors. -/
def ReadM (α : Type) : Type := RSt → Except String (α × RSt)

instance : Monad ReadM where
  pure a := fun st => .ok (a, st)
  bind m k := fun st =>
    match m st with
    | .ok (a, st2) => k a st2
    | .error e => .error e

/-- Fail fatally with a diagnostic message. -/
def fail {α : Type} (msg : String) : ReadM α := fun _ => .error msg

/-- Consume exactly `n` bytes; a short read is fatal. -/
def readBytes (n : Nat) : ReadM (List Nat) := fun st =>
  if n ≤ st.input.length then
    .ok (st.input.take n, ⟨st.input.drop n, st.trace⟩)
  else
    .error "EndOfStream"

/-- Record a decoded field in the trace. -/
def emit (name : String) (bs : List Nat) : ReadM Unit := fun st =>
  .ok ((), ⟨st.input, st.trace ++ [(name, bs)]⟩)

/-- Read a `w`-byte little-endian integer field and record it. -/
def rwN (name : String) (w : Nat) : ReadM Nat := fun st =>
  match readBytes w st with
  | .ok (bs, st2) => .ok (leVal bs, ⟨st2.input, st2.trace ++ [(name, bs)]⟩)
  | .error e => .error e

/-- Consume a `w`-byte value without recording a field
(the source's `cs.Ignore<T>()` and reading-mode `cs.Write(...)`). -/
def ignoreN (w : Nat) : ReadM Unit := fun st =>
  match readBytes w st with
  | .ok (_, st2) => .ok ((), st2)
  | .error e => .error e

/-- Read a `u32` count without recording a field (length prefixes). -/
def readLen : ReadM Nat := fun st =>
  match readBytes 4 st with
  | .ok (bs, st2) => .ok (leVal bs, st2)
  | .error e => .error e

/-- Read a `u32` length-prefixed string field and record its bytes. -/
def rwStr (name : String) : ReadM (List Nat) := fun st =>
  match readLen st with
  | .ok (n, st2) =>
    match readBytes n st2 with
    | .ok (bs, st3) => .ok (bs, ⟨st3.input, st3.trace ++ [(name, bs)]⟩)
    | .error e => .error e
  | .error e => .error e

/-- Skip a `u32` length-prefixed string without recording a field. -/
def ignoreStr : ReadM Unit := fun st =>
  match readLen st with
  | .ok (n, st2) =>
    match readBytes n st2 with
    | .ok (_, st3) => .ok ((), st3)
    | .error e => .error e
  | .error e => .error e

/-- Run a unit reader `n` times. -/
def timesM : Nat → ReadM Unit → ReadM Unit
  | 0, _ => pure ()
  | n + 1, m => do
    m
    timesM n m

/-- Run a reader `n` times collecting the results. -/
def repM {α : Type} : Nat → ReadM α → ReadM (List α)
  | 0, _ => pure []
  | n + 1, m => do
    let a ← m
    let as ← repM n m
    pure (a :: as)

/-- `cs.ReadWriteVector` on read: `u32` element count, then the elements. -/
def rwVec (elem : ReadM Unit) : ReadM Unit := do
  let n ← readLen
  timesM n elem

/-- `cs.ReadWriteArray` on read: `u32` element count, then the elements
(the live array is filled up to the decoded count). -/
def rwArr (elem : ReadM Unit) : ReadM Unit := do
  let n ← readLen
  timesM n elem

/-! ## Writer primitives (the writing mode of the same codecs) -/

/-- Write a `w`-byte little-endian integer. -/
def wN (w v : Nat) : List Nat := toLE w v

/-- Write a `u32` length-prefixed string. -/
def wStr (s : List Nat) : List Nat := toLE 4 s.length ++ s


/-! ## Remap-table nodup certification

To settle the identifier-remap claim we must know that the `std::map`
initializer has pairwise distinct keys (so that association-list lookup is
well defined per entry).  That is certified by inserting a numeric code of
every key into a binary search tree that rejects duplicates; the check is
executable and is validated by the `NTree` theorems below. -/

inductive NTree where
  | leaf
  | node (l : NTree) (k : Nat) (r : NTree)

/-- Insert into a BST, returning `none` when the key is already present. -/
def NTree.insert? : NTree → Nat → Option NTree
  | .leaf, a => some (.node .leaf a .leaf)
  | .node l k r, a =>
    if a < k then
      match insert? l a with
      | some l2 => some (.node l2 k r)
      | none => none
    else if k < a then
      match insert? r a with
      | some r2 => some (.node l k r2)
      | none => none
    else
      none

def NTree.insertList? : NTree → List Nat → Option NTree
  | t, [] => some t
  | t, a :: rest =>
    match t.insert? a with
    | some t2 => insertList? t2 rest
    | none => none

def NTree.Mem (a : Nat) : NTree → Prop
  | .leaf => False
  | .node l k r => Mem a l ∨ a = k ∨ Mem a r

def NTree.Forall (p : Nat → Prop) : NTree → Prop
  | .leaf => True
  | .node l k r => Forall p l ∧ p k ∧ Forall p r

def NTree.Ordered : NTree → Prop
  | .leaf => True
  | .node l k r => Ordered l ∧ Ordered r ∧ Forall (· < k) l ∧ Forall (k < ·) r

/-- All-distinct check on a list of numbers via duplicate-rejecting insertion. -/
def checkNodupN (l : List Nat) : Bool := (NTree.insertList? .leaf l).isSome

/-- Injective-free numeric fingerprint of a string (base is larger than any
`Char.toNat`, so distinct codes certainly mean distinct strings). -/
def strCode (s : String) : Nat :=
  s.data.foldl (fun a c => a * 2097152 + c.toNat) 0

/-! ## Identifier remapping table (`oldObjectIds`, source lines 2334-4530)

The static legacy-identifier → current-identifier map consulted by
`MapToNewObjectIdentifier`.  `std::map` keeps at most one value per key; the
initializer below has pairwise distinct keys (certified by
`oldObjectIds_keys_nodup` below), so a first-match association-list lookup
has exactly the `std::map` semantics. -/

def oldObjectIds : List (String × String) := [
  ("official.scgpanda", "rct2dlc.scenery_group.scgpanda"),
  ("official.wtrpink", "rct2dlc.water.wtrpink"),
  ("official.ttrftl07", "toontowner.scenery_small.ttrftl07"),
  ("official.pandagr", "rct2dlc.scenery_small.pandagr"),
  ("official.ttrftl04", "toontowner.scenery_small.ttrftl04"),
  ("official.bigpanda", "rct2dlc.scenery_small.bigpanda"),
  ("official.ttrftl02", "toontowner.scenery_small.ttrftl02"),
  ("official.ttrftl03", "toontowner.scenery_small.ttrftl03"),
  ("official.ttrftl08", "toontowner.scenery_small.ttrftl08"),
  ("official.xxbbbr01", "toontowner.scenery_small.xxbbbr01"),
  ("official.mg-prar", "mamabear.scenery_wall.mg-prar"),
  ("official.litterpa", "rct2dlc.footpath_item.litterpa"),
  ("openrct2.railings.invisible", "openrct2.footpath_railings.invisible"),
  ("official.zpanda", "rct2dlc.ride.zpanda"),
  ("openrct2.surface.void", "openrct2.terrain_surface.void"),
  ("openrct2.station.noentrance", "openrct2.station.noentrance"),
  ("openrct2.station.noplatformnoentrance", "openrct2.station.noplatformnoentrance"),
  ("rct2.sct", "rct2.scenery_large.sct"),
  ("rct2.soh3", "rct2.scenery_large.soh3"),
  ("rct2.scln", "rct2.scenery_large.scln"),
  ("rct2.smh2", "rct2.scenery_large.smh2"),
  ("rct2.sdn3", "rct2.scenery_large.sdn3"),
  ("rct2.stb1", "rct2.scenery_large.stb1"),
  ("rct2.nitroent", "rct2.scenery_large.nitroent"),
  ("rct2.smh1", "rct2.scenery_large.smh1"),
  ("rct2.badrack", "rct2.scenery_large.badrack"),
  ("rct2.glthent", "rct2.scenery_large.glthent"),
  ("rct2.sth", "rct2.scenery_large.sth"),
  ("rct2.svlc", "rct2.scenery_large.svlc"),
  ("rct2.ssr", "rct2.scenery_large.ssr"),
  ("rct2.spyr", "rct2.scenery_large.spyr"),
  ("rct2.prship", "rct2.scenery_large.prship"),
  ("rct2.saloon", "rct2.scenery_large.saloon"),
  ("rct2.smb", "rct2.scenery_large.smb"),
  ("rct2.soh1", "rct2.scenery_large.soh1"),
  ("rct2.stg2", "rct2.scenery_large.stg2"),
  ("rct2.sspx", "rct2.scenery_large.sspx"),
  ("rct2.sip", "rct2.scenery_large.sip"),
  ("rct2.ssig4", "rct2.scenery_large.ssig4"),
  ("rct2.ssig3", "rct2.scenery_large.ssig3"),
  ("rct2.ssig2", "rct2.scenery_large.ssig2"),
  ("rct2.smn1", "rct2.scenery_large.smn1"),
  ("rct2.scol", "rct2.scenery_large.scol"),
  ("rct2.ssh", "rct2.scenery_large.ssh"),
  ("rct2.spg", "rct2.scenery_large.spg"),
  ("rct2.sah3", "rct2.scenery_large.sah3"),
  ("rct2.stg1", "rct2.scenery_large.stg1"),
  ("rct2.ssk1", "rct2.scenery_large.ssk1"),
  ("rct2.sah", "rct2.scenery_large.sah"),
  ("rct2.sgp", "rct2.scenery_large.sgp"),
  ("rct2.mdsaent", "rct2.scenery_large.mdsaent"),
  ("rct2.sdn2", "rct2.scenery_large.sdn2"),
  ("rct2.sah2", "rct2.scenery_large.sah2"),
  ("rct2.shs1", "rct2.scenery_large.shs1"),
  ("rct2.sps", "rct2.scenery_large.sps"),
  ("rct2.sst", "rct2.scenery_large.sst"),
  ("rct2.stb2", "rct2.scenery_large.stb2"),
  ("rct2.ssig1", "rct2.scenery_large.ssig1"),
  ("rct2.sdn1", "rct2.scenery_large.sdn1"),
  ("rct2.tavern", "rct2.scenery_large.tavern"),
  ("rct2.shs2", "rct2.scenery_large.shs2"),
  ("rct2.wwbank", "rct2.scenery_large.wwbank"),
  ("rct2.sob", "rct2.scenery_large.sob"),
  ("rct2.soh2", "rct2.scenery_large.soh2"),
  ("rct2.genstore", "rct2.scenery_large.genstore"),
  ("rct2.scgpirat", "rct2.scenery_group.scgpirat"),
  ("rct2.scgsport", "rct2.scenery_group.scgsport"),
  ("rct2.scgspook", "rct2.scenery_group.scgspook"),
  ("rct2.scgclass", "rct2.scenery_group.scgclass"),
  ("rct2.scghallo", "rct2.scenery_group.scghallo"),
  ("rct2.scgegypt", "rct2.scenery_group.scgegypt"),
  ("rct2.scgwater", "rct2.scenery_group.scgwater"),
  ("rct2.scgurban", "rct2.scenery_group.scgurban"),
  ("rct2.scgwond", "rct2.scenery_group.scgwond"),
  ("rct2.scgmine", "rct2.scenery_group.scgmine"),
  ("rct2.scgorien", "rct2.scenery_group.scgorien"),
  ("rct2.scgshrub", "rct2.scenery_group.scgshrub"),
  ("rct2.scgfence", "rct2.scenery_group.scgfence"),
  ("rct2.scggiant", "rct2.scenery_group.scggiant"),
  ("rct2.scgspace", "rct2.scenery_group.scgspace"),
  ("rct2.scgsixfl", "rct2.scenery_group.scgsixfl"),
  ("rct2.scgjuras", "rct2.scenery_group.scgjuras"),
  ("rct2.scgcandy", "rct2.scenery_group.scgcandy"),
  ("rct2.scgmart", "rct2.scenery_group.scgmart"),
  ("rct2.scgpathx", "rct2.scenery_group.scgpathx"),
  ("rct2.scgtrees", "rct2.scenery_group.scgtrees"),
  ("rct2.scgabstr", "rct2.scenery_group.scgabstr"),
  ("rct2.scgsnow", "rct2.scenery_group.scgsnow"),
  ("rct2.scgwwest", "rct2.scenery_group.scgwwest"),
  ("rct2.scggardn", "rct2.scenery_group.scggardn"),
  ("rct2.scgwalls", "rct2.scenery_group.scgwalls"),
  ("rct2.scgindus", "rct2.scenery_group.scgindus"),
  ("rct2.scgjungl", "rct2.scenery_group.scgjungl"),
  ("rct2.scgmedie", "rct2.scenery_group.scgmedie"),
  ("rct2.music.rock1", "rct2.music.rock1"),
  ("rct2.music.toyland", "rct2.music.toyland"),
  ("rct2.music.fantasy", "rct2.music.fantasy"),
  ("rct2.music.custom2", "rct2.music.custom2"),
  ("rct2.music.candy", "rct2.music.candy"),
  ("rct2.music.egyptian", "rct2.music.egyptian"),
  ("rct2.music.pirate", "rct2.music.pirate"),
  ("rct2.music.ice", "rct2.music.ice"),
  ("rct2.music.techno", "rct2.music.techno"),
  ("rct2.music.jurassic", "rct2.music.jurassic"),
  ("rct2.music.medieval", "rct2.music.medieval"),
  ("rct2.music.rock2", "rct2.music.rock2"),
  ("rct2.music.modern", "rct2.music.modern"),
  ("rct2.music.ragtime", "rct2.music.ragtime"),
  ("rct2.music.fairground", "rct2.music.fairground"),
  ("rct2.music.jungle", "rct2.music.jungle"),
  ("rct2.music.dodgems", "rct2.music.dodgems"),
  ("rct2.music.gentle", "rct2.music.gentle"),
  ("rct2.music.summer", "rct2.music.summer"),
  ("rct2.music.oriental", "rct2.music.oriental"),
  ("rct2.music.wildwest", "rct2.music.wildwest"),
  ("rct2.music.space", "rct2.music.space"),
  ("rct2.music.horror", "rct2.music.horror"),
  ("rct2.music.custom1", "rct2.music.custom1"),
  ("rct2.music.snow", "rct2.music.snow"),
  ("rct2.music.rock3", "rct2.music.rock3"),
  ("rct2.music.organ", "rct2.music.organ"),
  ("rct2.music.mechanical", "rct2.music.mechanical"),
  ("rct2.music", "rct2.music.water"),
  ("rct2.music.urban", "rct2.music.urban"),
  ("rct2.music.martian", "rct2.music.martian"),
  ("rct2.music.roman", "rct2.music.roman"),
  ("rct2.bn1", "rct2.footpath_banner.bn1"),
  ("rct2.bn3", "rct2.footpath_banner.bn3"),
  ("rct2.bn7", "rct2.footpath_banner.bn7"),
  ("rct2.bn6", "rct2.footpath_banner.bn6"),
  ("rct2.bn5", "rct2.footpath_banner.bn5"),
  ("rct2.bn8", "rct2.footpath_banner.bn8"),
  ("rct2.bn9", "rct2.footpath_banner.bn9"),
  ("rct2.bn2", "rct2.footpath_banner.bn2"),
  ("rct2.bn4", "rct2.footpath_banner.bn4"),
  ("rct2.wtrorng", "rct2.water.wtrorng"),
  ("rct2.wtrgreen", "rct2.water.wtrgreen"),
  ("rct2.wtrgrn", "rct2.water.wtrgrn"),
  ("rct2.wtrcyan", "rct2.water.wtrcyan"),
  ("rct2.trf3", "rct2.scenery_small.trf3"),
  ("rct2.tl3", "rct2.scenery_small.tl3"),
  ("rct2.tl0", "rct2.scenery_small.tl0"),
  ("rct2.stldw", "rct2.scenery_small.stldw"),
  ("rct2.trms", "rct2.scenery_small.trms"),
  ("rct2.tsm", "rct2.scenery_small.tsm"),
  ("rct2.tef", "rct2.scenery_small.tef"),
  ("rct2.tes1", "rct2.scenery_small.tes1"),
  ("rct2.hang1", "rct2.scenery_small.hang1"),
  ("rct2.tsk", "rct2.scenery_small.tsk"),
  ("rct2.tmg", "rct2.scenery_small.tmg"),
  ("rct2.jeldrop1", "rct2.scenery_small.jeldrop1"),
  ("rct2.chest1", "rct2.scenery_small.chest1"),
  ("rct2.trf", "rct2.scenery_small.trf"),
  ("rct2.ttf", "rct2.scenery_small.ttf"),
  ("rct2.sktdw2", "rct2.scenery_small.sktdw2"),
  ("rct2.roof5", "rct2.scenery_small.roof5"),
  ("rct2.tww", "rct2.scenery_small.tww"),
  ("rct2.tbn", "rct2.scenery_small.tbn"),
  ("rct2.totem1", "rct2.scenery_small.totem1"),
  ("rct2.brbase2", "rct2.scenery_small.brbase2"),
  ("rct2.chest2", "rct2.scenery_small.chest2"),
  ("rct2.tct", "rct2.scenery_small.tct"),
  ("rct2.tge4", "rct2.scenery_small.tge4"),
  ("rct2.tsp2", "rct2.scenery_small.tsp2"),
  ("rct2.stlbaset", "rct2.scenery_small.stlbaset"),
  ("rct2.tgs3", "rct2.scenery_small.tgs3"),
  ("rct2.tep", "rct2.scenery_small.tep"),
  ("rct2.tq2", "rct2.scenery_small.tq2"),
  ("rct2.tf2", "rct2.scenery_small.tf2"),
  ("rct2.tgs1", "rct2.scenery_small.tgs1"),
  ("rct2.tic", "rct2.scenery_small.tic"),
  ("rct2.tgc1", "rct2.scenery_small.tgc1"),
  ("rct2.tsf1", "rct2.scenery_small.tsf1"),
  ("rct2.tjt4", "rct2.scenery_small.tjt4"),
  ("rct2.cog2r", "rct2.scenery_small.cog2r"),
  ("rct2.cog2", "rct2.scenery_small.cog2"),
  ("rct2.tsph", "rct2.scenery_small.tsph"),
  ("rct2.tm0", "rct2.scenery_small.tm0"),
  ("rct2.tg10", "rct2.scenery_small.tg10"),
  ("rct2.tlp", "rct2.scenery_small.tlp"),
  ("rct2.beanst1", "rct2.scenery_small.beanst1"),
  ("rct2.georoof1", "rct2.scenery_small.georoof1"),
  ("rct2.allsort2", "rct2.scenery_small.allsort2"),
  ("rct2.tge1", "rct2.scenery_small.tge1"),
  ("rct2.tsh", "rct2.scenery_small.tsh"),
  ("rct2.tgs2", "rct2.scenery_small.tgs2"),
  ("rct2.cnballs", "rct2.scenery_small.cnballs"),
  ("rct2.tos", "rct2.scenery_small.tos"),
  ("rct2.colagum", "rct2.scenery_small.colagum"),
  ("rct2.brbase", "rct2.scenery_small.brbase"),
  ("rct2.tsnb", "rct2.scenery_small.tsnb"),
  ("rct2.mment2", "rct2.scenery_small.mment2"),
  ("rct2.tg12", "rct2.scenery_small.tg12"),
  ("rct2.tsh4", "rct2.scenery_small.tsh4"),
  ("rct2.tjp2", "rct2.scenery_small.tjp2"),
  ("rct2.tg17", "rct2.scenery_small.tg17"),
  ("rct2.tmj", "rct2.scenery_small.tmj"),
  ("rct2.tgg", "rct2.scenery_small.tgg"),
  ("rct2.tg7", "rct2.scenery_small.tg7"),
  ("rct2.tmo3", "rct2.scenery_small.tmo3"),
  ("rct2.tmw", "rct2.scenery_small.tmw"),
  ("rct2.thl", "rct2.scenery_small.thl"),
  ("rct2.roof9", "rct2.scenery_small.roof9"),
  ("rct2.chocroof", "rct2.scenery_small.chocroof"),
  ("rct2.ten", "rct2.scenery_small.ten"),
  ("rct2.roof14", "rct2.scenery_small.roof14"),
  ("rct2.tg15", "rct2.scenery_small.tg15"),
  ("rct2.tdf", "rct2.scenery_small.tdf"),
  ("rct2.tot2", "rct2.scenery_small.tot2"),
  ("rct2.tbp", "rct2.scenery_small.tbp"),
  ("rct2.tg19", "rct2.scenery_small.tg19"),
  ("rct2.helmet1", "rct2.scenery_small.helmet1"),
  ("rct2.tg14", "rct2.scenery_small.tg14"),
  ("rct2.tsh1", "rct2.scenery_small.tsh1"),
  ("rct2.tb1", "rct2.scenery_small.tb1"),
  ("rct2.twf", "rct2.scenery_small.twf"),
  ("rct2.tr1", "rct2.scenery_small.tr1"),
  ("rct2.tropt1", "rct2.scenery_small.tropt1"),
  ("rct2.suppw3", "rct2.scenery_small.suppw3"),
  ("rct2.tg4", "rct2.scenery_small.tg4"),
  ("rct2.pirroof2", "rct2.scenery_small.pirroof2"),
  ("rct2.tg5", "rct2.scenery_small.tg5"),
  ("rct2.twp", "rct2.scenery_small.twp"),
  ("rct2.allsort1", "rct2.scenery_small.allsort1"),
  ("rct2.tjt1", "rct2.scenery_small.tjt1"),
  ("rct2.tml", "rct2.scenery_small.tml"),
  ("rct2.ball2", "rct2.scenery_small.ball2"),
  ("rct2.cwfcrv32", "rct2.scenery_small.cwfcrv32"),
  ("rct2.tbr2", "rct2.scenery_small.tbr2"),
  ("rct2.tot1", "rct2.scenery_small.tot1"),
  ("rct2.roof8", "rct2.scenery_small.roof8"),
  ("rct2.tghc", "rct2.scenery_small.tghc"),
  ("rct2.lolly1", "rct2.scenery_small.lolly1"),
  ("rct2.roof10", "rct2.scenery_small.roof10"),
  ("rct2.tas3", "rct2.scenery_small.tas3"),
  ("rct2.tmo1", "rct2.scenery_small.tmo1"),
  ("rct2.sktdw", "rct2.scenery_small.sktdw"),
  ("rct2.corroof2", "rct2.scenery_small.corroof2"),
  ("rct2.prcan", "rct2.scenery_small.prcan"),
  ("rct2.tjf", "rct2.scenery_small.tjf"),
  ("rct2.tscp", "rct2.scenery_small.tscp"),
  ("rct2.tdt2", "rct2.scenery_small.tdt2"),
  ("rct2.cwbcrv32", "rct2.scenery_small.cwbcrv32"),
  ("rct2.beanst2", "rct2.scenery_small.beanst2"),
  ("rct2.twh2", "rct2.scenery_small.twh2"),
  ("rct2.tst5", "rct2.scenery_small.tst5"),
  ("rct2.tcrp", "rct2.scenery_small.tcrp"),
  ("rct2.tpm", "rct2.scenery_small.tpm"),
  ("rct2.tst3", "rct2.scenery_small.tst3"),
  ("rct2.romroof2", "rct2.scenery_small.romroof2"),
  ("rct2.ggrs1", "rct2.scenery_small.ggrs1"),
  ("rct2.cwbcrv33", "rct2.scenery_small.cwbcrv33"),
  ("rct2.stbase", "rct2.scenery_small.stbase"),
  ("rct2.carrot", "rct2.scenery_small.carrot"),
  ("rct2.buttfly", "rct2.scenery_small.buttfly"),
  ("rct2.tal", "rct2.scenery_small.tal"),
  ("rct2.trws", "rct2.scenery_small.trws"),
  ("rct2.tbr3", "rct2.scenery_small.tbr3"),
  ("rct2.tsmp", "rct2.scenery_small.tsmp"),
  ("rct2.tel", "rct2.scenery_small.tel"),
  ("rct2.thrs", "rct2.scenery_small.thrs"),
  ("rct2.tl1", "rct2.scenery_small.tl1"),
  ("rct2.tstd", "rct2.scenery_small.tstd"),
  ("rct2.twn", "rct2.scenery_small.twn"),
  ("rct2.ts3", "rct2.scenery_small.ts3"),
  ("rct2.ts1", "rct2.scenery_small.ts1"),
  ("rct2.tmo5", "rct2.scenery_small.tmo5"),
  ("rct2.twh1", "rct2.scenery_small.twh1"),
  ("rct2.tdm", "rct2.scenery_small.tdm"),
  ("rct2.tg9", "rct2.scenery_small.tg9"),
  ("rct2.torn1", "rct2.scenery_small.torn1"),
  ("rct2.tqf", "rct2.scenery_small.tqf"),
  ("rct2.snail", "rct2.scenery_small.snail"),
  ("rct2.tcd", "rct2.scenery_small.tcd"),
  ("rct2.tas", "rct2.scenery_small.tas"),
  ("rct2.spider1", "rct2.scenery_small.spider1"),
  ("rct2.tst1", "rct2.scenery_small.tst1"),
  ("rct2.roof13", "rct2.scenery_small.roof13"),
  ("rct2.tjt5", "rct2.scenery_small.tjt5"),
  ("rct2.tct2", "rct2.scenery_small.tct2"),
  ("rct2.ts4", "rct2.scenery_small.ts4"),
  ("rct2.wspout", "rct2.scenery_small.wspout"),
  ("rct2.tst4", "rct2.scenery_small.tst4"),
  ("rct2.wdbase", "rct2.scenery_small.wdbase"),
  ("rct2.toh2", "rct2.scenery_small.toh2"),
  ("rct2.igroof", "rct2.scenery_small.igroof"),
  ("rct2.ball3", "rct2.scenery_small.ball3"),
  ("rct2.tsf3", "rct2.scenery_small.tsf3"),
  ("rct2.fern1", "rct2.scenery_small.fern1"),
  ("rct2.mment1", "rct2.scenery_small.mment1"),
  ("rct2.brcrrf1", "rct2.scenery_small.brcrrf1"),
  ("rct2.sktbase", "rct2.scenery_small.sktbase"),
  ("rct2.cog2ur", "rct2.scenery_small.cog2ur"),
  ("rct2.wag1", "rct2.scenery_small.wag1"),
  ("rct2.tk4", "rct2.scenery_small.tk4"),
  ("rct2.tdn4", "rct2.scenery_small.tdn4"),
  ("rct2.ball4", "rct2.scenery_small.ball4"),
  ("rct2.mallow1", "rct2.scenery_small.mallow1"),
  ("rct2.tjb2", "rct2.scenery_small.tjb2"),
  ("rct2.tmbj", "rct2.scenery_small.tmbj"),
  ("rct2.smskull", "rct2.scenery_small.smskull"),
  ("rct2.tg21", "rct2.scenery_small.tg21"),
  ("rct2.tgs4", "rct2.scenery_small.tgs4"),
  ("rct2.tct1", "rct2.scenery_small.tct1"),
  ("rct2.tk3", "rct2.scenery_small.tk3"),
  ("rct2.tbr1", "rct2.scenery_small.tbr1"),
  ("rct2.tsnc", "rct2.scenery_small.tsnc"),
  ("rct2.tbc", "rct2.scenery_small.tbc"),
  ("rct2.tg16", "rct2.scenery_small.tg16"),
  ("rct2.pirflag", "rct2.scenery_small.pirflag"),
  ("rct2.toh1", "rct2.scenery_small.toh1"),
  ("rct2.tcc", "rct2.scenery_small.tcc"),
  ("rct2.roof1", "rct2.scenery_small.roof1"),
  ("rct2.cog1r", "rct2.scenery_small.cog1r"),
  ("rct2.th1", "rct2.scenery_small.th1"),
  ("rct2.tg3", "rct2.scenery_small.tg3"),
  ("rct2.tsh0", "rct2.scenery_small.tsh0"),
  ("rct2.tcb", "rct2.scenery_small.tcb"),
  ("rct2.roof4", "rct2.scenery_small.roof4"),
  ("rct2.tht", "rct2.scenery_small.tht"),
  ("rct2.minroof1", "rct2.scenery_small.minroof1"),
  ("rct2.tp1", "rct2.scenery_small.tp1"),
  ("rct2.tsh5", "rct2.scenery_small.tsh5"),
  ("rct2.tgc2", "rct2.scenery_small.tgc2"),
  ("rct2.ttg", "rct2.scenery_small.ttg"),
  ("rct2.tjb3", "rct2.scenery_small.tjb3"),
  ("rct2.romroof1", "rct2.scenery_small.romroof1"),
  ("rct2.tco", "rct2.scenery_small.tco"),
  ("rct2.pipe32", "rct2.scenery_small.pipe32"),
  ("rct2.sktbaset", "rct2.scenery_small.sktbaset"),
  ("rct2.tcf", "rct2.scenery_small.tcf"),
  ("rct2.tnss", "rct2.scenery_small.tnss"),
  ("rct2.tot4", "rct2.scenery_small.tot4"),
  ("rct2.tus", "rct2.scenery_small.tus"),
  ("rct2.tsg", "rct2.scenery_small.tsg"),
  ("rct2.roof2", "rct2.scenery_small.roof2"),
  ("rct2.suppleg2", "rct2.scenery_small.suppleg2"),
  ("rct2.georoof2", "rct2.scenery_small.georoof2"),
  ("rct2.tac", "rct2.scenery_small.tac"),
  ("rct2.tce", "rct2.scenery_small.tce"),
  ("rct2.tbw", "rct2.scenery_small.tbw"),
  ("rct2.stldw2", "rct2.scenery_small.stldw2"),
  ("rct2.cog2u", "rct2.scenery_small.cog2u"),
  ("rct2.tdt1", "rct2.scenery_small.tdt1"),
  ("rct2.th2", "rct2.scenery_small.th2"),
  ("rct2.ts5", "rct2.scenery_small.ts5"),
  ("rct2.tgh1", "rct2.scenery_small.tgh1"),
  ("rct2.cog1u", "rct2.scenery_small.cog1u"),
  ("rct2.tsp1", "rct2.scenery_small.tsp1"),
  ("rct2.tcfs", "rct2.scenery_small.tcfs"),
  ("rct2.tjb1", "rct2.scenery_small.tjb1"),
  ("rct2.suppw1", "rct2.scenery_small.suppw1"),
  ("rct2.tk1", "rct2.scenery_small.tk1"),
  ("rct2.tvl", "rct2.scenery_small.tvl"),
  ("rct2.tghc2", "rct2.scenery_small.tghc2"),
  ("rct2.trfs", "rct2.scenery_small.trfs"),
  ("rct2.tly", "rct2.scenery_small.tly"),
  ("rct2.wag2", "rct2.scenery_small.wag2"),
  ("rct2.tg13", "rct2.scenery_small.tg13"),
  ("rct2.tgh2", "rct2.scenery_small.tgh2"),
  ("rct2.tas1", "rct2.scenery_small.tas1"),
  ("rct2.tge2", "rct2.scenery_small.tge2"),
  ("rct2.tmc", "rct2.scenery_small.tmc"),
  ("rct2.tap", "rct2.scenery_small.tap"),
  ("rct2.tbr", "rct2.scenery_small.tbr"),
  ("rct2.tg6", "rct2.scenery_small.tg6"),
  ("rct2.tsc", "rct2.scenery_small.tsc"),
  ("rct2.jelbab1", "rct2.scenery_small.jelbab1"),
  ("rct2.tmo4", "rct2.scenery_small.tmo4"),
  ("rct2.tns", "rct2.scenery_small.tns"),
  ("rct2.tcl", "rct2.scenery_small.tcl"),
  ("rct2.tas2", "rct2.scenery_small.tas2"),
  ("rct2.tl2", "rct2.scenery_small.tl2"),
  ("rct2.roof12", "rct2.scenery_small.roof12"),
  ("rct2.trf2", "rct2.scenery_small.trf2"),
  ("rct2.tmo2", "rct2.scenery_small.tmo2"),
  ("rct2.tg20", "rct2.scenery_small.tg20"),
  ("rct2.tjt3", "rct2.scenery_small.tjt3"),
  ("rct2.tm3", "rct2.scenery_small.tm3"),
  ("rct2.tb2", "rct2.scenery_small.tb2"),
  ("rct2.teepee1", "rct2.scenery_small.teepee1"),
  ("rct2.tot3", "rct2.scenery_small.tot3"),
  ("rct2.pirroof1", "rct2.scenery_small.pirroof1"),
  ("rct2.jeldrop2", "rct2.scenery_small.jeldrop2"),
  ("rct2.tntroof1", "rct2.scenery_small.tntroof1"),
  ("rct2.toh3", "rct2.scenery_small.toh3"),
  ("rct2.pipe8", "rct2.scenery_small.pipe8"),
  ("rct2.tsh2", "rct2.scenery_small.tsh2"),
  ("rct2.tbn1", "rct2.scenery_small.tbn1"),
  ("rct2.tcy", "rct2.scenery_small.tcy"),
  ("rct2.wasp", "rct2.scenery_small.wasp"),
  ("rct2.tmm3", "rct2.scenery_small.tmm3"),
  ("rct2.ters", "rct2.scenery_small.ters"),
  ("rct2.tsp", "rct2.scenery_small.tsp"),
  ("rct2.ts6", "rct2.scenery_small.ts6"),
  ("rct2.tp2", "rct2.scenery_small.tp2"),
  ("rct2.torn2", "rct2.scenery_small.torn2"),
  ("rct2.tst2", "rct2.scenery_small.tst2"),
  ("rct2.tm2", "rct2.scenery_small.tm2"),
  ("rct2.tf1", "rct2.scenery_small.tf1"),
  ("rct2.tsb", "rct2.scenery_small.tsb"),
  ("rct2.mment3", "rct2.scenery_small.mment3"),
  ("rct2.tg11", "rct2.scenery_small.tg11"),
  ("rct2.ts2", "rct2.scenery_small.ts2"),
  ("rct2.tms1", "rct2.scenery_small.tms1"),
  ("rct2.spcroof1", "rct2.scenery_small.spcroof1"),
  ("rct2.tk2", "rct2.scenery_small.tk2"),
  ("rct2.whoriz", "rct2.scenery_small.whoriz"),
  ("rct2.tjt6", "rct2.scenery_small.tjt6"),
  ("rct2.brcrrf2", "rct2.scenery_small.brcrrf2"),
  ("rct2.suppleg1", "rct2.scenery_small.suppleg1"),
  ("rct2.roof11", "rct2.scenery_small.roof11"),
  ("rct2.tas4", "rct2.scenery_small.tas4"),
  ("rct2.tjt2", "rct2.scenery_small.tjt2"),
  ("rct2.tsd", "rct2.scenery_small.tsd"),
  ("rct2.mint1", "rct2.scenery_small.mint1"),
  ("rct2.corroof", "rct2.scenery_small.corroof"),
  ("rct2.brbase3", "rct2.scenery_small.brbase3"),
  ("rct2.pipe32j", "rct2.scenery_small.pipe32j"),
  ("rct2.tsf2", "rct2.scenery_small.tsf2"),
  ("rct2.tg18", "rct2.scenery_small.tg18"),
  ("rct2.tdt3", "rct2.scenery_small.tdt3"),
  ("rct2.tq1", "rct2.scenery_small.tq1"),
  ("rct2.tge5", "rct2.scenery_small.tge5"),
  ("rct2.cndyrk1", "rct2.scenery_small.cndyrk1"),
  ("rct2.tsc2", "rct2.scenery_small.tsc2"),
  ("rct2.tg2", "rct2.scenery_small.tg2"),
  ("rct2.roof3", "rct2.scenery_small.roof3"),
  ("rct2.cog1ur", "rct2.scenery_small.cog1ur"),
  ("rct2.jbean1", "rct2.scenery_small.jbean1"),
  ("rct2.icecube", "rct2.scenery_small.icecube"),
  ("rct2.suppw2", "rct2.scenery_small.suppw2"),
  ("rct2.tsq", "rct2.scenery_small.tsq"),
  ("rct2.sumrf", "rct2.scenery_small.sumrf"),
  ("rct2.roof7", "rct2.scenery_small.roof7"),
  ("rct2.tcn", "rct2.scenery_small.tcn"),
  ("rct2.ts0", "rct2.scenery_small.ts0"),
  ("rct2.tsh3", "rct2.scenery_small.tsh3"),
  ("rct2.tcj", "rct2.scenery_small.tcj"),
  ("rct2.badshut2", "rct2.scenery_small.badshut2"),
  ("rct2.tt1", "rct2.scenery_small.tt1"),
  ("rct2.wdiag", "rct2.scenery_small.wdiag"),
  ("rct2.tg8", "rct2.scenery_small.tg8"),
  ("rct2.jngroof1", "rct2.scenery_small.jngroof1"),
  ("rct2.tg1", "rct2.scenery_small.tg1"),
  ("rct2.tck", "rct2.scenery_small.tck"),
  ("rct2.badshut", "rct2.scenery_small.badshut"),
  ("rct2.cog1", "rct2.scenery_small.cog1"),
  ("rct2.ball1", "rct2.scenery_small.ball1"),
  ("rct2.pagroof1", "rct2.scenery_small.pagroof1"),
  ("rct2.chbbase", "rct2.scenery_small.chbbase"),
  ("rct2.tjb4", "rct2.scenery_small.tjb4"),
  ("rct2.tjp1", "rct2.scenery_small.tjp1"),
  ("rct2.cwfcrv33", "rct2.scenery_small.cwfcrv33"),
  ("rct2.mallow2", "rct2.scenery_small.mallow2"),
  ("rct2.roof6", "rct2.scenery_small.roof6"),
  ("rct2.tmzp", "rct2.scenery_small.tmzp"),
  ("rct2.tlc", "rct2.scenery_small.tlc"),
  ("rct2.tmm1", "rct2.scenery_small.tmm1"),
  ("rct2.tig", "rct2.scenery_small.tig"),
  ("rct2.tge3", "rct2.scenery_small.tge3"),
  ("rct2.tgs", "rct2.scenery_small.tgs"),
  ("rct2.titc", "rct2.scenery_small.titc"),
  ("rct2.terb", "rct2.scenery_small.terb"),
  ("rct2.tmm2", "rct2.scenery_small.tmm2"),
  ("rct2.tbr4", "rct2.scenery_small.tbr4"),
  ("rct2.tdn5", "rct2.scenery_small.tdn5"),
  ("rct2.tmp", "rct2.scenery_small.tmp"),
  ("rct2.trc", "rct2.scenery_small.trc"),
  ("rct2.tm1", "rct2.scenery_small.tm1"),
  ("rct2.tr2", "rct2.scenery_small.tr2"),
  ("rct2.fire1", "rct2.scenery_small.fire1"),
  ("rct2.wc7", "rct2.scenery_wall.wc7"),
  ("rct2.wc4", "rct2.scenery_wall.wc4"),
  ("rct2.wmf", "rct2.scenery_wall.wmf"),
  ("rct2.wc2", "rct2.scenery_wall.wc2"),
  ("rct2.wfwg", "rct2.scenery_wall.wfwg"),
  ("rct2.wallcfar", "rct2.scenery_wall.wallcfar"),
  ("rct2.wallcfwn", "rct2.scenery_wall.wallcfwn"),
  ("rct2.wallco16", "rct2.scenery_wall.wallco16"),
  ("rct2.wallpr34", "rct2.scenery_wall.wallpr34"),
  ("rct2.wallbb16", "rct2.scenery_wall.wallbb16"),
  ("rct2.wallmm17", "rct2.scenery_wall.wallmm17"),
  ("rct2.wallrs32", "rct2.scenery_wall.wallrs32"),
  ("rct2.wpw3", "rct2.scenery_wall.wpw3"),
  ("rct2.wew", "rct2.scenery_wall.wew"),
  ("rct2.wallsp32", "rct2.scenery_wall.wallsp32"),
  ("rct2.wallbb34", "rct2.scenery_wall.wallbb34"),
  ("rct2.wallsign", "rct2.scenery_wall.wallsign"),
  ("rct2.wallwd16", "rct2.scenery_wall.wallwd16"),
  ("rct2.wwtw", "rct2.scenery_wall.wwtw"),
  ("rct2.wallgl32", "rct2.scenery_wall.wallgl32"),
  ("rct2.wallcf16", "rct2.scenery_wall.wallcf16"),
  ("rct2.wwtwa", "rct2.scenery_wall.wwtwa"),
  ("rct2.walljn32", "rct2.scenery_wall.walljn32"),
  ("rct2.whg", "rct2.scenery_wall.whg"),
  ("rct2.wallmn32", "rct2.scenery_wall.wallmn32"),
  ("rct2.wpw2", "rct2.scenery_wall.wpw2"),
  ("rct2.wbr2a", "rct2.scenery_wall.wbr2a"),
  ("rct2.wsw", "rct2.scenery_wall.wsw"),
  ("rct2.wmw", "rct2.scenery_wall.wmw"),
  ("rct2.wallnt32", "rct2.scenery_wall.wallnt32"),
  ("rct2.wallpr33", "rct2.scenery_wall.wallpr33"),
  ("rct2.wallcf32", "rct2.scenery_wall.wallcf32"),
  ("rct2.wc8", "rct2.scenery_wall.wc8"),
  ("rct2.wc5", "rct2.scenery_wall.wc5"),
  ("rct2.wallu132", "rct2.scenery_wall.wallu132"),
  ("rct2.wallbadm", "rct2.scenery_wall.wallbadm"),
  ("rct2.wsw2", "rct2.scenery_wall.wsw2"),
  ("rct2.wc1", "rct2.scenery_wall.wc1"),
  ("rct2.wallsk16", "rct2.scenery_wall.wallsk16"),
  ("rct2.wsw1", "rct2.scenery_wall.wsw1"),
  ("rct2.wallcfpc", "rct2.scenery_wall.wallcfpc"),
  ("rct2.wc12", "rct2.scenery_wall.wc12"),
  ("rct2.wallpost", "rct2.scenery_wall.wallpost"),
  ("rct2.whgg", "rct2.scenery_wall.whgg"),
  ("rct2.wc10", "rct2.scenery_wall.wc10"),
  ("rct2.wc14", "rct2.scenery_wall.wc14"),
  ("rct2.wrw", "rct2.scenery_wall.wrw"),
  ("rct2.wallcb8", "rct2.scenery_wall.wallcb8"),
  ("rct2.wcw2", "rct2.scenery_wall.wcw2"),
  ("rct2.wchg", "rct2.scenery_wall.wchg"),
  ("rct2.wbr1a", "rct2.scenery_wall.wbr1a"),
  ("rct2.wallpg32", "rct2.scenery_wall.wallpg32"),
  ("rct2.wpf", "rct2.scenery_wall.wpf"),
  ("rct2.wallnt33", "rct2.scenery_wall.wallnt33"),
  ("rct2.wallcx32", "rct2.scenery_wall.wallcx32"),
  ("rct2.wallst16", "rct2.scenery_wall.wallst16"),
  ("rct2.wc9", "rct2.scenery_wall.wc9"),
  ("rct2.wpfg", "rct2.scenery_wall.wpfg"),
  ("rct2.wc13", "rct2.scenery_wall.wc13"),
  ("rct2.wjf", "rct2.scenery_wall.wjf"),
  ("rct2.wallbr16", "rct2.scenery_wall.wallbr16"),
  ("rct2.wbrg", "rct2.scenery_wall.wbrg"),
  ("rct2.wc11", "rct2.scenery_wall.wc11"),
  ("rct2.wallbb33", "rct2.scenery_wall.wallbb33"),
  ("rct2.wallwf32", "rct2.scenery_wall.wallwf32"),
  ("rct2.wfw1", "rct2.scenery_wall.wfw1"),
  ("rct2.wallgl8", "rct2.scenery_wall.wallgl8"),
  ("rct2.wallrs8", "rct2.scenery_wall.wallrs8"),
  ("rct2.wallsc16", "rct2.scenery_wall.wallsc16"),
  ("rct2.wallcy32", "rct2.scenery_wall.wallcy32"),
  ("rct2.wallpr32", "rct2.scenery_wall.wallpr32"),
  ("rct2.wallu232", "rct2.scenery_wall.wallu232"),
  ("rct2.wallbb32", "rct2.scenery_wall.wallbb32"),
  ("rct2.wallgl16", "rct2.scenery_wall.wallgl16"),
  ("rct2.wallst32", "rct2.scenery_wall.wallst32"),
  ("rct2.wallrh32", "rct2.scenery_wall.wallrh32"),
  ("rct2.wallst8", "rct2.scenery_wall.wallst8"),
  ("rct2.wswg", "rct2.scenery_wall.wswg"),
  ("rct2.wallrs16", "rct2.scenery_wall.wallrs16"),
  ("rct2.wallcf8", "rct2.scenery_wall.wallcf8"),
  ("rct2.wallwd33", "rct2.scenery_wall.wallwd33"),
  ("rct2.wbr3", "rct2.scenery_wall.wbr3"),
  ("rct2.wallcbdr", "rct2.scenery_wall.wallcbdr"),
  ("rct2.wallbr8", "rct2.scenery_wall.wallbr8"),
  ("rct2.wallcbpc", "rct2.scenery_wall.wallcbpc"),
  ("rct2.wallbb8", "rct2.scenery_wall.wallbb8"),
  ("rct2.wallmm16", "rct2.scenery_wall.wallmm16"),
  ("rct2.wallcb16", "rct2.scenery_wall.wallcb16"),
  ("rct2.wallcz32", "rct2.scenery_wall.wallcz32"),
  ("rct2.walltn32", "rct2.scenery_wall.walltn32"),
  ("rct2.wallstfn", "rct2.scenery_wall.wallstfn"),
  ("rct2.wallwd8", "rct2.scenery_wall.wallwd8"),
  ("rct2.wallig24", "rct2.scenery_wall.wallig24"),
  ("rct2.wallbr32", "rct2.scenery_wall.wallbr32"),
  ("rct2.wmfg", "rct2.scenery_wall.wmfg"),
  ("rct2.wallstwn", "rct2.scenery_wall.wallstwn"),
  ("rct2.walljb16", "rct2.scenery_wall.walljb16"),
  ("rct2.wallcbwn", "rct2.scenery_wall.wallcbwn"),
  ("rct2.wc18", "rct2.scenery_wall.wc18"),
  ("rct2.wbr2", "rct2.scenery_wall.wbr2"),
  ("rct2.wallrk32", "rct2.scenery_wall.wallrk32"),
  ("rct2.wcw1", "rct2.scenery_wall.wcw1"),
  ("rct2.walllt32", "rct2.scenery_wall.walllt32"),
  ("rct2.wpw1", "rct2.scenery_wall.wpw1"),
  ("rct2.wgw2", "rct2.scenery_wall.wgw2"),
  ("rct2.walltxgt", "rct2.scenery_wall.walltxgt"),
  ("rct2.wc6", "rct2.scenery_wall.wc6"),
  ("rct2.wallbrdr", "rct2.scenery_wall.wallbrdr"),
  ("rct2.wallcw32", "rct2.scenery_wall.wallcw32"),
  ("rct2.wc17", "rct2.scenery_wall.wc17"),
  ("rct2.wallcfdr", "rct2.scenery_wall.wallcfdr"),
  ("rct2.wallbrwn", "rct2.scenery_wall.wallbrwn"),
  ("rct2.wc3", "rct2.scenery_wall.wc3"),
  ("rct2.wallwd32", "rct2.scenery_wall.wallwd32"),
  ("rct2.wallwdps", "rct2.scenery_wall.wallwdps"),
  ("rct2.wrwa", "rct2.scenery_wall.wrwa"),
  ("rct2.wch", "rct2.scenery_wall.wch"),
  ("rct2.wbw", "rct2.scenery_wall.wbw"),
  ("rct2.wc15", "rct2.scenery_wall.wc15"),
  ("rct2.wallpr35", "rct2.scenery_wall.wallpr35"),
  ("rct2.wmww", "rct2.scenery_wall.wmww"),
  ("rct2.wallsk32", "rct2.scenery_wall.wallsk32"),
  ("rct2.wc16", "rct2.scenery_wall.wc16"),
  ("rct2.wallcb32", "rct2.scenery_wall.wallcb32"),
  ("rct2.wallig16", "rct2.scenery_wall.wallig16"),
  ("rct2.wbr1", "rct2.scenery_wall.wbr1"),
  ("rct2.littersp", "rct2.footpath_item.littersp"),
  ("rct2.litterww", "rct2.footpath_item.litterww"),
  ("rct2.jumpsnw1", "rct2.footpath_item.jumpsnw1"),
  ("rct2.benchspc", "rct2.footpath_item.benchspc"),
  ("rct2.lamppir", "rct2.footpath_item.lamppir"),
  ("rct2.benchpl", "rct2.footpath_item.benchpl"),
  ("rct2.bench1", "rct2.footpath_item.bench1"),
  ("rct2.lampdsy", "rct2.footpath_item.lampdsy"),
  ("rct2.qtv1", "rct2.footpath_item.qtv1"),
  ("rct2.benchlog", "rct2.footpath_item.benchlog"),
  ("rct2.lamp3", "rct2.footpath_item.lamp3"),
  ("rct2.jumpfnt1", "rct2.footpath_item.jumpfnt1"),
  ("rct2.lamp1", "rct2.footpath_item.lamp1"),
  ("rct2.litter1", "rct2.footpath_item.litter1"),
  ("rct2.benchstn", "rct2.footpath_item.benchstn"),
  ("rct2.littermn", "rct2.footpath_item.littermn"),
  ("rct2.lamp4", "rct2.footpath_item.lamp4"),
  ("rct2.lamp2", "rct2.footpath_item.lamp2"),
  ("rct2.railings.bamboobrown", "rct2.footpath_railings.bamboo_brown"),
  ("rct2.railings.space", "rct2.footpath_railings.space"),
  ("rct2.railings.bambooblack", "rct2.footpath_railings.bamboo_black"),
  ("rct2.railings.wood", "rct2.footpath_railings.wood"),
  ("rct2.railings.concretegreen", "rct2.footpath_railings.concrete_green"),
  ("rct2.railings.concrete", "rct2.footpath_railings.concrete"),
  ("rct2.rckc", "rct2.ride.rckc"),
  ("rct2.hchoc", "rct2.ride.hchoc"),
  ("rct2.vekst", "rct2.ride.vekst"),
  ("rct2.c3d", "rct2.ride.c3d"),
  ("rct2.obs1", "rct2.ride.obs1"),
  ("rct2.truck1", "rct2.ride.truck1"),
  ("rct2.arrsw1", "rct2.ride.arrsw1"),
  ("rct2.dough", "rct2.ride.dough"),
  ("rct2.faid1", "rct2.ride.faid1"),
  ("rct2.infok", "rct2.ride.infok"),
  ("rct2.vekdv", "rct2.ride.vekdv"),
  ("rct2.revcar", "rct2.ride.revcar"),
  ("rct2.smono", "rct2.ride.smono"),
  ("rct2.gdrop1", "rct2.ride.gdrop1"),
  ("rct2.tram1", "rct2.ride.tram1"),
  ("rct2.coffs", "rct2.ride.coffs"),
  ("rct2.bmsu", "rct2.ride.bmsu"),
  ("rct2.substl", "rct2.ride.substl"),
  ("rct2.steep2", "rct2.ride.steep2"),
  ("rct2.icetst", "rct2.ride.icetst"),
  ("rct2.intst", "rct2.ride.intst"),
  ("rct2.fsauc", "rct2.ride.fsauc"),
  ("rct2.aml1", "rct2.ride.aml1"),
  ("rct2.souvs", "rct2.ride.souvs"),
  ("rct2.rapboat", "rct2.ride.rapboat"),
  ("rct2.nrl2", "rct2.ride.nrl2"),
  ("rct2.bmsd", "rct2.ride.bmsd"),
  ("rct2.icecr2", "rct2.ride.icecr2"),
  ("rct2.wonton", "rct2.ride.wonton"),
  ("rct2.bnoodles", "rct2.ride.bnoodles"),
  ("rct2.obs2", "rct2.ride.obs2"),
  ("rct2.atm1", "rct2.ride.atm1"),
  ("rct2.ctcar", "rct2.ride.ctcar"),
  ("rct2.topsp1", "rct2.ride.topsp1"),
  ("rct2.tlt1", "rct2.ride.tlt1"),
  ("rct2.sungst", "rct2.ride.sungst"),
  ("rct2.4x4", "rct2.ride.4x4"),
  ("rct2.pmt1", "rct2.ride.pmt1"),
  ("rct2.toffs", "rct2.ride.toffs"),
  ("rct2.steep1", "rct2.ride.steep1"),
  ("rct2.soybean", "rct2.ride.soybean"),
  ("rct2.zldb", "rct2.ride.zldb"),
  ("rct2.ding1", "rct2.ride.ding1"),
  ("rct2.smc1", "rct2.ride.smc1"),
  ("rct2.funcake", "rct2.ride.funcake"),
  ("rct2.skytr", "rct2.ride.skytr"),
  ("rct2.cndyf", "rct2.ride.cndyf"),
  ("rct2.bmrb", "rct2.ride.bmrb"),
  ("rct2.goltr", "rct2.ride.goltr"),
  ("rct2.simpod", "rct2.ride.simpod"),
  ("rct2.amt1", "rct2.ride.amt1"),
  ("rct2.bmfl", "rct2.ride.bmfl"),
  ("rct2.premt1", "rct2.ride.premt1"),
  ("rct2.togst", "rct2.ride.togst"),
  ("rct2.chcks", "rct2.ride.chcks"),
  ("rct2.hhbuild", "rct2.ride.hhbuild"),
  ("rct2.icecr1", "rct2.ride.icecr1"),
  ("rct2.utcar", "rct2.ride.utcar"),
  ("rct2.submar", "rct2.ride.submar"),
  ("rct2.fwh1", "rct2.ride.fwh1"),
  ("rct2.swans", "rct2.ride.swans"),
  ("rct2.bboat", "rct2.ride.bboat"),
  ("rct2.golf1", "rct2.ride.golf1"),
  ("rct2.ptct2r", "rct2.ride.ptct2r"),
  ("rct2.arrx", "rct2.ride.arrx"),
  ("rct2.slcfo", "rct2.ride.slcfo"),
  ("rct2.burgb", "rct2.ride.burgb"),
  ("rct2.hotds", "rct2.ride.hotds"),
  ("rct2.gtc", "rct2.ride.gtc"),
  ("rct2.tshrt", "rct2.ride.tshrt"),
  ("rct2.tlt2", "rct2.ride.tlt2"),
  ("rct2.scht1", "rct2.ride.scht1"),
  ("rct2.mgr1", "rct2.ride.mgr1"),
  ("rct2.swsh2", "rct2.ride.swsh2"),
  ("rct2.wmspin", "rct2.ride.wmspin"),
  ("rct2.chpsh2", "rct2.ride.chpsh2"),
  ("rct2.cstboat", "rct2.ride.cstboat"),
  ("rct2.mono1", "rct2.ride.mono1"),
  ("rct2.balln", "rct2.ride.balln"),
  ("rct2.vekvamp", "rct2.ride.vekvamp"),
  ("rct2.mft", "rct2.ride.mft"),
  ("rct2.hmaze", "rct2.ride.hmaze"),
  ("rct2.sqdst", "rct2.ride.sqdst"),
  ("rct2.intinv", "rct2.ride.intinv"),
  ("rct2.jstar1", "rct2.ride.jstar1"),
  ("rct2.mono3", "rct2.ride.mono3"),
  ("rct2.ssc1", "rct2.ride.ssc1"),
  ("rct2.kart1", "rct2.ride.kart1"),
  ("rct2.cboat", "rct2.ride.cboat"),
  ("rct2.cookst", "rct2.ride.cookst"),
  ("rct2.monbk", "rct2.ride.monbk"),
  ("rct2.swsh1", "rct2.ride.swsh1"),
  ("rct2.trike", "rct2.ride.trike"),
  ("rct2.rftboat", "rct2.ride.rftboat"),
  ("rct2.bmvd", "rct2.ride.bmvd"),
  ("rct2.sbox", "rct2.ride.sbox"),
  ("rct2.sfric1", "rct2.ride.sfric1"),
  ("rct2.arrt1", "rct2.ride.arrt1"),
  ("rct2.thcar", "rct2.ride.thcar"),
  ("rct2.wmouse", "rct2.ride.wmouse"),
  ("rct2.spboat", "rct2.ride.spboat"),
  ("rct2.clift2", "rct2.ride.clift2"),
  ("rct2.jski", "rct2.ride.jski"),
  ("rct2.mcarpet1", "rct2.ride.mcarpet1"),
  ("rct2.lfb1", "rct2.ride.lfb1"),
  ("rct2.ivmc1", "rct2.ride.ivmc1"),
  ("rct2.popcs", "rct2.ride.popcs"),
  ("rct2.vreel", "rct2.ride.vreel"),
  ("rct2.mono2", "rct2.ride.mono2"),
  ("rct2.twist1", "rct2.ride.twist1"),
  ("rct2.pretst", "rct2.ride.pretst"),
  ("rct2.lemst", "rct2.ride.lemst"),
  ("rct2.ptct2", "rct2.ride.ptct2"),
  ("rct2.arrt2", "rct2.ride.arrt2"),
  ("rct2.srings", "rct2.ride.srings"),
  ("rct2.nemt", "rct2.ride.nemt"),
  ("rct2.chknug", "rct2.ride.chknug"),
  ("rct2.nrl", "rct2.ride.nrl"),
  ("rct2.cindr", "rct2.ride.cindr"),
  ("rct2.rcr", "rct2.ride.rcr"),
  ("rct2.rsaus", "rct2.ride.rsaus"),
  ("rct2.frnood", "rct2.ride.frnood"),
  ("rct2.mbsoup", "rct2.ride.mbsoup"),
  ("rct2.chbuild", "rct2.ride.chbuild"),
  ("rct2.zlog", "rct2.ride.zlog"),
  ("rct2.chpsh", "rct2.ride.chpsh"),
  ("rct2.slct", "rct2.ride.slct"),
  ("rct2.lift1", "rct2.ride.lift1"),
  ("rct2.spcar", "rct2.ride.spcar"),
  ("rct2.twist2", "rct2.ride.twist2"),
  ("rct2.hatst", "rct2.ride.hatst"),
  ("rct2.ptct1", "rct2.ride.ptct1"),
  ("rct2.dodg1", "rct2.ride.dodg1"),
  ("rct2.starfrdr", "rct2.ride.starfrdr"),
  ("rct2.clift1", "rct2.ride.clift1"),
  ("rct2.wmmine", "rct2.ride.wmmine"),
  ("rct2.pizzs", "rct2.ride.pizzs"),
  ("rct2.rboat", "rct2.ride.rboat"),
  ("rct2.batfl", "rct2.ride.batfl"),
  ("rct2.hskelt", "rct2.ride.hskelt"),
  ("rct2.utcarr", "rct2.ride.utcarr"),
  ("rct2.vcr", "rct2.ride.vcr"),
  ("rct2.hmcar", "rct2.ride.hmcar"),
  ("rct2.arrsw2", "rct2.ride.arrsw2"),
  ("rct2.helicar", "rct2.ride.helicar"),
  ("rct2.wcatc", "rct2.ride.wcatc"),
  ("rct2.bmair", "rct2.ride.bmair"),
  ("rct2.circus1", "rct2.ride.circus1"),
  ("rct2.bob1", "rct2.ride.bob1"),
  ("rct2.spdrcr", "rct2.ride.spdrcr"),
  ("rct2.enterp", "rct2.ride.enterp"),
  ("rct2.revf1", "rct2.ride.revf1"),
  ("rct2.intbob", "rct2.ride.intbob"),
  ("rct2.smc2", "rct2.ride.smc2"),
  ("rct2.drnks", "rct2.ride.drnks"),
  ("rct2.pkesfh", "rct2.park_entrance.pkesfh"),
  ("rct2.pkent1", "rct2.park_entrance.pkent1"),
  ("rct2.pkemm", "rct2.park_entrance.pkemm"),
  ("rct2.pathsurface.queue_red", "rct2.footpath_surface.queue_red"),
  ("rct2.pathsurface.queue_yellow", "rct2.footpath_surface.queue_yellow"),
  ("rct2.pathsurface.tarmac", "rct2.footpath_surface.tarmac"),
  ("rct2.pathsurface.crazypaving", "rct2.footpath_surface.crazy_paving"),
  ("rct2.pathsurface.ash", "rct2.footpath_surface.ash"),
  ("rct2.pathsurface.queue_green", "rct2.footpath_surface.queue_green"),
  ("rct2.pathsurface.tarmac.green", "rct2.footpath_surface.tarmac_green"),
  ("rct2.pathsurface.queue_blue", "rct2.footpath_surface.queue_blue"),
  ("rct2.pathsurface.space", "rct2.footpath_surface.tarmac_red"),
  ("rct2.pathsurface.tarmac.brown", "rct2.footpath_surface.tarmac_brown"),
  ("rct2.pathsurface.dirt", "rct2.footpath_surface.dirt"),
  ("rct2.pathsurface.road", "rct2.footpath_surface.road"),
  ("rct2.surface.sandred", "rct2.terrain_surface.sand_red"),
  ("rct2.surface.grassclumps", "rct2.terrain_surface.grass_clumps"),
  ("rct2.surface.gridgreen", "rct2.terrain_surface.grid_green"),
  ("rct2.surface.sandbrown", "rct2.terrain_surface.sand_brown"),
  ("rct2.surface.gridyellow", "rct2.terrain_surface.grid_yellow"),
  ("rct2.surface.martian", "rct2.terrain_surface.martian"),
  ("rct2.surface.dirt", "rct2.terrain_surface.dirt"),
  ("rct2.surface.gridred", "rct2.terrain_surface.grid_red"),
  ("rct2.surface.ice", "rct2.terrain_surface.ice"),
  ("rct2.surface.grass", "rct2.terrain_surface.grass"),
  ("rct2.surface.sand", "rct2.terrain_surface.sand"),
  ("rct2.surface.rock", "rct2.terrain_surface.rock"),
  ("rct2.surface.chequerboard", "rct2.terrain_surface.chequerboard"),
  ("rct2.surface.gridpurple", "rct2.terrain_surface.grid_purple"),
  ("rct2.station.castlegrey", "rct2.station.castle_grey"),
  ("rct2.station.space", "rct2.station.space"),
  ("rct2.station.plain", "rct2.station.plain"),
  ("rct2.station.log", "rct2.station.log"),
  ("rct2.station.jungle", "rct2.station.jungle"),
  ("rct2.station.snow", "rct2.station.snow"),
  ("rct2.station.castlebrown", "rct2.station.castle_brown"),
  ("rct2.station.abstract", "rct2.station.abstract"),
  ("rct2.station.pagoda", "rct2.station.pagoda"),
  ("rct2.station.classical", "rct2.station.classical"),
  ("rct2.station.canvastent", "rct2.station.canvas_tent"),
  ("rct2.station.wooden", "rct2.station.wooden"),
  ("rct2.edge.rock", "rct2.terrain_edge.rock"),
  ("rct2.edge.woodred", "rct2.terrain_edge.wood_red"),
  ("rct2.edge.ice", "rct2.terrain_edge.ice"),
  ("rct2.edge.woodblack", "rct2.terrain_edge.wood_black"),
  ("rct2.tt.rdmet2x2", "rct2tt.scenery_large.rdmet2x2"),
  ("rct2.tt.travlr02", "rct2tt.scenery_large.travlr02"),
  ("rct2.tt.romne2x1", "rct2tt.scenery_large.romne2x1"),
  ("rct2.tt.jailxx17", "rct2tt.scenery_large.jailxx17"),
  ("rct2.tt.perdtk02", "rct2tt.scenery_large.perdtk02"),
  ("rct2.tt.schntent", "rct2tt.scenery_large.schntent"),
  ("rct2.tt.hrbwal07", "rct2tt.scenery_large.hrbwal07"),
  ("rct2.tt.alnstr08", "rct2tt.scenery_large.alnstr08"),
  ("rct2.tt.4x4volca", "rct2tt.scenery_large.4x4volca"),
  ("rct2.tt.futsky25", "rct2tt.scenery_large.futsky25"),
  ("rct2.tt.bigdrums", "rct2tt.scenery_large.bigdrums"),
  ("rct2.tt.ploughxx", "rct2tt.scenery_large.ploughxx"),
  ("rct2.tt.oldnyk20", "rct2tt.scenery_large.oldnyk20"),
  ("rct2.tt.hrbwal08", "rct2tt.scenery_large.hrbwal08"),
  ("rct2.tt.psntwl26", "rct2tt.scenery_large.psntwl26"),
  ("rct2.tt.romns2x2", "rct2tt.scenery_large.romns2x2"),
  ("rct2.tt.oldnyk27", "rct2tt.scenery_large.oldnyk27"),
  ("rct2.tt.ghotrod2", "rct2tt.scenery_large.ghotrod2"),
  ("rct2.tt.futsky20", "rct2tt.scenery_large.futsky20"),
  ("rct2.tt.majoroak", "rct2tt.scenery_large.majoroak"),
  ("rct2.tt.artdec25", "rct2tt.scenery_large.artdec25"),
  ("rct2.tt.jailxx18", "rct2tt.scenery_large.jailxx18"),
  ("rct2.tt.futsky26", "rct2tt.scenery_large.futsky26"),
  ("rct2.tt.futsky22", "rct2tt.scenery_large.futsky22"),
  ("rct2.tt.oldnyk32", "rct2tt.scenery_large.oldnyk32"),
  ("rct2.tt.peasthut", "rct2tt.scenery_large.peasthut"),
  ("rct2.tt.histfix2", "rct2tt.scenery_large.histfix2"),
  ("rct2.tt.artdec27", "rct2tt.scenery_large.artdec27"),
  ("rct2.tt.strgs2x2", "rct2tt.scenery_large.strgs2x2"),
  ("rct2.tt.forbidft", "rct2tt.scenery_large.forbidft"),
  ("rct2.tt.histfix1", "rct2tt.scenery_large.histfix1"),
  ("rct2.tt.mcastl13", "rct2tt.scenery_large.mcastl13"),
  ("rct2.tt.futsky31", "rct2tt.scenery_large.futsky31"),
  ("rct2.tt.footprnt", "rct2tt.scenery_large.footprnt"),
  ("rct2.tt.hrbwal09", "rct2tt.scenery_large.hrbwal09"),
  ("rct2.tt.mcastl11", "rct2tt.scenery_large.mcastl11"),
  ("rct2.tt.oldnyk30", "rct2tt.scenery_large.oldnyk30"),
  ("rct2.tt.caventra", "rct2tt.scenery_large.caventra"),
  ("rct2.tt.4x4diner", "rct2tt.scenery_large.4x4diner"),
  ("rct2.tt.futsky24", "rct2tt.scenery_large.futsky24"),
  ("rct2.tt.metoan01", "rct2tt.scenery_large.metoan01"),
  ("rct2.tt.perdtk01", "rct2tt.scenery_large.perdtk01"),
  ("rct2.tt.artdec26", "rct2tt.scenery_large.artdec26"),
  ("rct2.tt.romvc2x2", "rct2tt.scenery_large.romvc2x2"),
  ("rct2.tt.alnstr09", "rct2tt.scenery_large.alnstr09"),
  ("rct2.tt.mcastl17", "rct2tt.scenery_large.mcastl17"),
  ("rct2.tt.strvs2x2", "rct2tt.scenery_large.strvs2x2"),
  ("rct2.tt.romnm2x2", "rct2tt.scenery_large.romnm2x2"),
  ("rct2.tt.gbeetlex", "rct2tt.scenery_large.gbeetlex"),
  ("rct2.tt.gschlbus", "rct2tt.scenery_large.gschlbus"),
  ("rct2.tt.schnpits", "rct2tt.scenery_large.schnpits"),
  ("rct2.tt.shipm4x4", "rct2tt.scenery_large.shipm4x4"),
  ("rct2.tt.romve2x1", "rct2tt.scenery_large.romve2x1"),
  ("rct2.tt.rdmet4x4", "rct2tt.scenery_large.rdmet4x4"),
  ("rct2.tt.psntwl28", "rct2tt.scenery_large.psntwl28"),
  ("rct2.tt.futsky30", "rct2tt.scenery_large.futsky30"),
  ("rct2.tt.rdmeto02", "rct2tt.scenery_large.rdmeto02"),
  ("rct2.tt.jetplan1", "rct2tt.scenery_large.jetplan1"),
  ("rct2.tt.oldnyk24", "rct2tt.scenery_large.oldnyk24"),
  ("rct2.tt.futsky32", "rct2tt.scenery_large.futsky32"),
  ("rct2.tt.peramob2", "rct2tt.scenery_large.peramob2"),
  ("rct2.tt.metoan02", "rct2tt.scenery_large.metoan02"),
  ("rct2.tt.prdyacht", "rct2tt.scenery_large.prdyacht"),
  ("rct2.tt.mcastl14", "rct2tt.scenery_large.mcastl14"),
  ("rct2.tt.mcastl12", "rct2tt.scenery_large.mcastl12"),
  ("rct2.tt.corns2x2", "rct2tt.scenery_large.corns2x2"),
  ("rct2.tt.psntwl27", "rct2tt.scenery_large.psntwl27"),
  ("rct2.tt.hadesxxx", "rct2tt.scenery_large.hadesxxx"),
  ("rct2.tt.corvs2x2", "rct2tt.scenery_large.corvs2x2"),
  ("rct2.tt.mcastl16", "rct2tt.scenery_large.mcastl16"),
  ("rct2.tt.alnstr10", "rct2tt.scenery_large.alnstr10"),
  ("rct2.tt.ashnymph", "rct2tt.scenery_large.ashnymph"),
  ("rct2.tt.schnpit2", "rct2tt.scenery_large.schnpit2"),
  ("rct2.tt.futsky28", "rct2tt.scenery_large.futsky28"),
  ("rct2.tt.cyclopss", "rct2tt.scenery_large.cyclopss"),
  ("rct2.tt.4x4stnhn", "rct2tt.scenery_large.4x4stnhn"),
  ("rct2.tt.feastabl", "rct2tt.scenery_large.feastabl"),
  ("rct2.tt.oldnyk26", "rct2tt.scenery_large.oldnyk26"),
  ("rct2.tt.oldnyk22", "rct2tt.scenery_large.oldnyk22"),
  ("rct2.tt.tavernxx", "rct2tt.scenery_large.tavernxx"),
  ("rct2.tt.mcastl15", "rct2tt.scenery_large.mcastl15"),
  ("rct2.tt.mcastl18", "rct2tt.scenery_large.mcastl18"),
  ("rct2.tt.crsss2x2", "rct2tt.scenery_large.crsss2x2"),
  ("rct2.tt.oldnyk28", "rct2tt.scenery_large.oldnyk28"),
  ("rct2.tt.hodshut2", "rct2tt.scenery_large.hodshut2"),
  ("rct2.tt.romvm2x2", "rct2tt.scenery_large.romvm2x2"),
  ("rct2.tt.travlr01", "rct2tt.scenery_large.travlr01"),
  ("rct2.tt.hrbwal11", "rct2tt.scenery_large.hrbwal11"),
  ("rct2.tt.rdmeto01", "rct2tt.scenery_large.rdmeto01"),
  ("rct2.tt.oldnyk25", "rct2tt.scenery_large.oldnyk25"),
  ("rct2.tt.jetplan2", "rct2tt.scenery_large.jetplan2"),
  ("rct2.tt.alencrsh", "rct2tt.scenery_large.alencrsh"),
  ("rct2.tt.cratr2x2", "rct2tt.scenery_large.cratr2x2"),
  ("rct2.tt.romnc2x2", "rct2tt.scenery_large.romnc2x2"),
  ("rct2.tt.hodshut1", "rct2tt.scenery_large.hodshut1"),
  ("rct2.tt.romvs2x2", "rct2tt.scenery_large.romvs2x2"),
  ("rct2.tt.jetplan3", "rct2tt.scenery_large.jetplan3"),
  ("rct2.tt.1950scar", "rct2tt.scenery_large.1950scar"),
  ("rct2.tt.oldnyk29", "rct2tt.scenery_large.oldnyk29"),
  ("rct2.tt.ghotrod1", "rct2tt.scenery_large.ghotrod1"),
  ("rct2.tt.peramob1", "rct2tt.scenery_large.peramob1"),
  ("rct2.tt.mcastl01", "rct2tt.scenery_large.mcastl01"),
  ("rct2.tt.robncamp", "rct2tt.scenery_large.robncamp"),
  ("rct2.tt.shipb4x4", "rct2tt.scenery_large.shipb4x4"),
  ("rct2.tt.oldnyk23", "rct2tt.scenery_large.oldnyk23"),
  ("rct2.tt.4x4gmant", "rct2tt.scenery_large.4x4gmant"),
  ("rct2.tt.bandbusx", "rct2tt.scenery_large.bandbusx"),
  ("rct2.tt.alnstr11", "rct2tt.scenery_large.alnstr11"),
  ("rct2.tt.ships4x4", "rct2tt.scenery_large.ships4x4"),
  ("rct2.tt.oldnyk21", "rct2tt.scenery_large.oldnyk21"),
  ("rct2.tt.4x4trpit", "rct2tt.scenery_large.4x4trpit"),
  ("rct2.tt.cratr4x4", "rct2tt.scenery_large.cratr4x4"),
  ("rct2.tt.melmtree", "rct2tt.scenery_large.melmtree"),
  ("rct2.tt.crsvs2x2", "rct2tt.scenery_large.crsvs2x2"),
  ("rct2.tt.scg1960s", "rct2tt.scenery_group.scg1960s"),
  ("rct2.tt.scgfutur", "rct2tt.scenery_group.scgfutur"),
  ("rct2.tt.scgmytho", "rct2tt.scenery_group.scgmytho"),
  ("rct2.tt.scg1920s", "rct2tt.scenery_group.scg1920s"),
  ("rct2.tt.scg1920w", "rct2tt.scenery_group.scg1920w"),
  ("rct2.tt.scgmediv", "rct2tt.scenery_group.scgmediv"),
  ("rct2.tt.scgjurra", "rct2tt.scenery_group.scgjurra"),
  ("rct2.tt.waveking", "rct2tt.scenery_small.waveking"),
  ("rct2.tt.shwdfrst", "rct2tt.scenery_small.shwdfrst"),
  ("rct2.tt.psntwl13", "rct2tt.scenery_small.psntwl13"),
  ("rct2.tt.hevbth09", "rct2tt.scenery_small.hevbth09"),
  ("rct2.tt.medtools", "rct2tt.scenery_small.medtools"),
  ("rct2.tt.compeyex", "rct2tt.scenery_small.compeyex"),
  ("rct2.tt.evalien3", "rct2tt.scenery_small.evalien3"),
  ("rct2.tt.psntwl10", "rct2tt.scenery_small.psntwl10"),
  ("rct2.tt.hrbwal04", "rct2tt.scenery_small.hrbwal04"),
  ("rct2.tt.runway06", "rct2tt.scenery_small.runway06"),
  ("rct2.tt.elecfen4", "rct2tt.scenery_small.elecfen4"),
  ("rct2.tt.primst01", "rct2tt.scenery_small.primst01"),
  ("rct2.tt.hevrof02", "rct2tt.scenery_small.hevrof02"),
  ("rct2.tt.dkfight1", "rct2tt.scenery_small.dkfight1"),
  ("rct2.tt.oldnyk07", "rct2tt.scenery_small.oldnyk07"),
  ("rct2.tt.swamplt4", "rct2tt.scenery_small.swamplt4"),
  ("rct2.tt.hovrcar4", "rct2tt.scenery_small.hovrcar4"),
  ("rct2.tt.spiktail", "rct2tt.scenery_small.spiktail"),
  ("rct2.tt.laserx01", "rct2tt.scenery_small.laserx01"),
  ("rct2.tt.stgband1", "rct2tt.scenery_small.stgband1"),
  ("rct2.tt.pdflag03", "rct2tt.scenery_small.pdflag03"),
  ("rct2.tt.futsky21", "rct2tt.scenery_small.futsky21"),
  ("rct2.tt.artdec01", "rct2tt.scenery_small.artdec01"),
  ("rct2.tt.horsecrt", "rct2tt.scenery_small.horsecrt"),
  ("rct2.tt.spcshp01", "rct2tt.scenery_small.spcshp01"),
  ("rct2.tt.gldchest", "rct2tt.scenery_small.gldchest"),
  ("rct2.tt.cavemenx", "rct2tt.scenery_small.cavemenx"),
  ("rct2.tt.dkfight2", "rct2tt.scenery_small.dkfight2"),
  ("rct2.tt.stnesta4", "rct2tt.scenery_small.stnesta4"),
  ("rct2.tt.dinsign2", "rct2tt.scenery_small.dinsign2"),
  ("rct2.tt.oldnyk19", "rct2tt.scenery_small.oldnyk19"),
  ("rct2.tt.argonau2", "rct2tt.scenery_small.argonau2"),
  ("rct2.tt.bigbassx", "rct2tt.scenery_small.bigbassx"),
  ("rct2.tt.artdec10", "rct2tt.scenery_small.artdec10"),
  ("rct2.tt.runway04", "rct2tt.scenery_small.runway04"),
  ("rct2.tt.valkri01", "rct2tt.scenery_small.valkri01"),
  ("rct2.tt.futsky39", "rct2tt.scenery_small.futsky39"),
  ("rct2.tt.artdec14", "rct2tt.scenery_small.artdec14"),
  ("rct2.tt.fwrprdc1", "rct2tt.scenery_small.fwrprdc1"),
  ("rct2.tt.skeleto3", "rct2tt.scenery_small.skeleto3"),
  ("rct2.tt.artdec12", "rct2tt.scenery_small.artdec12"),
  ("rct2.tt.alnstr06", "rct2tt.scenery_small.alnstr06"),
  ("rct2.tt.jailxx20", "rct2tt.scenery_small.jailxx20"),
  ("rct2.tt.indwal12", "rct2tt.scenery_small.indwal12"),
  ("rct2.tt.speakr01", "rct2tt.scenery_small.speakr01"),
  ("rct2.tt.futsky42", "rct2tt.scenery_small.futsky42"),
  ("rct2.tt.mcastl04", "rct2tt.scenery_small.mcastl04"),
  ("rct2.tt.jailxx21", "rct2tt.scenery_small.jailxx21"),
  ("rct2.tt.futsky33", "rct2tt.scenery_small.futsky33"),
  ("rct2.tt.spcshp06", "rct2tt.scenery_small.spcshp06"),
  ("rct2.tt.artdec09", "rct2tt.scenery_small.artdec09"),
  ("rct2.tt.indwal18", "rct2tt.scenery_small.indwal18"),
  ("rct2.tt.artdec22", "rct2tt.scenery_small.artdec22"),
  ("rct2.tt.psntwl05", "rct2tt.scenery_small.psntwl05"),
  ("rct2.tt.hevbth03", "rct2tt.scenery_small.hevbth03"),
  ("rct2.tt.elecfen5", "rct2tt.scenery_small.elecfen5"),
  ("rct2.tt.indwal10", "rct2tt.scenery_small.indwal10"),
  ("rct2.tt.schnpl01", "rct2tt.scenery_small.schnpl01"),
  ("rct2.tt.hevbth15", "rct2tt.scenery_small.hevbth15"),
  ("rct2.tt.alenplt2", "rct2tt.scenery_small.alenplt2"),
  ("rct2.tt.artdec28", "rct2tt.scenery_small.artdec28"),
  ("rct2.tt.robnhood", "rct2tt.scenery_small.robnhood"),
  ("rct2.tt.alentre2", "rct2tt.scenery_small.alentre2"),
  ("rct2.tt.schnpl05", "rct2tt.scenery_small.schnpl05"),
  ("rct2.tt.futsky36", "rct2tt.scenery_small.futsky36"),
  ("rct2.tt.smoksk01", "rct2tt.scenery_small.smoksk01"),
  ("rct2.tt.primhear", "rct2tt.scenery_small.primhear"),
  ("rct2.tt.skeleto2", "rct2tt.scenery_small.skeleto2"),
  ("rct2.tt.futsky11", "rct2tt.scenery_small.futsky11"),
  ("rct2.tt.swrdstne", "rct2tt.scenery_small.swrdstne"),
  ("rct2.tt.hrbwal01", "rct2tt.scenery_small.hrbwal01"),
  ("rct2.tt.evalien2", "rct2tt.scenery_small.evalien2"),
  ("rct2.tt.indwal21", "rct2tt.scenery_small.indwal21"),
  ("rct2.tt.smallcpu", "rct2tt.scenery_small.smallcpu"),
  ("rct2.tt.rswatres", "rct2tt.scenery_small.rswatres"),
  ("rct2.tt.psntwl06", "rct2tt.scenery_small.psntwl06"),
  ("rct2.tt.primroot", "rct2tt.scenery_small.primroot"),
  ("rct2.tt.spcshp03", "rct2tt.scenery_small.spcshp03"),
  ("rct2.tt.stoolset", "rct2tt.scenery_small.stoolset"),
  ("rct2.tt.ggntocto", "rct2tt.scenery_small.ggntocto"),
  ("rct2.tt.tarpit02", "rct2tt.scenery_small.tarpit02"),
  ("rct2.tt.drgnattk", "rct2tt.scenery_small.drgnattk"),
  ("rct2.tt.futsky01", "rct2tt.scenery_small.futsky01"),
  ("rct2.tt.tarpit05", "rct2tt.scenery_small.tarpit05"),
  ("rct2.tt.jailxx13", "rct2tt.scenery_small.jailxx13"),
  ("rct2.tt.tarpit10", "rct2tt.scenery_small.tarpit10"),
  ("rct2.tt.hvrbike1", "rct2tt.scenery_small.hvrbike1"),
  ("rct2.tt.oldnyk33", "rct2tt.scenery_small.oldnyk33"),
  ("rct2.tt.metrcrs2", "rct2tt.scenery_small.metrcrs2"),
  ("rct2.tt.hevbth12", "rct2tt.scenery_small.hevbth12"),
  ("rct2.tt.swamplt5", "rct2tt.scenery_small.swamplt5"),
  ("rct2.tt.spcshp08", "rct2tt.scenery_small.spcshp08"),
  ("rct2.tt.indwal22", "rct2tt.scenery_small.indwal22"),
  ("rct2.tt.spcshp09", "rct2tt.scenery_small.spcshp09"),
  ("rct2.tt.hevbth05", "rct2tt.scenery_small.hevbth05"),
  ("rct2.tt.oldnyk09", "rct2tt.scenery_small.oldnyk09"),
  ("rct2.tt.elecfen3", "rct2tt.scenery_small.elecfen3"),
  ("rct2.tt.frbeacon", "rct2tt.scenery_small.frbeacon"),
  ("rct2.tt.strictop", "rct2tt.scenery_small.strictop"),
  ("rct2.tt.futsky40", "rct2tt.scenery_small.futsky40"),
  ("rct2.tt.swamplt6", "rct2tt.scenery_small.swamplt6"),
  ("rct2.tt.mamthw02", "rct2tt.scenery_small.mamthw02"),
  ("rct2.tt.psntwl30", "rct2tt.scenery_small.psntwl30"),
  ("rct2.tt.primroor", "rct2tt.scenery_small.primroor"),
  ("rct2.tt.spcshp07", "rct2tt.scenery_small.spcshp07"),
  ("rct2.tt.futsky44", "rct2tt.scenery_small.futsky44"),
  ("rct2.tt.jazzmbr1", "rct2tt.scenery_small.jazzmbr1"),
  ("rct2.tt.pdflag05", "rct2tt.scenery_small.pdflag05"),
  ("rct2.tt.tarpit01", "rct2tt.scenery_small.tarpit01"),
  ("rct2.tt.futsky17", "rct2tt.scenery_small.futsky17"),
  ("rct2.tt.futsky04", "rct2tt.scenery_small.futsky04"),
  ("rct2.tt.pdflag04", "rct2tt.scenery_small.pdflag04"),
  ("rct2.tt.artdec05", "rct2tt.scenery_small.artdec05"),
  ("rct2.tt.psntwl02", "rct2tt.scenery_small.psntwl02"),
  ("rct2.tt.indwal30", "rct2tt.scenery_small.indwal30"),
  ("rct2.tt.mcastl06", "rct2tt.scenery_small.mcastl06"),
  ("rct2.tt.jazzmbr2", "rct2tt.scenery_small.jazzmbr2"),
  ("rct2.tt.futsky48", "rct2tt.scenery_small.futsky48"),
  ("rct2.tt.futsky05", "rct2tt.scenery_small.futsky05"),
  ("rct2.tt.oldnyk13", "rct2tt.scenery_small.oldnyk13"),
  ("rct2.tt.psntwl31", "rct2tt.scenery_small.psntwl31"),
  ("rct2.tt.argonau3", "rct2tt.scenery_small.argonau3"),
  ("rct2.tt.psntwl07", "rct2tt.scenery_small.psntwl07"),
  ("rct2.tt.oldnyk16", "rct2tt.scenery_small.oldnyk16"),
  ("rct2.tt.haybails", "rct2tt.scenery_small.haybails"),
  ("rct2.tt.indwal29", "rct2tt.scenery_small.indwal29"),
  ("rct2.tt.clnsmen1", "rct2tt.scenery_small.clnsmen1"),
  ("rct2.tt.smoksk02", "rct2tt.scenery_small.smoksk02"),
  ("rct2.tt.oldnyk05", "rct2tt.scenery_small.oldnyk05"),
  ("rct2.tt.tarpit13", "rct2tt.scenery_small.tarpit13"),
  ("rct2.tt.mcastl05", "rct2tt.scenery_small.mcastl05"),
  ("rct2.tt.hevbth10", "rct2tt.scenery_small.hevbth10"),
  ("rct2.tt.indwal04", "rct2tt.scenery_small.indwal04"),
  ("rct2.tt.futsky08", "rct2tt.scenery_small.futsky08"),
  ("rct2.tt.futsky12", "rct2tt.scenery_small.futsky12"),
  ("rct2.tt.stnesta1", "rct2tt.scenery_small.stnesta1"),
  ("rct2.tt.mcastl19", "rct2tt.scenery_small.mcastl19"),
  ("rct2.tt.futsky46", "rct2tt.scenery_small.futsky46"),
  ("rct2.tt.chprbke2", "rct2tt.scenery_small.chprbke2"),
  ("rct2.tt.spcshp11", "rct2tt.scenery_small.spcshp11"),
  ("rct2.tt.indwal11", "rct2tt.scenery_small.indwal11"),
  ("rct2.tt.artdec21", "rct2tt.scenery_small.artdec21"),
  ("rct2.tt.alenplt1", "rct2tt.scenery_small.alenplt1"),
  ("rct2.tt.hevbth08", "rct2tt.scenery_small.hevbth08"),
  ("rct2.tt.spcshp02", "rct2tt.scenery_small.spcshp02"),
  ("rct2.tt.tarpit08", "rct2tt.scenery_small.tarpit08"),
  ("rct2.tt.jailxx11", "rct2tt.scenery_small.jailxx11"),
  ("rct2.tt.artdec15", "rct2tt.scenery_small.artdec15"),
  ("rct2.tt.psntwl08", "rct2tt.scenery_small.psntwl08"),
  ("rct2.tt.dinsign4", "rct2tt.scenery_small.dinsign4"),
  ("rct2.tt.armrswrd", "rct2tt.scenery_small.armrswrd"),
  ("rct2.tt.oldnyk08", "rct2tt.scenery_small.oldnyk08"),
  ("rct2.tt.psntwl24", "rct2tt.scenery_small.psntwl24"),
  ("rct2.tt.gdalien2", "rct2tt.scenery_small.gdalien2"),
  ("rct2.tt.hevbth13", "rct2tt.scenery_small.hevbth13"),
  ("rct2.tt.psntwl21", "rct2tt.scenery_small.psntwl21"),
  ("rct2.tt.metrcrs1", "rct2tt.scenery_small.metrcrs1"),
  ("rct2.tt.swamplt2", "rct2tt.scenery_small.swamplt2"),
  ("rct2.tt.futsky19", "rct2tt.scenery_small.futsky19"),
  ("rct2.tt.hevbth14", "rct2tt.scenery_small.hevbth14"),
  ("rct2.tt.jailxx06", "rct2tt.scenery_small.jailxx06"),
  ("rct2.tt.gdalien3", "rct2tt.scenery_small.gdalien3"),
  ("rct2.tt.artdec19", "rct2tt.scenery_small.artdec19"),
  ("rct2.tt.hurcluls", "rct2tt.scenery_small.hurcluls"),
  ("rct2.tt.pdflag06", "rct2tt.scenery_small.pdflag06"),
  ("rct2.tt.yewtreex", "rct2tt.scenery_small.yewtreex"),
  ("rct2.tt.furobot1", "rct2tt.scenery_small.furobot1"),
  ("rct2.tt.furobot2", "rct2tt.scenery_small.furobot2"),
  ("rct2.tt.mcastl09", "rct2tt.scenery_small.mcastl09"),
  ("rct2.tt.futsky35", "rct2tt.scenery_small.futsky35"),
  ("rct2.tt.psntwl17", "rct2tt.scenery_small.psntwl17"),
  ("rct2.tt.killrvin", "rct2tt.scenery_small.killrvin"),
  ("rct2.tt.alentre1", "rct2tt.scenery_small.alentre1"),
  ("rct2.tt.swamplt7", "rct2tt.scenery_small.swamplt7"),
  ("rct2.tt.hevbth04", "rct2tt.scenery_small.hevbth04"),
  ("rct2.tt.primst03", "rct2tt.scenery_small.primst03"),
  ("rct2.tt.jailxx02", "rct2tt.scenery_small.jailxx02"),
  ("rct2.tt.wepnrack", "rct2tt.scenery_small.wepnrack"),
  ("rct2.tt.oldnyk35", "rct2tt.scenery_small.oldnyk35"),
  ("rct2.tt.laserx02", "rct2tt.scenery_small.laserx02"),
  ("rct2.tt.psntwl11", "rct2tt.scenery_small.psntwl11"),
  ("rct2.tt.souptl01", "rct2tt.scenery_small.souptl01"),
  ("rct2.tt.futsky41", "rct2tt.scenery_small.futsky41"),
  ("rct2.tt.tarpit12", "rct2tt.scenery_small.tarpit12"),
  ("rct2.tt.artdec13", "rct2tt.scenery_small.artdec13"),
  ("rct2.tt.mdusasta", "rct2tt.scenery_small.mdusasta"),
  ("rct2.tt.psntwl23", "rct2tt.scenery_small.psntwl23"),
  ("rct2.tt.wiskybl2", "rct2tt.scenery_small.wiskybl2"),
  ("rct2.tt.indwal14", "rct2tt.scenery_small.indwal14"),
  ("rct2.tt.pdflag15", "rct2tt.scenery_small.pdflag15"),
  ("rct2.tt.primscrn", "rct2tt.scenery_small.primscrn"),
  ("rct2.tt.tyranrex", "rct2tt.scenery_small.tyranrex"),
  ("rct2.tt.gscorpo2", "rct2tt.scenery_small.gscorpo2"),
  ("rct2.tt.mamthw05", "rct2tt.scenery_small.mamthw05"),
  ("rct2.tt.spcshp12", "rct2tt.scenery_small.spcshp12"),
  ("rct2.tt.valkri02", "rct2tt.scenery_small.valkri02"),
  ("rct2.tt.tarpit06", "rct2tt.scenery_small.tarpit06"),
  ("rct2.tt.hrbwal02", "rct2tt.scenery_small.hrbwal02"),
  ("rct2.tt.psntwl04", "rct2tt.scenery_small.psntwl04"),
  ("rct2.tt.alnstr01", "rct2tt.scenery_small.alnstr01"),
  ("rct2.tt.indwal09", "rct2tt.scenery_small.indwal09"),
  ("rct2.tt.artdec17", "rct2tt.scenery_small.artdec17"),
  ("rct2.tt.indwal06", "rct2tt.scenery_small.indwal06"),
  ("rct2.tt.fltsign1", "rct2tt.scenery_small.fltsign1"),
  ("rct2.tt.hrbwal05", "rct2tt.scenery_small.hrbwal05"),
  ("rct2.tt.futsky03", "rct2tt.scenery_small.futsky03"),
  ("rct2.tt.stnesta2", "rct2tt.scenery_small.stnesta2"),
  ("rct2.tt.futsky18", "rct2tt.scenery_small.futsky18"),
  ("rct2.tt.indwal28", "rct2tt.scenery_small.indwal28"),
  ("rct2.tt.tarpit14", "rct2tt.scenery_small.tarpit14"),
  ("rct2.tt.swamplt8", "rct2tt.scenery_small.swamplt8"),
  ("rct2.tt.indwal17", "rct2tt.scenery_small.indwal17"),
  ("rct2.tt.indwal23", "rct2tt.scenery_small.indwal23"),
  ("rct2.tt.mcastl03", "rct2tt.scenery_small.mcastl03"),
  ("rct2.tt.armrhelm", "rct2tt.scenery_small.armrhelm"),
  ("rct2.tt.gangster", "rct2tt.scenery_small.gangster"),
  ("rct2.tt.tarpit03", "rct2tt.scenery_small.tarpit03"),
  ("rct2.tt.stgband4", "rct2tt.scenery_small.stgband4"),
  ("rct2.tt.schnpl03", "rct2tt.scenery_small.schnpl03"),
  ("rct2.tt.hrbwal06", "rct2tt.scenery_small.hrbwal06"),
  ("rct2.tt.whccolds", "rct2tt.scenery_small.whccolds"),
  ("rct2.tt.futsky52", "rct2tt.scenery_small.futsky52"),
  ("rct2.tt.futsky13", "rct2tt.scenery_small.futsky13"),
  ("rct2.tt.armrshld", "rct2tt.scenery_small.armrshld"),
  ("rct2.tt.artdec02", "rct2tt.scenery_small.artdec02"),
  ("rct2.tt.indwal08", "rct2tt.scenery_small.indwal08"),
  ("rct2.tt.mamthw03", "rct2tt.scenery_small.mamthw03"),
  ("rct2.tt.gscorpon", "rct2tt.scenery_small.gscorpon"),
  ("rct2.tt.futsky38", "rct2tt.scenery_small.futsky38"),
  ("rct2.tt.wiskybl1", "rct2tt.scenery_small.wiskybl1"),
  ("rct2.tt.largecpu", "rct2tt.scenery_small.largecpu"),
  ("rct2.tt.schnbouy", "rct2tt.scenery_small.schnbouy"),
  ("rct2.tt.indwal16", "rct2tt.scenery_small.indwal16"),
  ("rct2.tt.hevrof03", "rct2tt.scenery_small.hevrof03"),
  ("rct2.tt.psntwl25", "rct2tt.scenery_small.psntwl25"),
  ("rct2.tt.meteorst", "rct2tt.scenery_small.meteorst"),
  ("rct2.tt.futsky14", "rct2tt.scenery_small.futsky14"),
  ("rct2.tt.indwal31", "rct2tt.scenery_small.indwal31"),
  ("rct2.tt.spcshp05", "rct2tt.scenery_small.spcshp05"),
  ("rct2.tt.jailxx01", "rct2tt.scenery_small.jailxx01"),
  ("rct2.tt.indwal25", "rct2tt.scenery_small.indwal25"),
  ("rct2.tt.futsky09", "rct2tt.scenery_small.futsky09"),
  ("rct2.tt.primwal1", "rct2tt.scenery_small.primwal1"),
  ("rct2.tt.artdec11", "rct2tt.scenery_small.artdec11"),
  ("rct2.tt.jailxx15", "rct2tt.scenery_small.jailxx15"),
  ("rct2.tt.souped01", "rct2tt.scenery_small.souped01"),
  ("rct2.tt.indwal13", "rct2tt.scenery_small.indwal13"),
  ("rct2.tt.artdec18", "rct2tt.scenery_small.artdec18"),
  ("rct2.tt.minotaur", "rct2tt.scenery_small.minotaur"),
  ("rct2.tt.indwal32", "rct2tt.scenery_small.indwal32"),
  ("rct2.tt.stnesta3", "rct2tt.scenery_small.stnesta3"),
  ("rct2.tt.zeusstat", "rct2tt.scenery_small.zeusstat"),
  ("rct2.tt.indwal27", "rct2tt.scenery_small.indwal27"),
  ("rct2.tt.knfight2", "rct2tt.scenery_small.knfight2"),
  ("rct2.tt.schncrsh", "rct2tt.scenery_small.schncrsh"),
  ("rct2.tt.polwtbtn", "rct2tt.scenery_small.polwtbtn"),
  ("rct2.tt.ggntspid", "rct2tt.scenery_small.ggntspid"),
  ("rct2.tt.oldnyk14", "rct2tt.scenery_small.oldnyk14"),
  ("rct2.tt.indwal02", "rct2tt.scenery_small.indwal02"),
  ("rct2.tt.futsky47", "rct2tt.scenery_small.futsky47"),
  ("rct2.tt.soupcrn2", "rct2tt.scenery_small.soupcrn2"),
  ("rct2.tt.indwal20", "rct2tt.scenery_small.indwal20"),
  ("rct2.tt.hevbth06", "rct2tt.scenery_small.hevbth06"),
  ("rct2.tt.futsky02", "rct2tt.scenery_small.futsky02"),
  ("rct2.tt.schnbost", "rct2tt.scenery_small.schnbost"),
  ("rct2.tt.alnstr02", "rct2tt.scenery_small.alnstr02"),
  ("rct2.tt.tarpit07", "rct2tt.scenery_small.tarpit07"),
  ("rct2.tt.pdflag14", "rct2tt.scenery_small.pdflag14"),
  ("rct2.tt.1920slmp", "rct2tt.scenery_small.1920slmp"),
  ("rct2.tt.tarpit09", "rct2tt.scenery_small.tarpit09"),
  ("rct2.tt.mcastl07", "rct2tt.scenery_small.mcastl07"),
  ("rct2.tt.artdec06", "rct2tt.scenery_small.artdec06"),
  ("rct2.tt.futsky29", "rct2tt.scenery_small.futsky29"),
  ("rct2.tt.indwal05", "rct2tt.scenery_small.indwal05"),
  ("rct2.tt.pdflag08", "rct2tt.scenery_small.pdflag08"),
  ("rct2.tt.rdmeto04", "rct2tt.scenery_small.rdmeto04"),
  ("rct2.tt.wdncart2", "rct2tt.scenery_small.wdncart2"),
  ("rct2.tt.gdalien1", "rct2tt.scenery_small.gdalien1"),
  ("rct2.tt.mamthw01", "rct2tt.scenery_small.mamthw01"),
  ("rct2.tt.jailxx10", "rct2tt.scenery_small.jailxx10"),
  ("rct2.tt.jailxx16", "rct2tt.scenery_small.jailxx16"),
  ("rct2.tt.smoksk03", "rct2tt.scenery_small.smoksk03"),
  ("rct2.tt.pdflag13", "rct2tt.scenery_small.pdflag13"),
  ("rct2.tt.oldnyk01", "rct2tt.scenery_small.oldnyk01"),
  ("rct2.tt.artdec29", "rct2tt.scenery_small.artdec29"),
  ("rct2.tt.firemanx", "rct2tt.scenery_small.firemanx"),
  ("rct2.tt.cagdstat", "rct2tt.scenery_small.cagdstat"),
  ("rct2.tt.oldnyk04", "rct2tt.scenery_small.oldnyk04"),
  ("rct2.tt.jailxx05", "rct2tt.scenery_small.jailxx05"),
  ("rct2.tt.chanmaid", "rct2tt.scenery_small.chanmaid"),
  ("rct2.tt.runway02", "rct2tt.scenery_small.runway02"),
  ("rct2.tt.hevrof04", "rct2tt.scenery_small.hevrof04"),
  ("rct2.tt.indwal19", "rct2tt.scenery_small.indwal19"),
  ("rct2.tt.mamthw04", "rct2tt.scenery_small.mamthw04"),
  ("rct2.tt.stmdran1", "rct2tt.scenery_small.stmdran1"),
  ("rct2.tt.futsky37", "rct2tt.scenery_small.futsky37"),
  ("rct2.tt.psntwl01", "rct2tt.scenery_small.psntwl01"),
  ("rct2.tt.indwal01", "rct2tt.scenery_small.indwal01"),
  ("rct2.tt.oldnyk18", "rct2tt.scenery_small.oldnyk18"),
  ("rct2.tt.alnstr04", "rct2tt.scenery_small.alnstr04"),
  ("rct2.tt.schnpl04", "rct2tt.scenery_small.schnpl04"),
  ("rct2.tt.oldnyk17", "rct2tt.scenery_small.oldnyk17"),
  ("rct2.tt.hovrcar1", "rct2tt.scenery_small.hovrcar1"),
  ("rct2.tt.goldflec", "rct2tt.scenery_small.goldflec"),
  ("rct2.tt.rcknrolr", "rct2tt.scenery_small.rcknrolr"),
  ("rct2.tt.jailxx08", "rct2tt.scenery_small.jailxx08"),
  ("rct2.tt.alnstr07", "rct2tt.scenery_small.alnstr07"),
  ("rct2.tt.schnpl06", "rct2tt.scenery_small.schnpl06"),
  ("rct2.tt.artdec03", "rct2tt.scenery_small.artdec03"),
  ("rct2.tt.swamplt3", "rct2tt.scenery_small.swamplt3"),
  ("rct2.tt.jailxx14", "rct2tt.scenery_small.jailxx14"),
  ("rct2.tt.futsky53", "rct2tt.scenery_small.futsky53"),
  ("rct2.tt.hevrof01", "rct2tt.scenery_small.hevrof01"),
  ("rct2.tt.sdragfly", "rct2tt.scenery_small.sdragfly"),
  ("rct2.tt.elecfen1", "rct2tt.scenery_small.elecfen1"),
  ("rct2.tt.knfight1", "rct2tt.scenery_small.knfight1"),
  ("rct2.tt.guyqwifx", "rct2tt.scenery_small.guyqwifx"),
  ("rct2.tt.psntwl20", "rct2tt.scenery_small.psntwl20"),
  ("rct2.tt.schntnny", "rct2tt.scenery_small.schntnny"),
  ("rct2.tt.oldnyk02", "rct2tt.scenery_small.oldnyk02"),
  ("rct2.tt.futsky10", "rct2tt.scenery_small.futsky10"),
  ("rct2.tt.rdmeto03", "rct2tt.scenery_small.rdmeto03"),
  ("rct2.tt.indwal26", "rct2tt.scenery_small.indwal26"),
  ("rct2.tt.psntwl12", "rct2tt.scenery_small.psntwl12"),
  ("rct2.tt.bolpot01", "rct2tt.scenery_small.bolpot01"),
  ("rct2.tt.biggutar", "rct2tt.scenery_small.biggutar"),
  ("rct2.tt.fltsign2", "rct2tt.scenery_small.fltsign2"),
  ("rct2.tt.artdec04", "rct2tt.scenery_small.artdec04"),
  ("rct2.tt.armrbody", "rct2tt.scenery_small.armrbody"),
  ("rct2.tt.souptl02", "rct2tt.scenery_small.souptl02"),
  ("rct2.tt.spcshp10", "rct2tt.scenery_small.spcshp10"),
  ("rct2.tt.futsky15", "rct2tt.scenery_small.futsky15"),
  ("rct2.tt.futsky54", "rct2tt.scenery_small.futsky54"),
  ("rct2.tt.soupcrnr", "rct2tt.scenery_small.soupcrnr"),
  ("rct2.tt.dinsign1", "rct2tt.scenery_small.dinsign1"),
  ("rct2.tt.volcvent", "rct2tt.scenery_small.volcvent"),
  ("rct2.tt.schnpl02", "rct2tt.scenery_small.schnpl02"),
  ("rct2.tt.futsky23", "rct2tt.scenery_small.futsky23"),
  ("rct2.tt.psntwl14", "rct2tt.scenery_small.psntwl14"),
  ("rct2.tt.astrongt", "rct2tt.scenery_small.astrongt"),
  ("rct2.tt.spterdac", "rct2tt.scenery_small.spterdac"),
  ("rct2.tt.futsky34", "rct2tt.scenery_small.futsky34"),
  ("rct2.tt.hovrcar2", "rct2tt.scenery_small.hovrcar2"),
  ("rct2.tt.alnstr03", "rct2tt.scenery_small.alnstr03"),
  ("rct2.tt.primhead", "rct2tt.scenery_small.primhead"),
  ("rct2.tt.futsky16", "rct2tt.scenery_small.futsky16"),
  ("rct2.tt.spcshp04", "rct2tt.scenery_small.spcshp04"),
  ("rct2.tt.jazzmbr3", "rct2tt.scenery_small.jazzmbr3"),
  ("rct2.tt.psntwl16", "rct2tt.scenery_small.psntwl16"),
  ("rct2.tt.mamthw06", "rct2tt.scenery_small.mamthw06"),
  ("rct2.tt.oldnyk15", "rct2tt.scenery_small.oldnyk15"),
  ("rct2.tt.tarpit04", "rct2tt.scenery_small.tarpit04"),
  ("rct2.tt.chprbke1", "rct2tt.scenery_small.chprbke1"),
  ("rct2.tt.indwal07", "rct2tt.scenery_small.indwal07"),
  ("rct2.tt.allseeye", "rct2tt.scenery_small.allseeye"),
  ("rct2.tt.artdec20", "rct2tt.scenery_small.artdec20"),
  ("rct2.tt.oldnyk34", "rct2tt.scenery_small.oldnyk34"),
  ("rct2.tt.argonau1", "rct2tt.scenery_small.argonau1"),
  ("rct2.tt.oldnyk11", "rct2tt.scenery_small.oldnyk11"),
  ("rct2.tt.indwal15", "rct2tt.scenery_small.indwal15"),
  ("rct2.tt.evalien1", "rct2tt.scenery_small.evalien1"),
  ("rct2.tt.tarpit11", "rct2tt.scenery_small.tarpit11"),
  ("rct2.tt.speakr02", "rct2tt.scenery_small.speakr02"),
  ("rct2.tt.runway05", "rct2tt.scenery_small.runway05"),
  ("rct2.tt.skeleto1", "rct2tt.scenery_small.skeleto1"),
  ("rct2.tt.pdflag16", "rct2tt.scenery_small.pdflag16"),
  ("rct2.tt.mcastl10", "rct2tt.scenery_small.mcastl10"),
  ("rct2.tt.cookspit", "rct2tt.scenery_small.cookspit"),
  ("rct2.tt.primst02", "rct2tt.scenery_small.primst02"),
  ("rct2.tt.jailxx03", "rct2tt.scenery_small.jailxx03"),
  ("rct2.tt.artdec07", "rct2tt.scenery_small.artdec07"),
  ("rct2.tt.geyserxx", "rct2tt.scenery_small.geyserxx"),
  ("rct2.tt.spacrang", "rct2tt.scenery_small.spacrang"),
  ("rct2.tt.hevbth11", "rct2tt.scenery_small.hevbth11"),
  ("rct2.tt.runway01", "rct2tt.scenery_small.runway01"),
  ("rct2.tt.jailxx12", "rct2tt.scenery_small.jailxx12"),
  ("rct2.tt.runway03", "rct2tt.scenery_small.runway03"),
  ("rct2.tt.hevbth16", "rct2tt.scenery_small.hevbth16"),
  ("rct2.tt.jazzmbr4", "rct2tt.scenery_small.jazzmbr4"),
  ("rct2.tt.stgband2", "rct2tt.scenery_small.stgband2"),
  ("rct2.tt.oldnyk03", "rct2tt.scenery_small.oldnyk03"),
  ("rct2.tt.oldnyk12", "rct2tt.scenery_small.oldnyk12"),
  ("rct2.tt.meteorcr", "rct2tt.scenery_small.meteorcr"),
  ("rct2.tt.indwal24", "rct2tt.scenery_small.indwal24"),
  ("rct2.tt.dinsign3", "rct2tt.scenery_small.dinsign3"),
  ("rct2.tt.futsky07", "rct2tt.scenery_small.futsky07"),
  ("rct2.tt.swamplt1", "rct2tt.scenery_small.swamplt1"),
  ("rct2.tt.psntwl29", "rct2tt.scenery_small.psntwl29"),
  ("rct2.tt.hrbwal03", "rct2tt.scenery_small.hrbwal03"),
  ("rct2.tt.swamplt9", "rct2tt.scenery_small.swamplt9"),
  ("rct2.tt.artdec24", "rct2tt.scenery_small.artdec24"),
  ("rct2.tt.schndrum", "rct2tt.scenery_small.schndrum"),
  ("rct2.tt.indwal03", "rct2tt.scenery_small.indwal03"),
  ("rct2.tt.mdbucket", "rct2tt.scenery_small.mdbucket"),
  ("rct2.tt.jailxx04", "rct2tt.scenery_small.jailxx04"),
  ("rct2.tt.souped02", "rct2tt.scenery_small.souped02"),
  ("rct2.tt.psntwl15", "rct2tt.scenery_small.psntwl15"),
  ("rct2.tt.hvrbike3", "rct2tt.scenery_small.hvrbike3"),
  ("rct2.tt.hevbth17", "rct2tt.scenery_small.hevbth17"),
  ("rct2.tt.artdec16", "rct2tt.scenery_small.artdec16"),
  ("rct2.tt.futsky06", "rct2tt.scenery_small.futsky06"),
  ("rct2.tt.artdec23", "rct2tt.scenery_small.artdec23"),
  ("rct2.tt.titansta", "rct2tt.scenery_small.titansta"),
  ("rct2.tt.oldnyk31", "rct2tt.scenery_small.oldnyk31"),
  ("rct2.tt.hvrbike4", "rct2tt.scenery_small.hvrbike4"),
  ("rct2.tt.medtrget", "rct2tt.scenery_small.medtrget"),
  ("rct2.tt.stgband3", "rct2tt.scenery_small.stgband3"),
  ("rct2.tt.primtall", "rct2tt.scenery_small.primtall"),
  ("rct2.tt.jailxx09", "rct2tt.scenery_small.jailxx09"),
  ("rct2.tt.hovrcar3", "rct2tt.scenery_small.hovrcar3"),
  ("rct2.tt.fircanon", "rct2tt.scenery_small.fircanon"),
  ("rct2.tt.psntwl03", "rct2tt.scenery_small.psntwl03"),
  ("rct2.tt.mcastl02", "rct2tt.scenery_small.mcastl02"),
  ("rct2.tt.oldnyk10", "rct2tt.scenery_small.oldnyk10"),
  ("rct2.tt.hevbth02", "rct2tt.scenery_small.hevbth02"),
  ("rct2.tt.elecfen2", "rct2tt.scenery_small.elecfen2"),
  ("rct2.tt.jailxx07", "rct2tt.scenery_small.jailxx07"),
  ("rct2.tt.alnstr05", "rct2tt.scenery_small.alnstr05"),
  ("rct2.tt.bkrgang1", "rct2tt.scenery_small.bkrgang1"),
  ("rct2.tt.medstool", "rct2tt.scenery_small.medstool"),
  ("rct2.tt.artdec08", "rct2tt.scenery_small.artdec08"),
  ("rct2.tt.psntwl09", "rct2tt.scenery_small.psntwl09"),
  ("rct2.tt.mcastl08", "rct2tt.scenery_small.mcastl08"),
  ("rct2.tt.hvrbike2", "rct2tt.scenery_small.hvrbike2"),
  ("rct2.tt.primwal3", "rct2tt.scenery_small.primwal3"),
  ("rct2.tt.pdflag02", "rct2tt.scenery_small.pdflag02"),
  ("rct2.tt.hevbth01", "rct2tt.scenery_small.hevbth01"),
  ("rct2.tt.hevbth07", "rct2tt.scenery_small.hevbth07"),
  ("rct2.tt.oldnyk06", "rct2tt.scenery_small.oldnyk06"),
  ("rct2.tt.primwal2", "rct2tt.scenery_small.primwal2"),
  ("rct2.tt.mspkwa01", "rct2tt.scenery_wall.mspkwa01"),
  ("rct2.tt.jailxx19", "rct2tt.scenery_wall.jailxx19"),
  ("rct2.tt.firhydrt", "rct2tt.footpath_item.firhydrt"),
  ("rct2.tt.medbench", "rct2tt.footpath_item.medbench"),
  ("rct2.tt.railings.balustrade", "rct2tt.footpath_railings.balustrade"),
  ("rct2.tt.railings.medieval", "rct2tt.footpath_railings.medieval"),
  ("rct2.tt.railings.rainbow", "rct2tt.footpath_railings.rainbow"),
  ("rct2.tt.railings.circuitboard", "rct2tt.footpath_railings.circuitboard"),
  ("rct2.tt.railings.rocky", "rct2tt.footpath_railings.rocky"),
  ("rct2.tt.railings.pavement", "rct2tt.footpath_railings.pavement"),
  ("rct2.tt.pathrailings.balustrade", "rct2tt.footpath_railings.balustrade"),
  ("rct2.tt.pathrailings.medieval", "rct2tt.footpath_railings.medieval"),
  ("rct2.tt.pathrailings.rainbow", "rct2tt.footpath_railings.rainbow"),
  ("rct2.tt.pathrailings.circuitboard", "rct2tt.footpath_railings.circuitboard"),
  ("rct2.tt.pathrailings.rocky", "rct2tt.footpath_railings.rocky"),
  ("rct2.tt.pathrailings.pavement", "rct2tt.footpath_railings.pavement"),
  ("rct2.tt.timemach", "rct2tt.ride.timemach"),
  ("rct2.tt.flygboat", "rct2tt.ride.flygboat"),
  ("rct2.tt.hoverbke", "rct2tt.ride.hoverbke"),
  ("rct2.tt.mgr2", "rct2tt.ride.mgr2"),
  ("rct2.tt.halofmrs", "rct2tt.ride.halofmrs"),
  ("rct2.tt.dragnfly", "rct2tt.ride.dragnfly"),
  ("rct2.tt.moonjuce", "rct2tt.ride.moonjuce"),
  ("rct2.tt.harpiesx", "rct2tt.ride.harpiesx"),
  ("rct2.tt.polchase", "rct2tt.ride.polchase"),
  ("rct2.tt.rivrstyx", "rct2tt.ride.rivrstyx"),
  ("rct2.tt.zeplelin", "rct2tt.ride.zeplelin"),
  ("rct2.tt.schoolbs", "rct2tt.ride.schoolbs"),
  ("rct2.tt.stamphrd", "rct2tt.ride.stamphrd"),
  ("rct2.tt.valkyrie", "rct2tt.ride.valkyrie"),
  ("rct2.tt.mktstal2", "rct2tt.ride.mktstal2"),
  ("rct2.tt.dinoeggs", "rct2tt.ride.dinoeggs"),
  ("rct2.tt.jetpackx", "rct2tt.ride.jetpackx"),
  ("rct2.tt.trebucht", "rct2tt.ride.trebucht"),
  ("rct2.tt.trilobte", "rct2tt.ride.trilobte"),
  ("rct2.tt.mktstal1", "rct2tt.ride.mktstal1"),
  ("rct2.tt.microbus", "rct2tt.ride.microbus"),
  ("rct2.tt.cyclopsx", "rct2tt.ride.cyclopsx"),
  ("rct2.tt.softoyst", "rct2tt.ride.softoyst"),
  ("rct2.tt.tricatop", "rct2tt.ride.tricatop"),
  ("rct2.tt.hovercar", "rct2tt.ride.hovercar"),
  ("rct2.tt.hovrbord", "rct2tt.ride.hovrbord"),
  ("rct2.tt.tommygun", "rct2tt.ride.tommygun"),
  ("rct2.tt.neptunex", "rct2tt.ride.neptunex"),
  ("rct2.tt.ganstrcr", "rct2tt.ride.ganstrcr"),
  ("rct2.tt.hotrodxx", "rct2tt.ride.hotrodxx"),
  ("rct2.tt.raptorxx", "rct2tt.ride.raptorxx"),
  ("rct2.tt.spokprsn", "rct2tt.ride.spokprsn"),
  ("rct2.tt.1960tsrt", "rct2tt.ride.1960tsrt"),
  ("rct2.tt.blckdeth", "rct2tt.ride.blckdeth"),
  ("rct2.tt.flwrpowr", "rct2tt.ride.flwrpowr"),
  ("rct2.tt.bmvoctps", "rct2tt.ride.bmvoctps"),
  ("rct2.tt.flalmace", "rct2tt.ride.flalmace"),
  ("rct2.tt.cavmncar", "rct2tt.ride.cavmncar"),
  ("rct2.tt.policecr", "rct2tt.ride.policecr"),
  ("rct2.tt.seaplane", "rct2tt.ride.seaplane"),
  ("rct2.tt.mythosea", "rct2tt.ride.mythosea"),
  ("rct2.tt.cerberus", "rct2tt.ride.cerberus"),
  ("rct2.tt.1920sand", "rct2tt.ride.1920sand"),
  ("rct2.tt.telepter", "rct2tt.ride.telepter"),
  ("rct2.tt.jetplane", "rct2tt.ride.jetplane"),
  ("rct2.tt.gintspdr", "rct2tt.ride.gintspdr"),
  ("rct2.tt.figtknit", "rct2tt.ride.figtknit"),
  ("rct2.tt.barnstrm", "rct2tt.ride.barnstrm"),
  ("rct2.tt.oakbarel", "rct2tt.ride.oakbarel"),
  ("rct2.tt.1920racr", "rct2tt.ride.1920racr"),
  ("rct2.tt.pegasusx", "rct2tt.ride.pegasusx"),
  ("rct2.tt.funhouse", "rct2tt.ride.funhouse"),
  ("rct2.tt.medisoup", "rct2tt.ride.medisoup"),
  ("rct2.tt.pterodac", "rct2tt.ride.pterodac"),
  ("rct2.tt.battrram", "rct2tt.ride.battrram"),
  ("rct2.tt.jousting", "rct2tt.ride.jousting"),
  ("rct2.tt.mythentr", "rct2tt.park_entrance.mythentr"),
  ("rct2.tt.futurent", "rct2tt.park_entrance.futurent"),
  ("rct2.tt.jurasent", "rct2tt.park_entrance.jurasent"),
  ("rct2.tt.gldyrent", "rct2tt.park_entrance.gldyrent"),
  ("rct2.tt.1920sent", "rct2tt.park_entrance.1920sent"),
  ("rct2.tt.medientr", "rct2tt.park_entrance.medientr"),
  ("rct2.tt.pathsurface.rocky", "rct2tt.footpath_surface.rocky"),
  ("rct2.tt.pathsurface.queue.pavement", "rct2tt.footpath_surface.queue_pavement"),
  ("rct2.tt.pathsurface.queue.rainbow", "rct2tt.footpath_surface.queue_rainbow"),
  ("rct2.tt.pathsurface.rainbow", "rct2tt.footpath_surface.rainbow"),
  ("rct2.tt.pathsurface.circuitboard", "rct2tt.footpath_surface.circuitboard"),
  ("rct2.tt.pathsurface.mosaic", "rct2tt.footpath_surface.mosaic"),
  ("rct2.tt.pathsurface.pavement", "rct2tt.footpath_surface.pavement"),
  ("rct2.tt.pathsurface.medieval", "rct2tt.footpath_surface.medieval"),
  ("rct2.tt.pathsurface.queue.circuitboard", "rct2tt.footpath_surface.queue_circuitboard"),
  ("rct2.ww.hippo01", "rct2ww.scenery_large.hippo01"),
  ("rct2.ww.geisha", "rct2ww.scenery_large.geisha"),
  ("rct2.ww.atractor", "rct2ww.scenery_large.atractor"),
  ("rct2.ww.easerlnd", "rct2ww.scenery_large.easerlnd"),
  ("rct2.ww.1x4brg01", "rct2ww.scenery_large.1x4brg01"),
  ("rct2.ww.gwoctur1", "rct2ww.scenery_large.gwoctur1"),
  ("rct2.ww.rtudor06", "rct2ww.scenery_large.rtudor06"),
  ("rct2.ww.3x3altre", "rct2ww.scenery_large.3x3altre"),
  ("rct2.ww.bigben", "rct2ww.scenery_large.bigben"),
  ("rct2.ww.pogodal", "rct2ww.scenery_large.pogodal"),
  ("rct2.ww.bigdish", "rct2ww.scenery_large.bigdish"),
  ("rct2.ww.rdrab01", "rct2ww.scenery_large.rdrab01"),
  ("rct2.ww.goodsam", "rct2ww.scenery_large.goodsam"),
  ("rct2.ww.mbskyr02", "rct2ww.scenery_large.mbskyr02"),
  ("rct2.ww.icefor02", "rct2ww.scenery_large.icefor02"),
  ("rct2.ww.tajmcolm", "rct2ww.scenery_large.tajmcolm"),
  ("rct2.ww.giraffe2", "rct2ww.scenery_large.giraffe2"),
  ("rct2.ww.rkreml10", "rct2ww.scenery_large.rkreml10"),
  ("rct2.ww.sputnik", "rct2ww.scenery_large.sputnik"),
  ("rct2.ww.pagodam", "rct2ww.scenery_large.pagodam"),
  ("rct2.ww.ovrgrwnt", "rct2ww.scenery_large.ovrgrwnt"),
  ("rct2.ww.sunken", "rct2ww.scenery_large.sunken"),
  ("rct2.ww.bamborf1", "rct2ww.scenery_large.bamborf1"),
  ("rct2.ww.1x2abr03", "rct2ww.scenery_large.1x2abr03"),
  ("rct2.ww.1x2abr01", "rct2ww.scenery_large.1x2abr01"),
  ("rct2.ww.3x3eucal", "rct2ww.scenery_large.3x3eucal"),
  ("rct2.ww.goldbuda", "rct2ww.scenery_large.goldbuda"),
  ("rct2.ww.lincolns", "rct2ww.scenery_large.lincolns"),
  ("rct2.ww.windmill", "rct2ww.scenery_large.windmill"),
  ("rct2.ww.helipad", "rct2ww.scenery_large.helipad"),
  ("rct2.ww.gdstaue2", "rct2ww.scenery_large.gdstaue2"),
  ("rct2.ww.3x3atre3", "rct2ww.scenery_large.3x3atre3"),
  ("rct2.ww.damtower", "rct2ww.scenery_large.damtower"),
  ("rct2.ww.spaceorb", "rct2ww.scenery_large.spaceorb"),
  ("rct2.ww.hippo02", "rct2ww.scenery_large.hippo02"),
  ("rct2.ww.eiffel", "rct2ww.scenery_large.eiffel"),
  ("rct2.ww.rkreml09", "rct2ww.scenery_large.rkreml09"),
  ("rct2.ww.1x4brg02", "rct2ww.scenery_large.1x4brg02"),
  ("rct2.ww.afrrhino", "rct2ww.scenery_large.afrrhino"),
  ("rct2.ww.giraffe1", "rct2ww.scenery_large.giraffe1"),
  ("rct2.ww.3x3mantr", "rct2ww.scenery_large.3x3mantr"),
  ("rct2.ww.indianst", "rct2ww.scenery_large.indianst"),
  ("rct2.ww.atomium", "rct2ww.scenery_large.atomium"),
  ("rct2.ww.tajmcbse", "rct2ww.scenery_large.tajmcbse"),
  ("rct2.ww.icefor01", "rct2ww.scenery_large.icefor01"),
  ("rct2.ww.bamborf3", "rct2ww.scenery_large.bamborf3"),
  ("rct2.ww.1x2lgchm", "rct2ww.scenery_large.1x2lgchm"),
  ("rct2.ww.circus", "rct2ww.scenery_large.circus"),
  ("rct2.ww.gdstaue1", "rct2ww.scenery_large.gdstaue1"),
  ("rct2.ww.cdragon", "rct2ww.scenery_large.cdragon"),
  ("rct2.ww.cowboy02", "rct2ww.scenery_large.cowboy02"),
  ("rct2.ww.3x3atre1", "rct2ww.scenery_large.3x3atre1"),
  ("rct2.ww.gwoctur2", "rct2ww.scenery_large.gwoctur2"),
  ("rct2.ww.1x2glama", "rct2ww.scenery_large.1x2glama"),
  ("rct2.ww.pagodas", "rct2ww.scenery_large.pagodas"),
  ("rct2.ww.1x2abr02", "rct2ww.scenery_large.1x2abr02"),
  ("rct2.ww.biggeosp", "rct2ww.scenery_large.biggeosp"),
  ("rct2.ww.evilsam", "rct2ww.scenery_large.evilsam"),
  ("rct2.ww.pagodatw", "rct2ww.scenery_large.pagodatw"),
  ("rct2.ww.mbskyr01", "rct2ww.scenery_large.mbskyr01"),
  ("rct2.ww.redwood", "rct2ww.scenery_large.redwood"),
  ("rct2.ww.soflibrt", "rct2ww.scenery_large.soflibrt"),
  ("rct2.ww.1x2azt01", "rct2ww.scenery_large.1x2azt01"),
  ("rct2.ww.rdrab03", "rct2ww.scenery_large.rdrab03"),
  ("rct2.ww.rdrab02", "rct2ww.scenery_large.rdrab02"),
  ("rct2.ww.1x4brg05", "rct2ww.scenery_large.1x4brg05"),
  ("rct2.ww.1x4brg04", "rct2ww.scenery_large.1x4brg04"),
  ("rct2.ww.radar", "rct2ww.scenery_large.radar"),
  ("rct2.ww.afrclion", "rct2ww.scenery_large.afrclion"),
  ("rct2.ww.afrzebra", "rct2ww.scenery_large.afrzebra"),
  ("rct2.ww.largeju1", "rct2ww.scenery_large.largeju1"),
  ("rct2.ww.cowboy01", "rct2ww.scenery_large.cowboy01"),
  ("rct2.ww.rdrab04", "rct2ww.scenery_large.rdrab04"),
  ("rct2.ww.50rocket", "rct2ww.scenery_large.50rocket"),
  ("rct2.ww.tajmdome", "rct2ww.scenery_large.tajmdome"),
  ("rct2.ww.fatbudda", "rct2ww.scenery_large.fatbudda"),
  ("rct2.ww.1x4brg03", "rct2ww.scenery_large.1x4brg03"),
  ("rct2.ww.shiva", "rct2ww.scenery_large.shiva"),
  ("rct2.ww.3x3hmsen", "rct2ww.scenery_large.3x3hmsen"),
  ("rct2.ww.rkreml08", "rct2ww.scenery_large.rkreml08"),
  ("rct2.ww.adultele", "rct2ww.scenery_large.adultele"),
  ("rct2.ww.3x3atre2", "rct2ww.scenery_large.3x3atre2"),
  ("rct2.ww.rtudor05", "rct2ww.scenery_large.rtudor05"),
  ("rct2.ww.tajmctop", "rct2ww.scenery_large.tajmctop"),
  ("rct2.ww.1x2azt02", "rct2ww.scenery_large.1x2azt02"),
  ("rct2.ww.bamborf2", "rct2ww.scenery_large.bamborf2"),
  ("rct2.ww.scgeurop", "rct2ww.scenery_group.scgeurop"),
  ("rct2.ww.scgaustr", "rct2ww.scenery_group.scgaustr"),
  ("rct2.ww.scgsamer", "rct2ww.scenery_group.scgsamer"),
  ("rct2.ww.scgartic", "rct2ww.scenery_group.scgartic"),
  ("rct2.ww.scgnamrc", "rct2ww.scenery_group.scgnamrc"),
  ("rct2.ww.scgafric", "rct2ww.scenery_group.scgafric"),
  ("rct2.ww.scgasia", "rct2ww.scenery_group.scgasia"),
  ("rct2.ww.1x1atree", "rct2ww.scenery_small.1x1atree"),
  ("rct2.ww.sbh1wgwh", "rct2ww.scenery_small.sbh1wgwh"),
  ("rct2.ww.1x1brang", "rct2ww.scenery_small.1x1brang"),
  ("rct2.ww.oriegong", "rct2ww.scenery_small.oriegong"),
  ("rct2.ww.sbwind07", "rct2ww.scenery_small.sbwind07"),
  ("rct2.ww.rdrab07", "rct2ww.scenery_small.rdrab07"),
  ("rct2.ww.rmud01", "rct2ww.scenery_small.rmud01"),
  ("rct2.ww.sbwind12", "rct2ww.scenery_small.sbwind12"),
  ("rct2.ww.rdrab09", "rct2ww.scenery_small.rdrab09"),
  ("rct2.ww.icebarl3", "rct2ww.scenery_small.icebarl3"),
  ("rct2.ww.sbskys17", "rct2ww.scenery_small.sbskys17"),
  ("rct2.ww.rcorr01", "rct2ww.scenery_small.rcorr01"),
  ("rct2.ww.sbh3cac2", "rct2ww.scenery_small.sbh3cac2"),
  ("rct2.ww.wtudor16", "rct2ww.scenery_small.wtudor16"),
  ("rct2.ww.waztec21", "rct2ww.scenery_small.waztec21"),
  ("rct2.ww.fountarc", "rct2ww.scenery_small.fountarc"),
  ("rct2.ww.fountrow", "rct2ww.scenery_small.fountrow"),
  ("rct2.ww.trckprt6", "rct2ww.scenery_small.trckprt6"),
  ("rct2.ww.wdrab09", "rct2ww.scenery_small.wdrab09"),
  ("rct2.ww.sbwind02", "rct2ww.scenery_small.sbwind02"),
  ("rct2.ww.sbskys03", "rct2ww.scenery_small.sbskys03"),
  ("rct2.ww.rdrab13", "rct2ww.scenery_small.rdrab13"),
  ("rct2.ww.sbwplm01", "rct2ww.scenery_small.sbwplm01"),
  ("rct2.ww.sbskys07", "rct2ww.scenery_small.sbskys07"),
  ("rct2.ww.rcorr11", "rct2ww.scenery_small.rcorr11"),
  ("rct2.ww.sbwind01", "rct2ww.scenery_small.sbwind01"),
  ("rct2.ww.wmayan08", "rct2ww.scenery_small.wmayan08"),
  ("rct2.ww.sbwplm04", "rct2ww.scenery_small.sbwplm04"),
  ("rct2.ww.icebarl1", "rct2ww.scenery_small.icebarl1"),
  ("rct2.ww.sbwind16", "rct2ww.scenery_small.sbwind16"),
  ("rct2.ww.wnauti01", "rct2ww.scenery_small.wnauti01"),
  ("rct2.ww.rkreml06", "rct2ww.scenery_small.rkreml06"),
  ("rct2.ww.sbskys15", "rct2ww.scenery_small.sbskys15"),
  ("rct2.ww.wcuzco24", "rct2ww.scenery_small.wcuzco24"),
  ("rct2.ww.inflag04", "rct2ww.scenery_small.inflag04"),
  ("rct2.ww.rlog04", "rct2ww.scenery_small.rlog04"),
  ("rct2.ww.conveyr1", "rct2ww.scenery_small.conveyr1"),
  ("rct2.ww.rcorr03", "rct2ww.scenery_small.rcorr03"),
  ("rct2.ww.waztec03", "rct2ww.scenery_small.waztec03"),
  ("rct2.ww.trckprt9", "rct2ww.scenery_small.trckprt9"),
  ("rct2.ww.wgeorg09", "rct2ww.scenery_small.wgeorg09"),
  ("rct2.ww.rcorr05", "rct2ww.scenery_small.rcorr05"),
  ("rct2.ww.rgeorg04", "rct2ww.scenery_small.rgeorg04"),
  ("rct2.ww.rcorr07", "rct2ww.scenery_small.rcorr07"),
  ("rct2.ww.bamboopl", "rct2ww.scenery_small.bamboopl"),
  ("rct2.ww.sbskys18", "rct2ww.scenery_small.sbskys18"),
  ("rct2.ww.sbskys06", "rct2ww.scenery_small.sbskys06"),
  ("rct2.ww.wkreml02", "rct2ww.scenery_small.wkreml02"),
  ("rct2.ww.trckprt1", "rct2ww.scenery_small.trckprt1"),
  ("rct2.ww.wtudor13", "rct2ww.scenery_small.wtudor13"),
  ("rct2.ww.rlog03", "rct2ww.scenery_small.rlog03"),
  ("rct2.ww.rdrab11", "rct2ww.scenery_small.rdrab11"),
  ("rct2.ww.sbh3oscr", "rct2ww.scenery_small.sbh3oscr"),
  ("rct2.ww.japsnotr", "rct2ww.scenery_small.japsnotr"),
  ("rct2.ww.trckprt5", "rct2ww.scenery_small.trckprt5"),
  ("rct2.ww.roofig06", "rct2ww.scenery_small.roofig06"),
  ("rct2.ww.wtudor18", "rct2ww.scenery_small.wtudor18"),
  ("rct2.ww.waztec18", "rct2ww.scenery_small.waztec18"),
  ("rct2.ww.wmayan20", "rct2ww.scenery_small.wmayan20"),
  ("rct2.ww.sbh3cac3", "rct2ww.scenery_small.sbh3cac3"),
  ("rct2.ww.sb2palm1", "rct2ww.scenery_small.sb2palm1"),
  ("rct2.ww.rgeorg01", "rct2ww.scenery_small.rgeorg01"),
  ("rct2.ww.1x1termm", "rct2ww.scenery_small.1x1termm"),
  ("rct2.ww.wmayan17", "rct2ww.scenery_small.wmayan17"),
  ("rct2.ww.sbh3rt66", "rct2ww.scenery_small.sbh3rt66"),
  ("rct2.ww.wcuzco09", "rct2ww.scenery_small.wcuzco09"),
  ("rct2.ww.bstatue1", "rct2ww.scenery_small.bstatue1"),
  ("rct2.ww.wcuzfoun", "rct2ww.scenery_small.wcuzfoun"),
  ("rct2.ww.wropeswa", "rct2ww.scenery_small.wropeswa"),
  ("rct2.ww.sbwplm07", "rct2ww.scenery_small.sbwplm07"),
  ("rct2.ww.roofice3", "rct2ww.scenery_small.roofice3"),
  ("rct2.ww.flamngo1", "rct2ww.scenery_small.flamngo1"),
  ("rct2.ww.wdrab13", "rct2ww.scenery_small.wdrab13"),
  ("rct2.ww.sbwplm02", "rct2ww.scenery_small.sbwplm02"),
  ("rct2.ww.rtudor03", "rct2ww.scenery_small.rtudor03"),
  ("rct2.ww.pipebase", "rct2ww.scenery_small.pipebase"),
  ("rct2.ww.wgeorg08", "rct2ww.scenery_small.wgeorg08"),
  ("rct2.ww.fishhole", "rct2ww.scenery_small.fishhole"),
  ("rct2.ww.wmayan12", "rct2ww.scenery_small.wmayan12"),
  ("rct2.ww.wcuzco18", "rct2ww.scenery_small.wcuzco18"),
  ("rct2.ww.rbrick02", "rct2ww.scenery_small.rbrick02"),
  ("rct2.ww.waborg08", "rct2ww.scenery_small.waborg08"),
  ("rct2.ww.rgeorg07", "rct2ww.scenery_small.rgeorg07"),
  ("rct2.ww.rdrab14", "rct2ww.scenery_small.rdrab14"),
  ("rct2.ww.wtudor17", "rct2ww.scenery_small.wtudor17"),
  ("rct2.ww.wmayan01", "rct2ww.scenery_small.wmayan01"),
  ("rct2.ww.g1dancer", "rct2ww.scenery_small.g1dancer"),
  ("rct2.ww.japchblo", "rct2ww.scenery_small.japchblo"),
  ("rct2.ww.wnauti05", "rct2ww.scenery_small.wnauti05"),
  ("rct2.ww.waborg02", "rct2ww.scenery_small.waborg02"),
  ("rct2.ww.pcg", "rct2ww.scenery_small.pcg"),
  ("rct2.ww.antilopf", "rct2ww.scenery_small.antilopf"),
  ("rct2.ww.waztec25", "rct2ww.scenery_small.waztec25"),
  ("rct2.ww.wcuzco23", "rct2ww.scenery_small.wcuzco23"),
  ("rct2.ww.sbh1tepe", "rct2ww.scenery_small.sbh1tepe"),
  ("rct2.ww.pst", "rct2ww.scenery_small.pst"),
  ("rct2.ww.trckprt4", "rct2ww.scenery_small.trckprt4"),
  ("rct2.ww.rgeorg10", "rct2ww.scenery_small.rgeorg10"),
  ("rct2.ww.wropecor", "rct2ww.scenery_small.wropecor"),
  ("rct2.ww.tjblock2", "rct2ww.scenery_small.tjblock2"),
  ("rct2.ww.wtudor15", "rct2ww.scenery_small.wtudor15"),
  ("rct2.ww.wmayan11", "rct2ww.scenery_small.wmayan11"),
  ("rct2.ww.inuit", "rct2ww.scenery_small.inuit"),
  ("rct2.ww.wmayan26", "rct2ww.scenery_small.wmayan26"),
  ("rct2.ww.wcuzco06", "rct2ww.scenery_small.wcuzco06"),
  ("rct2.ww.tjblock3", "rct2ww.scenery_small.tjblock3"),
  ("rct2.ww.waztec27", "rct2ww.scenery_small.waztec27"),
  ("rct2.ww.sbh3plm2", "rct2ww.scenery_small.sbh3plm2"),
  ("rct2.ww.wmayan09", "rct2ww.scenery_small.wmayan09"),
  ("rct2.ww.sbh3plm1", "rct2ww.scenery_small.sbh3plm1"),
  ("rct2.ww.sbwind21", "rct2ww.scenery_small.sbwind21"),
  ("rct2.ww.waztec10", "rct2ww.scenery_small.waztec10"),
  ("rct2.ww.sbh3cac1", "rct2ww.scenery_small.sbh3cac1"),
  ("rct2.ww.1x1kanga", "rct2ww.scenery_small.1x1kanga"),
  ("rct2.ww.rbrick08", "rct2ww.scenery_small.rbrick08"),
  ("rct2.ww.rgeorg03", "rct2ww.scenery_small.rgeorg03"),
  ("rct2.ww.rdrab10", "rct2ww.scenery_small.rdrab10"),
  ("rct2.ww.jachtree", "rct2ww.scenery_small.jachtree"),
  ("rct2.ww.tnt1", "rct2ww.scenery_small.tnt1"),
  ("rct2.ww.wmayan24", "rct2ww.scenery_small.wmayan24"),
  ("rct2.ww.wmayan10", "rct2ww.scenery_small.wmayan10"),
  ("rct2.ww.roofig03", "rct2ww.scenery_small.roofig03"),
  ("rct2.ww.rkreml07", "rct2ww.scenery_small.rkreml07"),
  ("rct2.ww.oilpump", "rct2ww.scenery_small.oilpump"),
  ("rct2.ww.inflag02", "rct2ww.scenery_small.inflag02"),
  ("rct2.ww.roofig04", "rct2ww.scenery_small.roofig04"),
  ("rct2.ww.waztec22", "rct2ww.scenery_small.waztec22"),
  ("rct2.ww.wmayan05", "rct2ww.scenery_small.wmayan05"),
  ("rct2.ww.jpflag06", "rct2ww.scenery_small.jpflag06"),
  ("rct2.ww.rgeorg05", "rct2ww.scenery_small.rgeorg05"),
  ("rct2.ww.rgeorg02", "rct2ww.scenery_small.rgeorg02"),
  ("rct2.ww.ptj", "rct2ww.scenery_small.ptj"),
  ("rct2.ww.sbskys10", "rct2ww.scenery_small.sbskys10"),
  ("rct2.ww.wcuzco21", "rct2ww.scenery_small.wcuzco21"),
  ("rct2.ww.trckprt2", "rct2ww.scenery_small.trckprt2"),
  ("rct2.ww.tnt3", "rct2ww.scenery_small.tnt3"),
  ("rct2.ww.rcorr09", "rct2ww.scenery_small.rcorr09"),
  ("rct2.ww.sbh3plm3", "rct2ww.scenery_small.sbh3plm3"),
  ("rct2.ww.rdrab12", "rct2ww.scenery_small.rdrab12"),
  ("rct2.ww.sbwplm06", "rct2ww.scenery_small.sbwplm06"),
  ("rct2.ww.inuit2", "rct2ww.scenery_small.inuit2"),
  ("rct2.ww.rcorr04", "rct2ww.scenery_small.rcorr04"),
  ("rct2.ww.1x1emuxx", "rct2ww.scenery_small.1x1emuxx"),
  ("rct2.ww.sbskys08", "rct2ww.scenery_small.sbskys08"),
  ("rct2.ww.waztec14", "rct2ww.scenery_small.waztec14"),
  ("rct2.ww.sbskys16", "rct2ww.scenery_small.sbskys16"),
  ("rct2.ww.ukphone", "rct2ww.scenery_small.ukphone"),
  ("rct2.ww.rdrab06", "rct2ww.scenery_small.rdrab06"),
  ("rct2.ww.waztec09", "rct2ww.scenery_small.waztec09"),
  ("rct2.ww.wcuzco17", "rct2ww.scenery_small.wcuzco17"),
  ("rct2.ww.jpflag05", "rct2ww.scenery_small.jpflag05"),
  ("rct2.ww.wmayan13", "rct2ww.scenery_small.wmayan13"),
  ("rct2.ww.sbwind10", "rct2ww.scenery_small.sbwind10"),
  ("rct2.ww.wkreml01", "rct2ww.scenery_small.wkreml01"),
  ("rct2.ww.waztec24", "rct2ww.scenery_small.waztec24"),
  ("rct2.ww.roofice5", "rct2ww.scenery_small.roofice5"),
  ("rct2.ww.sbwplm08", "rct2ww.scenery_small.sbwplm08"),
  ("rct2.ww.wmayan25", "rct2ww.scenery_small.wmayan25"),
  ("rct2.ww.sbwind18", "rct2ww.scenery_small.sbwind18"),
  ("rct2.ww.jpflag02", "rct2ww.scenery_small.jpflag02"),
  ("rct2.ww.wmayan22", "rct2ww.scenery_small.wmayan22"),
  ("rct2.ww.wnauti02", "rct2ww.scenery_small.wnauti02"),
  ("rct2.ww.rgeorg11", "rct2ww.scenery_small.rgeorg11"),
  ("rct2.ww.sbwind15", "rct2ww.scenery_small.sbwind15"),
  ("rct2.ww.wcuzco25", "rct2ww.scenery_small.wcuzco25"),
  ("rct2.ww.waztec12", "rct2ww.scenery_small.waztec12"),
  ("rct2.ww.wmayan18", "rct2ww.scenery_small.wmayan18"),
  ("rct2.ww.jappintr", "rct2ww.scenery_small.jappintr"),
  ("rct2.ww.sbwind06", "rct2ww.scenery_small.sbwind06"),
  ("rct2.ww.rmud05", "rct2ww.scenery_small.rmud05"),
  ("rct2.ww.waztec16", "rct2ww.scenery_small.waztec16"),
  ("rct2.ww.sbwind08", "rct2ww.scenery_small.sbwind08"),
  ("rct2.ww.sbwplm05", "rct2ww.scenery_small.sbwplm05"),
  ("rct2.ww.wmayan23", "rct2ww.scenery_small.wmayan23"),
  ("rct2.ww.bamboobs", "rct2ww.scenery_small.bamboobs"),
  ("rct2.ww.wcuzco11", "rct2ww.scenery_small.wcuzco11"),
  ("rct2.ww.waborg07", "rct2ww.scenery_small.waborg07"),
  ("rct2.ww.rshogi2", "rct2ww.scenery_small.rshogi2"),
  ("rct2.ww.rkreml02", "rct2ww.scenery_small.rkreml02"),
  ("rct2.ww.talllan2", "rct2ww.scenery_small.talllan2"),
  ("rct2.ww.wdrab10", "rct2ww.scenery_small.wdrab10"),
  ("rct2.ww.wcuzco07", "rct2ww.scenery_small.wcuzco07"),
  ("rct2.ww.sbwind17", "rct2ww.scenery_small.sbwind17"),
  ("rct2.ww.wmayan06", "rct2ww.scenery_small.wmayan06"),
  ("rct2.ww.roofice4", "rct2ww.scenery_small.roofice4"),
  ("rct2.ww.rkreml11", "rct2ww.scenery_small.rkreml11"),
  ("rct2.ww.wcuzco04", "rct2ww.scenery_small.wcuzco04"),
  ("rct2.ww.1x1atre2", "rct2ww.scenery_small.1x1atre2"),
  ("rct2.ww.sb1hspb1", "rct2ww.scenery_small.sb1hspb1"),
  ("rct2.ww.waborg03", "rct2ww.scenery_small.waborg03"),
  ("rct2.ww.sbwind09", "rct2ww.scenery_small.sbwind09"),
  ("rct2.ww.waztec01", "rct2ww.scenery_small.waztec01"),
  ("rct2.ww.waztec15", "rct2ww.scenery_small.waztec15"),
  ("rct2.ww.wgeorg12", "rct2ww.scenery_small.wgeorg12"),
  ("rct2.ww.rtudor01", "rct2ww.scenery_small.rtudor01"),
  ("rct2.ww.wmayan21", "rct2ww.scenery_small.wmayan21"),
  ("rct2.ww.wmayan03", "rct2ww.scenery_small.wmayan03"),
  ("rct2.ww.wcuzco03", "rct2ww.scenery_small.wcuzco03"),
  ("rct2.ww.sb1hspb3", "rct2ww.scenery_small.sb1hspb3"),
  ("rct2.ww.sbwind04", "rct2ww.scenery_small.sbwind04"),
  ("rct2.ww.waztec17", "rct2ww.scenery_small.waztec17"),
  ("rct2.ww.rdrab05", "rct2ww.scenery_small.rdrab05"),
  ("rct2.ww.sbskys09", "rct2ww.scenery_small.sbskys09"),
  ("rct2.ww.sbskys14", "rct2ww.scenery_small.sbskys14"),
  ("rct2.ww.babyele", "rct2ww.scenery_small.babyele"),
  ("rct2.ww.rshogi1", "rct2ww.scenery_small.rshogi1"),
  ("rct2.ww.sbh2shlt", "rct2ww.scenery_small.sbh2shlt"),
  ("rct2.ww.wnauti04", "rct2ww.scenery_small.wnauti04"),
  ("rct2.ww.wtudor14", "rct2ww.scenery_small.wtudor14"),
  ("rct2.ww.sbskys04", "rct2ww.scenery_small.sbskys04"),
  ("rct2.ww.antilopm", "rct2ww.scenery_small.antilopm"),
  ("rct2.ww.wmayan04", "rct2ww.scenery_small.wmayan04"),
  ("rct2.ww.campfani", "rct2ww.scenery_small.campfani"),
  ("rct2.ww.jpflag01", "rct2ww.scenery_small.jpflag01"),
  ("rct2.ww.conveyr4", "rct2ww.scenery_small.conveyr4"),
  ("rct2.ww.wcuzco19", "rct2ww.scenery_small.wcuzco19"),
  ("rct2.ww.sbwind13", "rct2ww.scenery_small.sbwind13"),
  ("rct2.ww.smallgeo", "rct2ww.scenery_small.smallgeo"),
  ("rct2.ww.antilopp", "rct2ww.scenery_small.antilopp"),
  ("rct2.ww.wdrab12", "rct2ww.scenery_small.wdrab12"),
  ("rct2.ww.rcorr02", "rct2ww.scenery_small.rcorr02"),
  ("rct2.ww.inflag03", "rct2ww.scenery_small.inflag03"),
  ("rct2.ww.sbwind11", "rct2ww.scenery_small.sbwind11"),
  ("rct2.ww.waztec13", "rct2ww.scenery_small.waztec13"),
  ("rct2.ww.1x1jugt3", "rct2ww.scenery_small.1x1jugt3"),
  ("rct2.ww.wcuzco16", "rct2ww.scenery_small.wcuzco16"),
  ("rct2.ww.rkreml05", "rct2ww.scenery_small.rkreml05"),
  ("rct2.ww.roofice2", "rct2ww.scenery_small.roofice2"),
  ("rct2.ww.rgeorg06", "rct2ww.scenery_small.rgeorg06"),
  ("rct2.ww.sbwind20", "rct2ww.scenery_small.sbwind20"),
  ("rct2.ww.waborg04", "rct2ww.scenery_small.waborg04"),
  ("rct2.ww.wcuzco10", "rct2ww.scenery_small.wcuzco10"),
  ("rct2.ww.wmayan14", "rct2ww.scenery_small.wmayan14"),
  ("rct2.ww.adpanda", "rct2ww.scenery_small.adpanda"),
  ("rct2.ww.rwdaub01", "rct2ww.scenery_small.rwdaub01"),
  ("rct2.ww.ptk", "rct2ww.scenery_small.ptk"),
  ("rct2.ww.roofice6", "rct2ww.scenery_small.roofice6"),
  ("rct2.ww.sb2sky01", "rct2ww.scenery_small.sb2sky01"),
  ("rct2.ww.sb1hspb2", "rct2ww.scenery_small.sb1hspb2"),
  ("rct2.ww.rlog01", "rct2ww.scenery_small.rlog01"),
  ("rct2.ww.roofig02", "rct2ww.scenery_small.roofig02"),
  ("rct2.ww.rkreml03", "rct2ww.scenery_small.rkreml03"),
  ("rct2.ww.wcuzco01", "rct2ww.scenery_small.wcuzco01"),
  ("rct2.ww.sbskys05", "rct2ww.scenery_small.sbskys05"),
  ("rct2.ww.rwdaub02", "rct2ww.scenery_small.rwdaub02"),
  ("rct2.ww.wgeorg07", "rct2ww.scenery_small.wgeorg07"),
  ("rct2.ww.rbrick03", "rct2ww.scenery_small.rbrick03"),
  ("rct2.ww.conveyr5", "rct2ww.scenery_small.conveyr5"),
  ("rct2.ww.rlog02", "rct2ww.scenery_small.rlog02"),
  ("rct2.ww.sbskys02", "rct2ww.scenery_small.sbskys02"),
  ("rct2.ww.rmud03", "rct2ww.scenery_small.rmud03"),
  ("rct2.ww.waztec20", "rct2ww.scenery_small.waztec20"),
  ("rct2.ww.rlog05", "rct2ww.scenery_small.rlog05"),
  ("rct2.ww.rbrick04", "rct2ww.scenery_small.rbrick04"),
  ("rct2.ww.sbskys01", "rct2ww.scenery_small.sbskys01"),
  ("rct2.ww.waztec11", "rct2ww.scenery_small.waztec11"),
  ("rct2.ww.waztec08", "rct2ww.scenery_small.waztec08"),
  ("rct2.ww.wcuzco12", "rct2ww.scenery_small.wcuzco12"),
  ("rct2.ww.rbrick07", "rct2ww.scenery_small.rbrick07"),
  ("rct2.ww.waborg06", "rct2ww.scenery_small.waborg06"),
  ("rct2.ww.wkreml04", "rct2ww.scenery_small.wkreml04"),
  ("rct2.ww.postbox", "rct2ww.scenery_small.postbox"),
  ("rct2.ww.waztec19", "rct2ww.scenery_small.waztec19"),
  ("rct2.ww.conveyr2", "rct2ww.scenery_small.conveyr2"),
  ("rct2.ww.talllan1", "rct2ww.scenery_small.talllan1"),
  ("rct2.ww.rbrick05", "rct2ww.scenery_small.rbrick05"),
  ("rct2.ww.vertpipe", "rct2ww.scenery_small.vertpipe"),
  ("rct2.ww.waborg01", "rct2ww.scenery_small.waborg01"),
  ("rct2.ww.trckprt7", "rct2ww.scenery_small.trckprt7"),
  ("rct2.ww.wgeorg11", "rct2ww.scenery_small.wgeorg11"),
  ("rct2.ww.flamngo2", "rct2ww.scenery_small.flamngo2"),
  ("rct2.ww.tjblock1", "rct2ww.scenery_small.tjblock1"),
  ("rct2.ww.sbskys13", "rct2ww.scenery_small.sbskys13"),
  ("rct2.ww.wmayan15", "rct2ww.scenery_small.wmayan15"),
  ("rct2.ww.sbskys11", "rct2ww.scenery_small.sbskys11"),
  ("rct2.ww.pipevent", "rct2ww.scenery_small.pipevent"),
  ("rct2.ww.balllant", "rct2ww.scenery_small.balllant"),
  ("rct2.ww.waztec04", "rct2ww.scenery_small.waztec04"),
  ("rct2.ww.rshogi3", "rct2ww.scenery_small.rshogi3"),
  ("rct2.ww.waztec06", "rct2ww.scenery_small.waztec06"),
  ("rct2.ww.wcuzco05", "rct2ww.scenery_small.wcuzco05"),
  ("rct2.ww.inflag01", "rct2ww.scenery_small.inflag01"),
  ("rct2.ww.roofice1", "rct2ww.scenery_small.roofice1"),
  ("rct2.ww.rmarble1", "rct2ww.scenery_small.rmarble1"),
  ("rct2.ww.rdrab08", "rct2ww.scenery_small.rdrab08"),
  ("rct2.ww.rkreml01", "rct2ww.scenery_small.rkreml01"),
  ("rct2.ww.conveyr3", "rct2ww.scenery_small.conveyr3"),
  ("rct2.ww.wcuzco28", "rct2ww.scenery_small.wcuzco28"),
  ("rct2.ww.wmayan16", "rct2ww.scenery_small.wmayan16"),
  ("rct2.ww.rmarble4", "rct2ww.scenery_small.rmarble4"),
  ("rct2.ww.wnauti03", "rct2ww.scenery_small.wnauti03"),
  ("rct2.ww.waztec07", "rct2ww.scenery_small.waztec07"),
  ("rct2.ww.rcorr10", "rct2ww.scenery_small.rcorr10"),
  ("rct2.ww.sbskys12", "rct2ww.scenery_small.sbskys12"),
  ("rct2.ww.rmud02", "rct2ww.scenery_small.rmud02"),
  ("rct2.ww.sbwind05", "rct2ww.scenery_small.sbwind05"),
  ("rct2.ww.rwdaub03", "rct2ww.scenery_small.rwdaub03"),
  ("rct2.ww.jpflag04", "rct2ww.scenery_small.jpflag04"),
  ("rct2.ww.wkreml06", "rct2ww.scenery_small.wkreml06"),
  ("rct2.ww.rkreml04", "rct2ww.scenery_small.rkreml04"),
  ("rct2.ww.rgeorg09", "rct2ww.scenery_small.rgeorg09"),
  ("rct2.ww.wkreml05", "rct2ww.scenery_small.wkreml05"),
  ("rct2.ww.pco", "rct2ww.scenery_small.pco"),
  ("rct2.ww.sbwind03", "rct2ww.scenery_small.sbwind03"),
  ("rct2.ww.rmarble2", "rct2ww.scenery_small.rmarble2"),
  ("rct2.ww.wcuzco22", "rct2ww.scenery_small.wcuzco22"),
  ("rct2.ww.wcuzco27", "rct2ww.scenery_small.wcuzco27"),
  ("rct2.ww.trckprt8", "rct2ww.scenery_small.trckprt8"),
  ("rct2.ww.waztec02", "rct2ww.scenery_small.waztec02"),
  ("rct2.ww.terrarmy", "rct2ww.scenery_small.terrarmy"),
  ("rct2.ww.sbwind19", "rct2ww.scenery_small.sbwind19"),
  ("rct2.ww.roofig01", "rct2ww.scenery_small.roofig01"),
  ("rct2.ww.icebarl2", "rct2ww.scenery_small.icebarl2"),
  ("rct2.ww.wcuzco26", "rct2ww.scenery_small.wcuzco26"),
  ("rct2.ww.balllan2", "rct2ww.scenery_small.balllan2"),
  ("rct2.ww.tnt4", "rct2ww.scenery_small.tnt4"),
  ("rct2.ww.sballoon", "rct2ww.scenery_small.sballoon"),
  ("rct2.ww.babpanda", "rct2ww.scenery_small.babpanda"),
  ("rct2.ww.trckprt3", "rct2ww.scenery_small.trckprt3"),
  ("rct2.ww.wcuzco08", "rct2ww.scenery_small.wcuzco08"),
  ("rct2.ww.waztec26", "rct2ww.scenery_small.waztec26"),
  ("rct2.ww.rtudor02", "rct2ww.scenery_small.rtudor02"),
  ("rct2.ww.rcorr08", "rct2ww.scenery_small.rcorr08"),
  ("rct2.ww.wgeorg10", "rct2ww.scenery_small.wgeorg10"),
  ("rct2.ww.1x1didge", "rct2ww.scenery_small.1x1didge"),
  ("rct2.ww.sbwplm03", "rct2ww.scenery_small.sbwplm03"),
  ("rct2.ww.1x1jugt2", "rct2ww.scenery_small.1x1jugt2"),
  ("rct2.ww.g2dancer", "rct2ww.scenery_small.g2dancer"),
  ("rct2.ww.wcuzco15", "rct2ww.scenery_small.wcuzco15"),
  ("rct2.ww.wcuzco14", "rct2ww.scenery_small.wcuzco14"),
  ("rct2.ww.rbrick01", "rct2ww.scenery_small.rbrick01"),
  ("rct2.ww.flamngo3", "rct2ww.scenery_small.flamngo3"),
  ("rct2.ww.sbh4totm", "rct2ww.scenery_small.sbh4totm"),
  ("rct2.ww.rgeorg12", "rct2ww.scenery_small.rgeorg12"),
  ("rct2.ww.sbh3cskl", "rct2ww.scenery_small.sbh3cskl"),
  ("rct2.ww.waztec05", "rct2ww.scenery_small.waztec05"),
  ("rct2.ww.wcuzco20", "rct2ww.scenery_small.wcuzco20"),
  ("rct2.ww.wcuzco13", "rct2ww.scenery_small.wcuzco13"),
  ("rct2.ww.inflag05", "rct2ww.scenery_small.inflag05"),
  ("rct2.ww.rmarble3", "rct2ww.scenery_small.rmarble3"),
  ("rct2.ww.waborg05", "rct2ww.scenery_small.waborg05"),
  ("rct2.ww.wmayan07", "rct2ww.scenery_small.wmayan07"),
  ("rct2.ww.tnt2", "rct2ww.scenery_small.tnt2"),
  ("rct2.ww.wmayan02", "rct2ww.scenery_small.wmayan02"),
  ("rct2.ww.wdrab11", "rct2ww.scenery_small.wdrab11"),
  ("rct2.ww.rgeorg08", "rct2ww.scenery_small.rgeorg08"),
  ("rct2.ww.pva", "rct2ww.scenery_small.pva"),
  ("rct2.ww.wtudor12", "rct2ww.scenery_small.wtudor12"),
  ("rct2.ww.wkreml03", "rct2ww.scenery_small.wkreml03"),
  ("rct2.ww.jpflag03", "rct2ww.scenery_small.jpflag03"),
  ("rct2.ww.fstatue1", "rct2ww.scenery_small.fstatue1"),
  ("rct2.ww.wcuzco02", "rct2ww.scenery_small.wcuzco02"),
  ("rct2.ww.waztec23", "rct2ww.scenery_small.waztec23"),
  ("rct2.ww.sbwind14", "rct2ww.scenery_small.sbwind14"),
  ("rct2.ww.wmarble1", "rct2ww.scenery_wall.wmarble1"),
  ("rct2.ww.wbambopc", "rct2ww.scenery_wall.wbambopc"),
  ("rct2.ww.wshogi07", "rct2ww.scenery_wall.wshogi07"),
  ("rct2.ww.wskysc08", "rct2ww.scenery_wall.wskysc08"),
  ("rct2.ww.wmud05", "rct2ww.scenery_wall.wmud05"),
  ("rct2.ww.wtudor03", "rct2ww.scenery_wall.wtudor03"),
  ("rct2.ww.wdrab07", "rct2ww.scenery_wall.wdrab07"),
  ("rct2.ww.wshogi10", "rct2ww.scenery_wall.wshogi10"),
  ("rct2.ww.wkreml07", "rct2ww.scenery_wall.wkreml07"),
  ("rct2.ww.wallna07", "rct2ww.scenery_wall.wallna07"),
  ("rct2.ww.wshogi11", "rct2ww.scenery_wall.wshogi11"),
  ("rct2.ww.w2corr06", "rct2ww.scenery_wall.w2corr06"),
  ("rct2.ww.w3corr08", "rct2ww.scenery_wall.w3corr08"),
  ("rct2.ww.wskysc04", "rct2ww.scenery_wall.wskysc04"),
  ("rct2.ww.wallice5", "rct2ww.scenery_wall.wallice5"),
  ("rct2.ww.wtudor11", "rct2ww.scenery_wall.wtudor11"),
  ("rct2.ww.wmud08", "rct2ww.scenery_wall.wmud08"),
  ("rct2.ww.wtudor09", "rct2ww.scenery_wall.wtudor09"),
  ("rct2.ww.wbambo01", "rct2ww.scenery_wall.wbambo01"),
  ("rct2.ww.wallna13", "rct2ww.scenery_wall.wallna13"),
  ("rct2.ww.wmarble3", "rct2ww.scenery_wall.wmarble3"),
  ("rct2.ww.wmud01", "rct2ww.scenery_wall.wmud01"),
  ("rct2.ww.wmud03", "rct2ww.scenery_wall.wmud03"),
  ("rct2.ww.wgwoc2", "rct2ww.scenery_wall.wgwoc2"),
  ("rct2.ww.wkreml10", "rct2ww.scenery_wall.wkreml10"),
  ("rct2.ww.wcorr09", "rct2ww.scenery_wall.wcorr09"),
  ("rct2.ww.w3corr05", "rct2ww.scenery_wall.w3corr05"),
  ("rct2.ww.wallna05", "rct2ww.scenery_wall.wallna05"),
  ("rct2.ww.wskysc05", "rct2ww.scenery_wall.wskysc05"),
  ("rct2.ww.wmarbpl7", "rct2ww.scenery_wall.wmarbpl7"),
  ("rct2.ww.wallna04", "rct2ww.scenery_wall.wallna04"),
  ("rct2.ww.wgeorg03", "rct2ww.scenery_wall.wgeorg03"),
  ("rct2.ww.w2corr03", "rct2ww.scenery_wall.w2corr03"),
  ("rct2.ww.wbrick01", "rct2ww.scenery_wall.wbrick01"),
  ("rct2.ww.wshogi02", "rct2ww.scenery_wall.wshogi02"),
  ("rct2.ww.w2corr05", "rct2ww.scenery_wall.w2corr05"),
  ("rct2.ww.tmarch1", "rct2ww.scenery_wall.tmarch1"),
  ("rct2.ww.wdrab02", "rct2ww.scenery_wall.wdrab02"),
  ("rct2.ww.wgeorg01", "rct2ww.scenery_wall.wgeorg01"),
  ("rct2.ww.wskysc09", "rct2ww.scenery_wall.wskysc09"),
  ("rct2.ww.wbambo15", "rct2ww.scenery_wall.wbambo15"),
  ("rct2.ww.wcorr08", "rct2ww.scenery_wall.wcorr08"),
  ("rct2.ww.wallna03", "rct2ww.scenery_wall.wallna03"),
  ("rct2.ww.wshogi06", "rct2ww.scenery_wall.wshogi06"),
  ("rct2.ww.wmud06", "rct2ww.scenery_wall.wmud06"),
  ("rct2.ww.wwdaub05", "rct2ww.scenery_wall.wwdaub05"),
  ("rct2.ww.wtudor04", "rct2ww.scenery_wall.wtudor04"),
  ("rct2.ww.wcorr12", "rct2ww.scenery_wall.wcorr12"),
  ("rct2.ww.wskysc03", "rct2ww.scenery_wall.wskysc03"),
  ("rct2.ww.w2corr07", "rct2ww.scenery_wall.w2corr07"),
  ("rct2.ww.wwdaub02", "rct2ww.scenery_wall.wwdaub02"),
  ("rct2.ww.wcorr03", "rct2ww.scenery_wall.wcorr03"),
  ("rct2.ww.wwdaub04", "rct2ww.scenery_wall.wwdaub04"),
  ("rct2.ww.wcorr10", "rct2ww.scenery_wall.wcorr10"),
  ("rct2.ww.wallice7", "rct2ww.scenery_wall.wallice7"),
  ("rct2.ww.wwdaub03", "rct2ww.scenery_wall.wwdaub03"),
  ("rct2.ww.wdrab03", "rct2ww.scenery_wall.wdrab03"),
  ("rct2.ww.wlog01", "rct2ww.scenery_wall.wlog01"),
  ("rct2.ww.wbrick05", "rct2ww.scenery_wall.wbrick05"),
  ("rct2.ww.wwind06", "rct2ww.scenery_wall.wwind06"),
  ("rct2.ww.wshogi14", "rct2ww.scenery_wall.wshogi14"),
  ("rct2.ww.wbrick04", "rct2ww.scenery_wall.wbrick04"),
  ("rct2.ww.wgeorg02", "rct2ww.scenery_wall.wgeorg02"),
  ("rct2.ww.wbambo21", "rct2ww.scenery_wall.wbambo21"),
  ("rct2.ww.wtudor06", "rct2ww.scenery_wall.wtudor06"),
  ("rct2.ww.wgeorg04", "rct2ww.scenery_wall.wgeorg04"),
  ("rct2.ww.wshogi04", "rct2ww.scenery_wall.wshogi04"),
  ("rct2.ww.w3corr04", "rct2ww.scenery_wall.w3corr04"),
  ("rct2.ww.wtudor02", "rct2ww.scenery_wall.wtudor02"),
  ("rct2.ww.wbrick03", "rct2ww.scenery_wall.wbrick03"),
  ("rct2.ww.wallna08", "rct2ww.scenery_wall.wallna08"),
  ("rct2.ww.wmarble2", "rct2ww.scenery_wall.wmarble2"),
  ("rct2.ww.wkreml09", "rct2ww.scenery_wall.wkreml09"),
  ("rct2.ww.wgeorg06", "rct2ww.scenery_wall.wgeorg06"),
  ("rct2.ww.wallice3", "rct2ww.scenery_wall.wallice3"),
  ("rct2.ww.wigloo2", "rct2ww.scenery_wall.wigloo2"),
  ("rct2.ww.wskysc10", "rct2ww.scenery_wall.wskysc10"),
  ("rct2.ww.wallice9", "rct2ww.scenery_wall.wallice9"),
  ("rct2.ww.w3corr02", "rct2ww.scenery_wall.w3corr02"),
  ("rct2.ww.wmarbpl3", "rct2ww.scenery_wall.wmarbpl3"),
  ("rct2.ww.w3corr07", "rct2ww.scenery_wall.w3corr07"),
  ("rct2.ww.wlog05", "rct2ww.scenery_wall.wlog05"),
  ("rct2.ww.wgwoc3", "rct2ww.scenery_wall.wgwoc3"),
  ("rct2.ww.wskysc06", "rct2ww.scenery_wall.wskysc06"),
  ("rct2.ww.wcorr14", "rct2ww.scenery_wall.wcorr14"),
  ("rct2.ww.wbrick13", "rct2ww.scenery_wall.wbrick13"),
  ("rct2.ww.wmarble5", "rct2ww.scenery_wall.wmarble5"),
  ("rct2.ww.wkreml08", "rct2ww.scenery_wall.wkreml08"),
  ("rct2.ww.wmarbpl4", "rct2ww.scenery_wall.wmarbpl4"),
  ("rct2.ww.wlog06", "rct2ww.scenery_wall.wlog06"),
  ("rct2.ww.wdrab06", "rct2ww.scenery_wall.wdrab06"),
  ("rct2.ww.wbrick12", "rct2ww.scenery_wall.wbrick12"),
  ("rct2.ww.wshogi17", "rct2ww.scenery_wall.wshogi17"),
  ("rct2.ww.wtudor05", "rct2ww.scenery_wall.wtudor05"),
  ("rct2.ww.wallna01", "rct2ww.scenery_wall.wallna01"),
  ("rct2.ww.wmarbpl6", "rct2ww.scenery_wall.wmarbpl6"),
  ("rct2.ww.wcorr07", "rct2ww.scenery_wall.wcorr07"),
  ("rct2.ww.wbambo05", "rct2ww.scenery_wall.wbambo05"),
  ("rct2.ww.wmud04", "rct2ww.scenery_wall.wmud04"),
  ("rct2.ww.wmarbpl5", "rct2ww.scenery_wall.wmarbpl5"),
  ("rct2.ww.wallice4", "rct2ww.scenery_wall.wallice4"),
  ("rct2.ww.wallice2", "rct2ww.scenery_wall.wallice2"),
  ("rct2.ww.wbambo13", "rct2ww.scenery_wall.wbambo13"),
  ("rct2.ww.wbambo04", "rct2ww.scenery_wall.wbambo04"),
  ("rct2.ww.wcorr01", "rct2ww.scenery_wall.wcorr01"),
  ("rct2.ww.wpalm01", "rct2ww.scenery_wall.wpalm01"),
  ("rct2.ww.wshogi16", "rct2ww.scenery_wall.wshogi16"),
  ("rct2.ww.wallice8", "rct2ww.scenery_wall.wallice8"),
  ("rct2.ww.wlog02", "rct2ww.scenery_wall.wlog02"),
  ("rct2.ww.wtudor01", "rct2ww.scenery_wall.wtudor01"),
  ("rct2.ww.wshogi08", "rct2ww.scenery_wall.wshogi08"),
  ("rct2.ww.wcorr04", "rct2ww.scenery_wall.wcorr04"),
  ("rct2.ww.wgwoc1", "rct2ww.scenery_wall.wgwoc1"),
  ("rct2.ww.w2corr02", "rct2ww.scenery_wall.w2corr02"),
  ("rct2.ww.wallice6", "rct2ww.scenery_wall.wallice6"),
  ("rct2.ww.wallna10", "rct2ww.scenery_wall.wallna10"),
  ("rct2.ww.wbrick11", "rct2ww.scenery_wall.wbrick11"),
  ("rct2.ww.wshogi13", "rct2ww.scenery_wall.wshogi13"),
  ("rct2.ww.wskysc01", "rct2ww.scenery_wall.wskysc01"),
  ("rct2.ww.wcorr05", "rct2ww.scenery_wall.wcorr05"),
  ("rct2.ww.w2corr01", "rct2ww.scenery_wall.w2corr01"),
  ("rct2.ww.wshogi15", "rct2ww.scenery_wall.wshogi15"),
  ("rct2.ww.wdrab01", "rct2ww.scenery_wall.wdrab01"),
  ("rct2.ww.wallna09", "rct2ww.scenery_wall.wallna09"),
  ("rct2.ww.wshogi12", "rct2ww.scenery_wall.wshogi12"),
  ("rct2.ww.wmud07", "rct2ww.scenery_wall.wmud07"),
  ("rct2.ww.wpalm02", "rct2ww.scenery_wall.wpalm02"),
  ("rct2.ww.wmarbpl2", "rct2ww.scenery_wall.wmarbpl2"),
  ("rct2.ww.wwind04", "rct2ww.scenery_wall.wwind04"),
  ("rct2.ww.wbambo14", "rct2ww.scenery_wall.wbambo14"),
  ("rct2.ww.wshogi09", "rct2ww.scenery_wall.wshogi09"),
  ("rct2.ww.wwdaub07", "rct2ww.scenery_wall.wwdaub07"),
  ("rct2.ww.wallna12", "rct2ww.scenery_wall.wallna12"),
  ("rct2.ww.wmarble6", "rct2ww.scenery_wall.wmarble6"),
  ("rct2.ww.wbrick08", "rct2ww.scenery_wall.wbrick08"),
  ("rct2.ww.wpalm04", "rct2ww.scenery_wall.wpalm04"),
  ("rct2.ww.tmarch2", "rct2ww.scenery_wall.tmarch2"),
  ("rct2.ww.wallna14", "rct2ww.scenery_wall.wallna14"),
  ("rct2.ww.wmarbpl1", "rct2ww.scenery_wall.wmarbpl1"),
  ("rct2.ww.wwind05", "rct2ww.scenery_wall.wwind05"),
  ("rct2.ww.wpalm05", "rct2ww.scenery_wall.wpalm05"),
  ("rct2.ww.wallice1", "rct2ww.scenery_wall.wallice1"),
  ("rct2.ww.wbambo02", "rct2ww.scenery_wall.wbambo02"),
  ("rct2.ww.wskysc11", "rct2ww.scenery_wall.wskysc11"),
  ("rct2.ww.wtudor08", "rct2ww.scenery_wall.wtudor08"),
  ("rct2.ww.w3corr03", "rct2ww.scenery_wall.w3corr03"),
  ("rct2.ww.w2corr08", "rct2ww.scenery_wall.w2corr08"),
  ("rct2.ww.wwind03", "rct2ww.scenery_wall.wwind03"),
  ("rct2.ww.wmarble4", "rct2ww.scenery_wall.wmarble4"),
  ("rct2.ww.wwdaub06", "rct2ww.scenery_wall.wwdaub06"),
  ("rct2.ww.wmud02", "rct2ww.scenery_wall.wmud02"),
  ("rct2.ww.wtudor10", "rct2ww.scenery_wall.wtudor10"),
  ("rct2.ww.wbambo03", "rct2ww.scenery_wall.wbambo03"),
  ("rct2.ww.wskysc02", "rct2ww.scenery_wall.wskysc02"),
  ("rct2.ww.wdrab04", "rct2ww.scenery_wall.wdrab04"),
  ("rct2.ww.wcorr02", "rct2ww.scenery_wall.wcorr02"),
  ("rct2.ww.wallna02", "rct2ww.scenery_wall.wallna02"),
  ("rct2.ww.wdrab05", "rct2ww.scenery_wall.wdrab05"),
  ("rct2.ww.wbrick02", "rct2ww.scenery_wall.wbrick02"),
  ("rct2.ww.wigloo1", "rct2ww.scenery_wall.wigloo1"),
  ("rct2.ww.wcorr13", "rct2ww.scenery_wall.wcorr13"),
  ("rct2.ww.wskysc07", "rct2ww.scenery_wall.wskysc07"),
  ("rct2.ww.wcorr15", "rct2ww.scenery_wall.wcorr15"),
  ("rct2.ww.wcorr16", "rct2ww.scenery_wall.wcorr16"),
  ("rct2.ww.w2corr04", "rct2ww.scenery_wall.w2corr04"),
  ("rct2.ww.wdrab08", "rct2ww.scenery_wall.wdrab08"),
  ("rct2.ww.wlog04", "rct2ww.scenery_wall.wlog04"),
  ("rct2.ww.wskysc12", "rct2ww.scenery_wall.wskysc12"),
  ("rct2.ww.wbambo12", "rct2ww.scenery_wall.wbambo12"),
  ("rct2.ww.wbambo11", "rct2ww.scenery_wall.wbambo11"),
  ("rct2.ww.w3corr01", "rct2ww.scenery_wall.w3corr01"),
  ("rct2.ww.wshogi03", "rct2ww.scenery_wall.wshogi03"),
  ("rct2.ww.wwdaub01", "rct2ww.scenery_wall.wwdaub01"),
  ("rct2.ww.wcorr06", "rct2ww.scenery_wall.wcorr06"),
  ("rct2.ww.wtudor07", "rct2ww.scenery_wall.wtudor07"),
  ("rct2.ww.wgeorg05", "rct2ww.scenery_wall.wgeorg05"),
  ("rct2.ww.wallna11", "rct2ww.scenery_wall.wallna11"),
  ("rct2.ww.wshogi05", "rct2ww.scenery_wall.wshogi05"),
  ("rct2.ww.wlog03", "rct2ww.scenery_wall.wlog03"),
  ("rct2.ww.w3corr06", "rct2ww.scenery_wall.w3corr06"),
  ("rct2.ww.wshogi01", "rct2ww.scenery_wall.wshogi01"),
  ("rct2.ww.wallic10", "rct2ww.scenery_wall.wallic10"),
  ("rct2.ww.wcorr11", "rct2ww.scenery_wall.wcorr11"),
  ("rct2.ww.wpalm03", "rct2ww.scenery_wall.wpalm03"),
  ("rct2.ww.wallna06", "rct2ww.scenery_wall.wallna06"),
  ("rct2.ww.lionride", "rct2ww.ride.lionride"),
  ("rct2.ww.tigrtwst", "rct2ww.ride.tigrtwst"),
  ("rct2.ww.tgvtrain", "rct2ww.ride.tgvtrain"),
  ("rct2.ww.caddilac", "rct2ww.ride.caddilac"),
  ("rct2.ww.bomerang", "rct2ww.ride.bomerang"),
  ("rct2.ww.coffeecu", "rct2ww.ride.coffeecu"),
  ("rct2.ww.football", "rct2ww.ride.football"),
  ("rct2.ww.dolphinr", "rct2ww.ride.dolphinr"),
  ("rct2.ww.mandarin", "rct2ww.ride.mandarin"),
  ("rct2.ww.crnvbfly", "rct2ww.ride.crnvbfly"),
  ("rct2.ww.mantaray", "rct2ww.ride.mantaray"),
  ("rct2.ww.blackcab", "rct2ww.ride.blackcab"),
  ("rct2.ww.skidoo", "rct2ww.ride.skidoo"),
  ("rct2.ww.dhowwatr", "rct2ww.ride.dhowwatr"),
  ("rct2.ww.minelift", "rct2ww.ride.minelift"),
  ("rct2.ww.sloth", "rct2ww.ride.sloth"),
  ("rct2.ww.huskie", "rct2ww.ride.huskie"),
  ("rct2.ww.condorrd", "rct2ww.ride.condorrd"),
  ("rct2.ww.junkswng", "rct2ww.ride.junkswng"),
  ("rct2.ww.congaeel", "rct2ww.ride.congaeel"),
  ("rct2.ww.dragdodg", "rct2ww.ride.dragdodg"),
  ("rct2.ww.diamondr", "rct2ww.ride.diamondr"),
  ("rct2.ww.fightkit", "rct2ww.ride.fightkit"),
  ("rct2.ww.faberge", "rct2ww.ride.faberge"),
  ("rct2.ww.penguinb", "rct2ww.ride.penguinb"),
  ("rct2.ww.crnvlzrd", "rct2ww.ride.crnvlzrd"),
  ("rct2.ww.killwhal", "rct2ww.ride.killwhal"),
  ("rct2.ww.rocket", "rct2ww.ride.rocket"),
  ("rct2.ww.tutlboat", "rct2ww.ride.tutlboat"),
  ("rct2.ww.gratwhte", "rct2ww.ride.gratwhte"),
  ("rct2.ww.steamtrn", "rct2ww.ride.steamtrn"),
  ("rct2.ww.londonbs", "rct2ww.ride.londonbs"),
  ("rct2.ww.rhinorid", "rct2ww.ride.rhinorid"),
  ("rct2.ww.anaconda", "rct2ww.ride.anaconda"),
  ("rct2.ww.italypor", "rct2ww.ride.italypor"),
  ("rct2.ww.gorilla", "rct2ww.ride.gorilla"),
  ("rct2.ww.ostrich", "rct2ww.ride.ostrich"),
  ("rct2.ww.crnvfrog", "rct2ww.ride.crnvfrog"),
  ("rct2.ww.dragon", "rct2ww.ride.dragon"),
  ("rct2.ww.minecart", "rct2ww.ride.minecart"),
  ("rct2.ww.firecrak", "rct2ww.ride.firecrak"),
  ("rct2.ww.hipporid", "rct2ww.ride.hipporid"),
  ("rct2.ww.rssncrrd", "rct2ww.ride.rssncrrd"),
  ("rct2.ww.kolaride", "rct2ww.ride.kolaride"),
  ("rct2.ww.seals", "rct2ww.ride.seals"),
  ("rct2.ww.polarber", "rct2ww.ride.polarber"),
  ("rct2.ww.taxicstr", "rct2ww.ride.taxicstr"),
  ("rct2.ww.whicgrub", "rct2ww.ride.whicgrub"),
  ("rct2.ww.jaguarrd", "rct2ww.ride.jaguarrd"),
  ("rct2.ww.sputnikr", "rct2ww.ride.sputnikr"),
  ("rct2.ww.outriggr", "rct2ww.ride.outriggr"),
  ("rct2.ww.stgccstr", "rct2ww.ride.stgccstr"),
  ("rct2.ww.surfbrdc", "rct2ww.ride.surfbrdc"),
  ("rct2.ww.bullet", "rct2ww.ride.bullet"),
  ("rct2.ww.crocflum", "rct2ww.ride.crocflum"),
  ("rct2.ww.sanftram", "rct2ww.ride.sanftram"),
  ("rct2.ww.ozentran", "rct2ww.park_entrance.ozentran"),
  ("rct2.ww.euroent", "rct2ww.park_entrance.euroent"),
  ("rct2.ww.iceent", "rct2ww.park_entrance.iceent"),
  ("rct2.ww.japent", "rct2ww.park_entrance.japent"),
  ("rct2.ww.africent", "rct2ww.park_entrance.africent"),
  ("rct2.ww.naent", "rct2ww.park_entrance.naent"),
  ("rct2.ww.samerent", "rct2ww.park_entrance.samerent"),
  ("rct1.wooden_fence_red", "rct1.scenery_wall.wooden_fence_red"),
  ("rct1.ll.railings.bamboo", "rct1ll.footpath_railings.bamboo"),
  ("rct1.ll.railings.space", "rct1ll.footpath_railings.space"),
  ("rct1.toilets", "rct1.ride.toilets"),
  ("rct1.pathsurface.crazy", "rct1.footpath_surface.crazy_paving"),
  ("rct1.ll.pathsurface.tile.red", "rct1ll.footpath_surface.tiles_red"),
  ("rct1.pathsurface.tarmac", "rct1.footpath_surface.tarmac"),
  ("rct1.aa.pathsurface.tile.grey", "rct1aa.footpath_surface.tiles_grey"),
  ("rct1.pathsurface.dirt", "rct1.footpath_surface.dirt"),
  ("rct1.aa.pathsurface.space", "rct1aa.footpath_surface.tarmac_red"),
  ("rct1.ll.pathsurface.tile.green", "rct1ll.footpath_surface.tiles_green"),
  ("rct1.pathsurface.queue.blue", "rct1.footpath_surface.queue_blue"),
  ("rct1.aa.pathsurface.queue.yellow", "rct1aa.footpath_surface.queue_yellow"),
  ("rct1.aa.pathsurface.ash", "rct1aa.footpath_surface.ash"),
  ("rct1.aa.pathsurface.tarmac.green", "rct1aa.footpath_surface.tarmac_green"),
  ("rct1.pathsurface.tile.pink", "rct1.footpath_surface.tiles_brown"),
  ("rct1.aa.pathsurface.tarmac.brown", "rct1aa.footpath_surface.tarmac_brown"),
  ("rct1.aa.pathsurface.queue.red", "rct1aa.footpath_surface.queue_red"),
  ("rct1.aa.pathsurface.queue.green", "rct1aa.footpath_surface.queue_green"),
  ("rct1.ll.surface.roofgrey", "rct1ll.terrain_surface.roof_grey"),
  ("rct1.ll.surface.wood", "rct1ll.terrain_surface.wood"),
  ("rct1.aa.surface.roofred", "rct1aa.terrain_surface.roof_red"),
  ("rct1.ll.surface.rust", "rct1ll.terrain_surface.rust"),
  ("rct1.ll.edge.green", "rct1ll.terrain_edge.green"),
  ("rct1.aa.edge.yellow", "rct1aa.terrain_edge.yellow"),
  ("rct1.ll.edge.stonegrey", "rct1ll.terrain_edge.stone_grey"),
  ("rct1.aa.edge.red", "rct1aa.terrain_edge.red"),
  ("rct1.ll.edge.skyscraperb", "rct1ll.terrain_edge.skyscraper_b"),
  ("rct1.ll.edge.stonebrown", "rct1ll.terrain_edge.stone_brown"),
  ("rct1.edge.iron", "rct1.terrain_edge.iron"),
  ("rct1.ll.edge.skyscrapera", "rct1ll.terrain_edge.skyscraper_a"),
  ("rct1.aa.edge.grey", "rct1aa.terrain_edge.grey"),
  ("rct1.ll.edge.purple", "rct1ll.terrain_edge.purple"),
  ("rct1.edge.brick", "rct1.terrain_edge.brick"),
  ("rct2.pathsurface.queue.red", "rct2.footpath_surface.queue_red"),
  ("rct2.pathsurface.queue.yellow", "rct2.footpath_surface.queue_yellow"),
  ("rct2.pathsurface.crazy", "rct2.footpath_surface.crazy_paving"),
  ("rct2.pathsurface.queue.green", "rct2.footpath_surface.queue_green"),
  ("rct2.pathsurface.queue.blue", "rct2.footpath_surface.queue_blue"),
  ("rct1.pathsurface.tile.brown", "rct1.footpath_surface.tiles_brown")
]

def oldObjectKeys : List String := oldObjectIds.map Prod.fst

def oldObjectKeyCodes : List Nat := oldObjectKeys.map strCode

/-- `MapToNewObjectIdentifier` (source lines 4532-4540): look the identifier
up in the static table; identifiers absent from the table pass through
unchanged.  A total pure function: there is no error case. -/
def MapToNewObjectIdentifier (s : String) : String :=
  match oldObjectIds.lookup s with
  | some t => t
  | none => s

/-! ## Rides chunk: version-gated min/max cars-per-train (claim C7) -/

def GetMinCarsPerTrain (value : Nat) : Nat := value >>> 4

def GetMaxCarsPerTrain (value : Nat) : Nat := value &&& 0xF

/-- `ReadWriteRidesChunk`, min/max-cars-per-train fields (source lines
1140-1151): version < 5 reads one packed byte and splits it through
`GetMinCarsPerTrain` / `GetMaxCarsPerTrain`; version ≥ 5 reads two
independent byte fields.  Returns the decoded (min, max) pair. -/
def readRideMinMaxCarsPerTrain (version : Nat) : ReadM (Nat × Nat) :=
  if version < 5 then do
    let value ← rwN "MinMaxCarsPerTrainPacked" 1
    pure (GetMinCarsPerTrain value, GetMaxCarsPerTrain value)
  else do
    let mn ← rwN "MinCarsPerTrain" 1
    let mx ← rwN "MaxCarsPerTrain" 1
    pure (mn, mx)

/-- Vehicle-configuration slice of the ride record (source lines 1134-1154):
the five plain counters before the gated min/max encoding and the two
waiting-time fields after it. -/
def readRideVehiclesGroup (version : Nat) : ReadM (Nat × Nat) := do
  let _ ← rwN "num_vehicles" 1
  let _ ← rwN "num_cars_per_train" 1
  let _ ← rwN "proposed_num_vehicles" 1
  let _ ← rwN "proposed_num_cars_per_train" 1
  let _ ← rwN "max_trains" 1
  let mm ← readRideMinMaxCarsPerTrain version
  let _ ← rwN "min_waiting_time" 1
  let _ ← rwN "max_waiting_time" 1
  pure mm

/-! ## Park chunk (claim C1)

`ReadWriteParkChunk` (source lines 656-768), reading mode.  The field widths
of the live-state globals are declared in headers outside the provided
source; modelled from the spec as fixed-width little-endian integers (the
claim only concerns positions relative to the expenditure table, which the
chosen widths do not affect).  The expenditure-table read mirrors source
lines 673-684: both declared dimensions are capped with `min` against the
fixed dimensions of the live table, and exactly `numMonths * numTypes`
`money64` values are read — nothing skips whatever stored entries lie
beyond the caps. -/

/-- Fixed month dimension of the live expenditure table
(`EXPENDITURE_TABLE_MONTH_COUNT`, declared outside the provided source;
modelled from the spec's fixed live-table dimensions). -/
def EXPENDITURE_TABLE_MONTH_COUNT : Nat := 16

/-- Fixed expenditure-type dimension of the live table
(`ExpenditureType::Count`, declared outside the provided source; modelled
from the spec's fixed live-table dimensions). -/
def ExpenditureTypeCount : Nat := 14

/-- Read a `w`-byte field, record it, and discard the value
(a plain `cs.ReadWrite(field)` whose value gates nothing). -/
def rwF (name : String) (w : Nat) : ReadM Unit := fun st =>
  match rwN name w st with
  | .ok (_, st2) => .ok ((), st2)
  | .error e => .error e

/-- Park-chunk fields before the expenditure table (source lines 659-670). -/
def readParkChunkPre : ReadM Unit := do
  let _ ← rwStr "ParkName"
  rwF "Cash" 8
  rwF "BankLoan" 8
  rwF "MaxBankLoan" 8
  rwF "BankLoanInterestRate" 1
  rwF "ParkFlags" 4
  rwF "ParkEntranceFee" 2
  rwF "StaffHandymanColour" 1
  rwF "StaffMechanicColour" 1
  rwF "StaffSecurityColour" 1
  rwF "SamePriceThroughoutPark" 8

/-- The expenditure-table read (source lines 673-684): read the two declared
dimensions, cap each with `min` against the live table's fixed dimensions,
and read exactly that many `money64` entries. -/
def readExpenditureTable : ReadM Unit := do
  let declaredMonths ← readLen
  let declaredTypes ← readLen
  timesM (min EXPENDITURE_TABLE_MONTH_COUNT declaredMonths)
    (timesM (min ExpenditureTypeCount declaredTypes) (rwF "ExpenditureTable" 8))

/-- Marketing-campaign list (source lines 703-708). -/
def readMarketingCampaigns : ReadM Unit :=
  rwVec (do
    rwF "CampaignType" 1
    rwF "CampaignWeeksLeft" 1
    rwF "CampaignFlags" 1
    rwF "CampaignRideId" 2)

/-- Sparse award array (source lines 711-720). -/
def readAwards : ReadM Unit :=
  rwArr (do
    rwF "AwardTime" 2
    rwF "AwardType" 2)

/-- Park-chunk fields after the expenditure table (source lines 700-767):
historical profit, marketing campaigns, awards, the park statistics scalars
and the history arrays. -/
def readParkChunkPost : ReadM Unit := do
  rwF "HistoricalProfit" 8
  readMarketingCampaigns
  readAwards
  rwF "ParkValue" 8
  rwF "CompanyValue" 8
  rwF "ParkSize" 4
  rwF "NumGuestsInPark" 2
  rwF "NumGuestsHeadingForPark" 2
  rwF "ParkRating" 2
  rwF "ParkRatingCasualtyPenalty" 2
  rwF "CurrentExpenditure" 8
  rwF "CurrentProfit" 8
  rwF "WeeklyProfitAverageDividend" 8
  rwF "WeeklyProfitAverageDivisor" 2
  rwF "TotalAdmissions" 4
  rwF "TotalIncomeFromAdmissions" 8
  rwF "TotalRideValueForMoney" 2
  rwF "NumGuestsInParkLastWeek" 2
  rwF "GuestChangeModifier" 1
  rwF "GuestGenerationProbability" 4
  rwF "SuggestedGuestMaximum" 2
  rwArr (rwF "PeepWarningThrottle" 1)
  rwArr (rwF "ParkRatingHistory" 1)
  rwArr (rwF "GuestsInParkHistory" 4)
  rwArr (rwF "CashHistory" 8)
  rwArr (rwF "WeeklyProfitHistory" 8)
  rwArr (rwF "ParkValueHistory" 8)

/-- The full Park-chunk read (source lines 656-768). -/
def readParkChunk : ReadM Unit := do
  readParkChunkPre
  readExpenditureTable
  readParkChunkPost

/-- Bytes recorded for the first field of the given name in a trace. -/
def traceField (tr : List (String × List Nat)) (name : String) : Option (List Nat) :=
  (tr.find? (fun e => e.1 = name)).map Prod.snd

/-- Raw bytes that the Park-chunk read assigned to the given live field. -/
def parkFieldBytes (input : List Nat) (name : String) : Option (List Nat) :=
  match readParkChunk ⟨input, []⟩ with
  | .ok (_, st) => traceField st.trace name
  | .error _ => none

/-- `n` copies of a fixed byte block, one per stored table entry. -/
def blocks (bs : List Nat) : Nat → List Nat
  | 0 => []
  | n + 1 => bs ++ blocks bs n

/-- A Park chunk whose stored expenditure table declares 17 months × 1 type
(one month beyond the live table's 16-month cap) with 17 stored entries of
value 5, followed by a stored historical-profit field of 0 and zero bytes
for every remaining stored park field (marketing count 0, awards count 0,
all statistics 0, all history counts 0 — 117 zero bytes in all).  A reader
that skipped the extra stored entry would decode historical profit = 0 from
it. -/
def c1CexStream : List Nat :=
  wStr [] ++ (wN 8 0 ++ (wN 8 0 ++ (wN 8 0 ++ (wN 1 0 ++ (wN 4 0 ++ (wN 2 0 ++
    (wN 1 0 ++ (wN 1 0 ++ (wN 1 0 ++ (wN 8 0 ++
    (wN 4 17 ++ (wN 4 1 ++
    (blocks (wN 8 5) 17 ++ List.replicate 117 0)))))))))))))

/-- A reader step that always consumes exactly `w` bytes, succeeds whenever
they are available, and appends exactly `ec` trace entries. -/
def ConsumesT (m : ReadM Unit) (w ec : Nat) : Prop :=
  ∀ bs rest tr, bs.length = w →
    ∃ es, es.length = ec ∧ m ⟨bs ++ rest, tr⟩ = .ok ((), ⟨rest, tr ++ es⟩)

/-! ## Footpath migration (claims C3, C9)

`ObjectList` and `ObjectEntryIndex` live outside the provided source.
Modelled from the spec: an object list is a fixed-capacity slot array per
object category (slot index is semantically meaningful), and
`OBJECT_ENTRY_INDEX_NULL` is modelled by `Option`.  Only the two categories
touched by the footpath migration are carried. -/

structure FootpathMapping where
  Original : String
  NormalSurface : String
  QueueSurface : String
  Railing : String
deriving DecidableEq

/-- `_extendedFootpathMappings` (source lines 4560-4562). -/
def extendedFootpathMappings : List FootpathMapping :=
  [⟨"rct1.path.tarmac", "rct1.footpath_surface.tarmac", "rct1.footpath_surface.queue_blue",
    "rct2.footpath_railings.wood"⟩]

/-- First slot index holding the given identifier (`ObjectList::Find`;
`none` plays the role of `OBJECT_ENTRY_INDEX_NULL`). -/
def findObj : List (Option String) → String → Option Nat
  | [], _ => none
  | x :: xs, s => if x = some s then some 0 else (findObj xs s).map (· + 1)

/-- Store an identifier at the given slot index (`ObjectList::SetObject`),
growing the slot array with empty slots as needed. -/
def setObj : List (Option String) → Nat → String → List (Option String)
  | [], 0, s => [some s]
  | [], n + 1, s => none :: setObj [] n s
  | _ :: xs, 0, s => some s :: xs
  | x :: xs, n + 1, s => x :: setObj xs n s

/-- One `Find`-else-`SetObject` registration block of
`UpdateFootpathsFromMapping`: reuse the existing slot index when the
identifier is already registered, otherwise append it at the running count.
Returns (slot index, new slot list, new running count). -/
def registerFPObject (l : List (Option String)) (count : Nat) (s : String) :
    Nat × List (Option String) × Nat :=
  match findObj l s with
  | some i => (i, l, count)
  | none => (count, setObj l count s, count + 1)

/-- The two object-list categories the footpath migration touches. -/
structure FPObjectLists where
  footpathSurface : List (Option String)
  footpathRailings : List (Option String)
deriving DecidableEq

/-- State threaded through `UpdateFootpathsFromMapping` calls during one
Objects-chunk read: the required-object list, the two running registration
counts, and the three legacy-mapping arrays (modelled as maps from legacy
entry index, `none` = `OBJECT_ENTRY_INDEX_NULL`). -/
structure FPState where
  requiredObjects : FPObjectLists
  surfaceCount : Nat
  railingCount : Nat
  pathToSurfaceMap : Nat → Option Nat
  pathToQueueSurfaceMap : Nat → Option Nat
  pathToRailingsMap : Nat → Option Nat

/-- Point update of a legacy-mapping array. -/
def updMap (m : Nat → Option Nat) (i v : Nat) : Nat → Option Nat :=
  fun j => if j = i then some v else m j

/-- `UpdateFootpathsFromMapping` (source lines 4593-4621): register the
mapped surface identifier, then the queue-surface identifier, then the
railings identifier (each deduplicating through `Find`), and record the
three resulting indices in the legacy-mapping arrays keyed by the original
entry index. -/
def UpdateFootpathsFromMapping (st : FPState) (entryIndex : Nat) (fm : FootpathMapping) :
    FPState :=
  let r1 := registerFPObject st.requiredObjects.footpathSurface st.surfaceCount fm.NormalSurface
  let r2 := registerFPObject r1.2.1 r1.2.2 fm.QueueSurface
  let r3 := registerFPObject st.requiredObjects.footpathRailings st.railingCount fm.Railing
  { requiredObjects := { footpathSurface := r2.2.1, footpathRailings := r3.2.1 }
    surfaceCount := r2.2.2
    railingCount := r3.2.2
    pathToSurfaceMap := updMap st.pathToSurfaceMap entryIndex r1.1
    pathToQueueSurfaceMap := updMap st.pathToQueueSurfaceMap entryIndex r2.1
    pathToRailingsMap := updMap st.pathToRailingsMap entryIndex r3.1 }

/-! ## Tile elements (claims C9, C10)

`TileElement` is a packed record defined outside the provided source;
modelled from the spec as a tagged variant carrying exactly the fields the
two tile passes inspect.  Elements that are neither path nor track elements
are carried opaquely. -/

structure PathElementData where
  hasLegacyPathEntry : Bool
  legacyPathEntryIndex : Nat
  isQueue : Bool
  surfaceEntryIndex : Option Nat
  railingsEntryIndex : Option Nat
deriving DecidableEq

structure TrackElementData where
  rideIndex : Nat
  trackRideType : Nat
deriving DecidableEq

inductive TileElement where
  | path (d : PathElementData)
  | track (d : TrackElementData)
  | other (elemType : Nat) (payload : Nat)
deriving DecidableEq

/-- The footpath-patching pass inside the Tiles-chunk read (source lines
899-922), on one tile element: a path element with a legacy path entry whose
entry index has a non-null railings mapping gets its surface reference
(queue or non-queue mapping, by the queue flag) and its railings reference
overwritten; everything else is left exactly as installed. -/
def patchLegacyPathElement
    (pathToSurfaceMap pathToQueueSurfaceMap pathToRailingsMap : Nat → Option Nat) :
    TileElement → TileElement
  | .path d =>
    if d.hasLegacyPathEntry then
      match pathToRailingsMap d.legacyPathEntryIndex with
      | some railingsIndex =>
        .path { d with
                surfaceEntryIndex :=
                  if d.isQueue then pathToQueueSurfaceMap d.legacyPathEntryIndex
                  else pathToSurfaceMap d.legacyPathEntryIndex
                railingsEntryIndex := some railingsIndex }
      | none => .path d
    else
      .path d
  | e => e

/-- The full-grid footpath-patching pass over the installed tile elements. -/
def patchLegacyPathElements
    (pathToSurfaceMap pathToQueueSurfaceMap pathToRailingsMap : Nat → Option Nat)
    (els : List TileElement) : List TileElement :=
  els.map (patchLegacyPathElement pathToSurfaceMap pathToQueueSurfaceMap pathToRailingsMap)

/-- Live ride record slice used by `UpdateTrackElementsRideType`
(modelled from the spec: the ride table is an external live table; only the
ride's current type is inspected). -/
structure RideRec where
  rideType : Nat
deriving DecidableEq

/-- `UpdateTrackElementsRideType` (source lines 938-962): every track-type
tile element whose referenced ride exists gets its stored ride type
overwritten with that ride's current type. -/
def UpdateTrackElementsRideType (rides : Nat → Option RideRec) (els : List TileElement) :
    List TileElement :=
  els.map fun el =>
    match el with
    | .track d =>
      match rides d.rideIndex with
      | some ride => .track { d with trackRideType := ride.rideType }
      | none => .track d
    | e => e

/-- The version-gated invocation of `UpdateTrackElementsRideType` at the end
of `ParkFile::Import` (source lines 148-152). -/
def importTrackRideTypePass (targetVersion : Nat) (rides : Nat → Option RideRec)
    (els : List TileElement) : List TileElement :=
  if targetVersion < 4 then UpdateTrackElementsRideType rides els else els

/-! ## Chunk presence during Import (claim C5)

The chunk container is modelled from the spec as a list of
(type, payload) chunks; `OrcaStream::ReadWriteChunk` reports whether a chunk
of the requested type is present.  Only the presence handling decides this
claim: a chunk codec's payload decoding runs only when its chunk is present,
so the absence behavior of `Import` is exactly the sequence of found-checks
below, in `Import`'s call order (source lines 133-156). -/

def ParkChunkFile : Type := List (Nat × List Nat)

def hasChunk (f : ParkChunkFile) (chunkType : Nat) : Bool :=
  f.any (fun c => c.1 = chunkType)

/-- `ReadWriteTilesChunk` found-check (source lines 932-935): mandatory. -/
def readWriteTilesChunkCheck (f : ParkChunkFile) : Except String Unit :=
  if hasChunk f 0x30 then .ok () else .error "No tiles chunk found."

/-- `ReadWriteGeneralChunk` found-check (source lines 468-471): mandatory. -/
def readWriteGeneralChunkCheck (f : ParkChunkFile) : Except String Unit :=
  if hasChunk f 0x04 then .ok () else .error "No general chunk found."

/-- Found-check of every other chunk codec called by `Import`: the result of
`ReadWriteChunk` is ignored, so an absent chunk is silently skipped. -/
def readWriteOptionalChunkCheck (f : ParkChunkFile) (chunkType : Nat) :
    Except String Unit :=
  let _ := hasChunk f chunkType
  .ok ()

/-- The chunk-presence skeleton of `ParkFile::Import` (source lines
133-156), in the source's call order. -/
def importPresence (f : ParkChunkFile) : Except String Unit := do
  readWriteTilesChunkCheck f
  readWriteOptionalChunkCheck f 0x33
  readWriteOptionalChunkCheck f 0x32
  readWriteOptionalChunkCheck f 0x31
  readWriteOptionalChunkCheck f 0x03
  readWriteGeneralChunkCheck f
  readWriteOptionalChunkCheck f 0x06
  readWriteOptionalChunkCheck f 0x05
  readWriteOptionalChunkCheck f 0x08
  readWriteOptionalChunkCheck f 0x09
  readWriteOptionalChunkCheck f 0x20
  readWriteOptionalChunkCheck f 0x36
  readWriteOptionalChunkCheck f 0x37

/-! ## Banners chunk (claim C4)

The live banner table (`GetBanner` / `GetOrCreateBanner`) is outside the
provided source; modelled from the spec as a fixed-capacity slot array of
`MAX_BANNERS` live slots — a slot can be created exactly when its index is
below the capacity, so `GetOrCreateBanner` fails exactly for out-of-range
banner ids.  Field widths are modelled fixed-width little-endian. -/

def MAX_BANNERS : Nat := 250

structure Banner where
  id : Nat
  type : Nat
  flags : Nat
  text : List Nat
  colour : Nat
  ride_index : Nat
  text_colour : Nat
  posX : Nat
  posY : Nat
deriving DecidableEq

/-- `ReadWriteBanner` (source lines 1026-1040), reading mode: version ≥ 1
carries an explicit id field, version 0 does not (the record keeps the
default id 0 until placement assigns it). -/
def readWriteBanner (version : Nat) : ReadM Banner := do
  let bid ← if 1 ≤ version then rwN "id" 2 else pure 0
  let t ← rwN "type" 1
  let fl ← rwN "flags" 1
  let tx ← rwStr "text"
  let c ← rwN "colour" 1
  let ri ← rwN "ride_index" 2
  let tc ← rwN "text_colour" 1
  let px ← rwN "position.x" 4
  let py ← rwN "position.y" 4
  pure ⟨bid, t, fl, tx, c, ri, tc, px, py⟩

/-- `ReadWriteBanner`, writing mode (the same field list emitted). -/
def writeBanner (version : Nat) (b : Banner) : List Nat :=
  (if 1 ≤ version then wN 2 b.id else []) ++
    (wN 1 b.type ++ (wN 1 b.flags ++ (wStr b.text ++ (wN 1 b.colour ++
      (wN 2 b.ride_index ++ (wN 1 b.text_colour ++ (wN 4 b.posX ++ wN 4 b.posY)))))))

/-- Trace entries recorded when one banner record is decoded. -/
def bannerTrace (version : Nat) (b : Banner) : List (String × List Nat) :=
  (if 1 ≤ version then [("id", wN 2 b.id)] else []) ++
    [("type", wN 1 b.type), ("flags", wN 1 b.flags), ("text", b.text),
     ("colour", wN 1 b.colour), ("ride_index", wN 2 b.ride_index),
     ("text_colour", wN 1 b.text_colour), ("position.x", wN 4 b.posX),
     ("position.y", wN 4 b.posY)]

/-- All banner fields fit their wire widths. -/
def WFBanner (b : Banner) : Prop :=
  b.id < 2 ^ 16 ∧ b.type < 2 ^ 8 ∧ b.flags < 2 ^ 8 ∧ b.text.length < 2 ^ 32 ∧
    b.colour < 2 ^ 8 ∧ b.ride_index < 2 ^ 16 ∧ b.text_colour < 2 ^ 8 ∧
    b.posX < 2 ^ 32 ∧ b.posY < 2 ^ 32

instance (b : Banner) : Decidable (WFBanner b) := by
  unfold WFBanner
  infer_instance

/-- Version-0 placement loop (source lines 990-1001): each decoded record is
assigned to the live slot equal to its list position, the banner id is set
to that index, and positions without a creatable slot are silently
skipped. -/
def placeBannersByPosition (t : List (Option Banner)) :
    List Banner → Nat → List (Option Banner)
  | [], _ => t
  | b :: bs, i =>
    placeBannersByPosition
      (if i < t.length then t.set i (some { b with id := i }) else t) bs (i + 1)

/-- Version ≥ 1 read loop (source lines 1005-1020): read a record, look up
or create the live slot for its id (fails fatally when the slot cannot be
created), move the record in, repeat. -/
def readBannersById (version : Nat) (t : List (Option Banner)) :
    Nat → ReadM (List (Option Banner))
  | 0 => pure t
  | n + 1 => do
    let b ← readWriteBanner version
    if b.id < t.length then
      readBannersById version (t.set b.id (some b)) n
    else
      fail "Invalid banner index"

/-- `ReadWriteBannersChunk` (source lines 964-1024), reading mode, acting on
the live banner table. -/
def readWriteBannersChunk (version : Nat) (t : List (Option Banner)) :
    ReadM (List (Option Banner)) :=
  if version = 0 then do
    let n ← readLen
    let bs ← repM n (readWriteBanner 0)
    pure (placeBannersByPosition t bs 0)
  else do
    let n ← readLen
    readBannersById version t n

/-- Writing side of the Banners chunk: the live count then every record. -/
def writeBannersChunk (version : Nat) (bs : List Banner) : List Nat :=
  wN 4 bs.length ++ (bs.map (writeBanner version)).flatten

/-- Last-wins id-keyed placement of a record list into the table. -/
def applyBannersById (t : List (Option Banner)) (bs : List Banner) :
    List (Option Banner) :=
  bs.foldl (fun t2 b => t2.set b.id (some b)) t

def c4Bs : List Banner := [⟨5, 1, 2, [65, 66], 3, 7, 0, 10, 20⟩]

def c4T : List (Option Banner) := List.replicate MAX_BANNERS none

/-! ## Scenario chunk (claim C8)

The sentinel company values live outside the provided source.  Modelled
from the spec: two distinct "undefined" / "failed objective" sentinel
values of the 8-byte company-value field. -/

def MONEY64_UNDEFINED : Nat := 2 ^ 63

def COMPANY_VALUE_ON_FAILED_OBJECTIVE : Nat := 2 ^ 63 + 1

/-- The `"en-GB"` locale code written by every scenario string table. -/
def enGB : List Nat := [101, 110, 45, 71, 66]

structure ScenarioState where
  category : Nat
  scenarioName : List Nat
  parkName : List Nat
  details : List Nat
  objectiveType : Nat
  objectiveYear : Nat
  objectiveNumGuests : Nat
  objectiveCurrency : Nat
  ratingWarningDays : Nat
  completedCompanyValue : Nat
  completedBy : List Nat
  earlyCompletion : Nat
  fileName : List Nat
deriving DecidableEq

/-- All scenario fields fit their wire widths. -/
def WFScenario (s : ScenarioState) : Prop :=
  s.category < 2 ^ 8 ∧ s.scenarioName.length < 2 ^ 32 ∧
    s.parkName.length < 2 ^ 32 ∧ s.details.length < 2 ^ 32 ∧
    s.objectiveType < 2 ^ 8 ∧ s.objectiveYear < 2 ^ 8 ∧
    s.objectiveNumGuests < 2 ^ 16 ∧ s.objectiveCurrency < 2 ^ 64 ∧
    s.ratingWarningDays < 2 ^ 16 ∧ s.completedCompanyValue < 2 ^ 64 ∧
    s.completedBy.length < 2 ^ 32 ∧ s.earlyCompletion < 2 ^ 8 ∧
    s.fileName.length < 2 ^ 32

instance (s : ScenarioState) : Decidable (WFScenario s) := by
  unfold WFScenario
  infer_instance

/-- `ReadWriteStringTable` (source lines 1715-1739), writing mode: a
one-entry vector holding the locale code and the value. -/
def writeStringTable (lcode v : List Nat) : List Nat :=
  wN 4 1 ++ (wStr lcode ++ wStr v)

/-- The entry loop of `ReadWriteVector` inside `ReadWriteStringTable`,
reading mode: each entry is a locale-code string and a value string. -/
def readSTEntries : Nat → ReadM (List (List Nat × List Nat))
  | 0 => pure []
  | n + 1 => do
    let lc ← rwStr "lcode"
    let v ← rwStr "value"
    let r ← readSTEntries n
    pure ((lc, v) :: r)

/-- `ReadWriteStringTable`, reading mode: read the vector, then take the
first entry whose locale code matches, leaving the target unchanged
(default `d`) when no entry matches. -/
def readStringTable (d : List Nat) : ReadM (List Nat) := do
  let n ← readLen
  let tbl ← readSTEntries n
  match tbl.lookup enGB with
  | some v => pure v
  | none => pure d

/-- `ReadWriteScenarioChunk` (source lines 376-423), writing mode.  The
completing-player name is blanked when the completed company value is one
of the two sentinels; the scenario file name is only written from header
version 1 on. -/
def writeScenarioChunk (version : Nat) (s : ScenarioState) : List Nat :=
  wN 1 s.category ++
    (writeStringTable enGB s.scenarioName ++
    (writeStringTable enGB s.parkName ++
    (writeStringTable enGB s.details ++
    (wN 1 s.objectiveType ++
    (wN 1 s.objectiveYear ++
    (wN 2 s.objectiveNumGuests ++
    (wN 8 s.objectiveCurrency ++
    (wN 2 s.ratingWarningDays ++
    (wN 8 s.completedCompanyValue ++
    ((if s.completedCompanyValue = MONEY64_UNDEFINED ∨
        s.completedCompanyValue = COMPANY_VALUE_ON_FAILED_OBJECTIVE
      then wStr [] else wStr s.completedBy) ++
    (wN 1 s.earlyCompletion ++
      (if 1 ≤ version then wStr s.fileName else []))))))))))))

/-- `ReadWriteScenarioChunk`, reading mode: every field of the same list is
read back; fields that a version-0 file does not carry keep their previous
live value (`old`). -/
def readScenarioChunk (version : Nat) (old : ScenarioState) :
    ReadM ScenarioState := do
  let cat ← rwN "Category" 1
  let sname ← readStringTable old.scenarioName
  let pname ← readStringTable old.parkName
  let det ← readStringTable old.details
  let ot ← rwN "objective.Type" 1
  let oy ← rwN "objective.Year" 1
  let og ← rwN "objective.NumGuests" 2
  let oc ← rwN "objective.Currency" 8
  let wd ← rwN "ParkRatingWarningDays" 2
  let cv ← rwN "CompletedCompanyValue" 8
  let cb ← rwStr "CompletedBy"
  let ec ← rwN "earlyCompletion" 1
  let fn ← if 1 ≤ version then rwStr "FileName" else pure old.fileName
  pure ⟨cat, sname, pname, det, ot, oy, og, oc, wd, cv, cb, ec, fn⟩

def c8S : ScenarioState :=
  ⟨1, [78], [80], [68], 2, 30, 100, 500, 14, MONEY64_UNDEFINED, [88, 89], 1, [70]⟩

def c8Old : ScenarioState := ⟨0, [], [], [], 0, 0, 0, 0, 0, 0, [], 0, []⟩

/-! ## Peep records (claim C2)

The Guest and Staff entity records share the `ReadWritePeep` base (source
lines 1364-1704) whose layout is version-gated, plus the kind-specific
tails of the `ReadWriteEntity` specialisations (source lines 1827-1963 for
Guest, 2013-2043 for Staff).  The C++ field types live in headers outside
the provided source, so field widths are modelled from the spec: byte
widths are chosen once per field and used identically in every layout, as
required by the spec's statement that the interleaved variants are
byte-compatible.  Decoders record each stored field in the trace; skipped
placeholder bytes are consumed without being recorded. -/

/-- `ReadWriteEntityCommon` (source lines 1327-1337). -/
def readEntityCommon : ReadM Unit := do
  rwF "sprite_index" 2
  rwF "sprite_height_negative" 1
  rwF "x" 2
  rwF "y" 2
  rwF "z" 2
  rwF "sprite_width" 1
  rwF "sprite_height_positive" 1
  rwF "sprite_direction" 1

/-- One guest thought element of the version ≤ 1 interleaved layout and of
the staff discarded-thought vector (item is one byte, source lines 1581,
1611). -/
def legacyThought : ReadM Unit := do
  rwF "thought.type" 1
  rwF "thought.item" 1
  rwF "thought.freshness" 1
  rwF "thought.fresh_timeout" 1

/-- A skipped thought element (staff branch reads into a discarded
temporary, source lines 1608-1614). -/
def ignoreThought : ReadM Unit := do
  ignoreN 1
  ignoreN 1
  ignoreN 1
  ignoreN 1

/-- One guest thought element of the disjoint tail: the item is two bytes
up to version 2 and one byte from version 3 on (source lines 1933-1945). -/
def readGuestThought (version : Nat) : ReadM Unit := do
  rwF "thought.type" 1
  if version ≤ 2 then rwF "thought.item" 2 else rwF "thought.item" 1
  rwF "thought.freshness" 1
  rwF "thought.fresh_timeout" 1

/-- One patrol-area tile coordinate (source line 2020). -/
def readPatrolElem : ReadM Unit := do
  rwF "PatrolArea.x" 4
  rwF "PatrolArea.y" 4

/-- The four-entry pathfind history (source lines 1643-1649). -/
def peepPathfindHistory : ReadM Unit := do
  rwF "PathfindHistory.x" 1
  rwF "PathfindHistory.y" 1
  rwF "PathfindHistory.z" 1
  rwF "PathfindHistory.direction" 1
  rwF "PathfindHistory.x" 1
  rwF "PathfindHistory.y" 1
  rwF "PathfindHistory.z" 1
  rwF "PathfindHistory.direction" 1
  rwF "PathfindHistory.x" 1
  rwF "PathfindHistory.y" 1
  rwF "PathfindHistory.z" 1
  rwF "PathfindHistory.direction" 1
  rwF "PathfindHistory.x" 1
  rwF "PathfindHistory.y" 1
  rwF "PathfindHistory.z" 1
  rwF "PathfindHistory.direction" 1

/-- Interleaved guest block: happiness/nausea/needs (source lines 1432-1440). -/
def peepHappinessG : ReadM Unit := do
  rwF "Happiness" 1
  rwF "HappinessTarget" 1
  rwF "Nausea" 1
  rwF "NauseaTarget" 1
  rwF "Hunger" 1
  rwF "Thirst" 1
  rwF "Toilet" 1

/-- Interleaved staff placeholder for the happiness block (source lines 1443-1449). -/
def peepHappinessS : ReadM Unit := do
  ignoreN 1
  ignoreN 1
  ignoreN 1
  ignoreN 1
  ignoreN 1
  ignoreN 1
  ignoreN 1

/-- Interleaved guest block: intensity and nausea tolerance (source lines 1468-1474). -/
def peepIntensityG : ReadM Unit := do
  rwF "Intensity" 1
  rwF "NauseaTolerance" 1

/-- Interleaved staff placeholder for the intensity block (source lines 1478-1479). -/
def peepIntensityS : ReadM Unit := do
  ignoreN 1
  ignoreN 1

/-- Interleaved guest block: drink spending, ride-type bitmap array, item flags and photo refs (source lines 1489-1499). -/
def peepPaidOnDrinkG : ReadM Unit := do
  rwF "PaidOnDrink" 2
  rwArr (rwF "RideTypesBeenOn" 1)
  rwF "ItemFlags" 8
  rwF "Photo2RideRef" 2
  rwF "Photo3RideRef" 2
  rwF "Photo4RideRef" 2

/-- Interleaved staff placeholder for the drink-spending block (source lines 1503-1513). -/
def peepPaidOnDrinkS : ReadM Unit := do
  ignoreN 2
  rwVec (ignoreN 1)
  ignoreN 8
  ignoreN 2
  ignoreN 2
  ignoreN 2

/-- Interleaved guest block: queue time and rides-been-on array (source lines 1549-1555). -/
def peepQueueG : ReadM Unit := do
  rwF "TimeInQueue" 2
  rwArr (rwF "RidesBeenOn" 1)

/-- Interleaved staff placeholder for the queue block (source lines 1559-1565). -/
def peepQueueS : ReadM Unit := do
  ignoreN 2
  rwVec (ignoreN 1)

/-- Interleaved guest block: cash, ride timeouts and the thoughts array (source lines 1573-1596). -/
def peepCashG : ReadM Unit := do
  rwF "CashInPocket" 4
  rwF "CashSpent" 4
  rwF "ParkEntryTime" 4
  rwF "RejoinQueueTimeout" 1
  rwF "PreviousRide" 2
  rwF "PreviousRideTimeOut" 2
  rwArr legacyThought

/-- Interleaved staff half of the cash block: ignores plus the hire date and a discarded thought vector (source lines 1600-1615). -/
def peepCashS : ReadM Unit := do
  ignoreN 4
  ignoreN 4
  rwF "HireDate" 4
  ignoreN 1
  ignoreN 2
  ignoreN 2
  rwVec ignoreThought

/-- Interleaved guest block: heading ride, lost countdown, photo 1 (source lines 1623-1627). -/
def peepHeadingG : ReadM Unit := do
  rwF "GuestHeadingToRideId" 2
  rwF "GuestIsLostCountdown" 1
  rwF "Photo1RideRef" 2

/-- Interleaved staff half of the heading block: staff orders between two ignores (source lines 1631-1633). -/
def peepHeadingS : ReadM Unit := do
  ignoreN 2
  rwF "StaffOrders" 1
  ignoreN 2

/-- Interleaved guest block: the final guest statistics run (source lines 1655-1677). -/
def peepFinalG : ReadM Unit := do
  rwF "LitterCount" 1
  rwF "GuestTimeOnRide" 1
  rwF "DisgustingCount" 1
  rwF "PaidToEnter" 2
  rwF "PaidOnRides" 2
  rwF "PaidOnFood" 2
  rwF "PaidOnSouvenirs" 2
  rwF "AmountOfFood" 1
  rwF "AmountOfDrinks" 1
  rwF "AmountOfSouvenirs" 1
  rwF "VandalismSeen" 1
  rwF "VoucherType" 1
  rwF "VoucherRideId" 2
  rwF "SurroundingsThoughtTimeout" 1
  rwF "Angriness" 1
  rwF "TimeLost" 1
  rwF "DaysInQueue" 1
  rwF "BalloonColour" 1
  rwF "UmbrellaColour" 1
  rwF "HatColour" 1
  rwF "FavouriteRide" 2
  rwF "FavouriteRideRating" 1

/-- Interleaved staff half of the final block: staff work counters between ignores (source lines 1681-1701). -/
def peepFinalS : ReadM Unit := do
  ignoreN 1
  rwF "StaffMowingTimeout" 1
  ignoreN 1
  rwF "StaffLawnsMown" 2
  rwF "StaffGardensWatered" 2
  rwF "StaffLitterSwept" 2
  rwF "StaffBinsEmptied" 2
  ignoreN 1
  ignoreN 1
  ignoreN 1
  ignoreN 1
  ignoreN 1
  ignoreN 2
  ignoreN 1
  ignoreN 1
  ignoreN 1
  ignoreN 1
  ignoreN 1
  ignoreN 1
  ignoreN 1
  ignoreN 2
  ignoreN 1

/-- `ReadWritePeep` (source lines 1364-1704), reading mode: the shared
Guest/Staff base record.  Versions ≤ 1 interleave guest-only and
staff-only fields positionally; later versions skip every interleaved
block. -/
def readWritePeep (version : Nat) (isGuest : Bool) : ReadM Unit := do
  readEntityCommon
  let _ ← rwStr "Name"
  rwF "NextLoc.x" 4
  rwF "NextLoc.y" 4
  rwF "NextLoc.z" 4
  rwF "NextFlags" 1
  if version ≤ 1 then (if isGuest then rwF "OutsideOfPark" 1 else ignoreN 1)
    else pure ()
  rwF "State" 1
  rwF "SubState" 1
  rwF "SpriteType" 1
  if version ≤ 1 then (if isGuest then rwF "GuestNumRides" 1 else rwF "AssignedStaffType" 1)
    else pure ()
  rwF "TshirtColour" 1
  rwF "TrousersColour" 1
  rwF "DestinationX" 2
  rwF "DestinationY" 2
  rwF "DestinationTolerance" 1
  rwF "Var37" 1
  rwF "Energy" 1
  rwF "EnergyTarget" 1
  if version ≤ 1 then (if isGuest then peepHappinessG else peepHappinessS)
    else pure ()
  rwF "Mass" 1
  if version ≤ 1 then (if isGuest then rwF "TimeToConsume" 1 else ignoreN 1)
    else pure ()
  if version ≤ 1 then (if isGuest then peepIntensityG else peepIntensityS)
    else pure ()
  rwF "WindowInvalidateFlags" 1
  if version ≤ 1 then (if isGuest then peepPaidOnDrinkG else peepPaidOnDrinkS)
    else pure ()
  rwF "CurrentRide" 2
  rwF "CurrentRideStation" 1
  rwF "CurrentTrain" 1
  rwF "TimeToSitdown" 1
  rwF "SpecialSprite" 1
  rwF "ActionSpriteType" 1
  rwF "NextActionSpriteType" 1
  rwF "ActionSpriteImageOffset" 1
  rwF "Action" 1
  rwF "ActionFrame" 1
  rwF "StepProgress" 1
  if version ≤ 1 then (if isGuest then rwF "GuestNextInQueue" 2 else rwF "MechanicTimeSinceCall" 2)
    else pure ()
  rwF "PeepDirection" 1
  rwF "InteractionRideIndex" 2
  if version ≤ 1 then (if isGuest then peepQueueG else peepQueueS)
    else pure ()
  rwF "Id" 4
  if version ≤ 1 then (if isGuest then peepCashG else peepCashS)
    else pure ()
  rwF "PathCheckOptimisation" 1
  if version ≤ 1 then (if isGuest then peepHeadingG else peepHeadingS)
    else pure ()
  rwF "PeepFlags" 4
  rwF "PathfindGoal.x" 1
  rwF "PathfindGoal.y" 1
  rwF "PathfindGoal.z" 1
  rwF "PathfindGoal.direction" 1
  peepPathfindHistory
  rwF "WalkingFrameNum" 1
  if version ≤ 1 then (if isGuest then peepFinalG else peepFinalS)
    else pure ()

/-- `ReadWriteEntity<Guest>` (source lines 1827-1963), reading mode: the
peep base, then (only for versions > 1) the disjoint guest tail, with
ride-use history as fixed bitmap arrays below version 3 and as id lists
from version 3 on. -/
def readGuestEntity (version : Nat) : ReadM Unit := do
  readWritePeep version true
  if version ≤ 1 then pure ()
  else do
    rwF "GuestNumRides" 1
    rwF "GuestNextInQueue" 2
    rwF "ParkEntryTime" 4
    rwF "GuestHeadingToRideId" 2
    rwF "GuestIsLostCountdown" 1
    rwF "GuestTimeOnRide" 1
    rwF "PaidToEnter" 2
    rwF "PaidOnRides" 2
    rwF "PaidOnFood" 2
    rwF "PaidOnDrink" 2
    rwF "PaidOnSouvenirs" 2
    rwF "OutsideOfPark" 1
    rwF "Happiness" 1
    rwF "HappinessTarget" 1
    rwF "Nausea" 1
    rwF "NauseaTarget" 1
    rwF "Hunger" 1
    rwF "Thirst" 1
    rwF "Toilet" 1
    rwF "TimeToConsume" 1
    rwF "Intensity" 1
    rwF "NauseaTolerance" 1
    if version < 3 then rwArr (rwF "RideTypesBeenOn" 1) else pure ()
    rwF "TimeInQueue" 2
    if version < 3 then rwArr (rwF "RidesBeenOn" 1)
    else do
      rwVec (rwF "RideUseHistory" 2)
      rwVec (rwF "RideTypeUseHistory" 2)
    rwF "CashInPocket" 4
    rwF "CashSpent" 4
    rwF "Photo1RideRef" 2
    rwF "Photo2RideRef" 2
    rwF "Photo3RideRef" 2
    rwF "Photo4RideRef" 2
    rwF "RejoinQueueTimeout" 1
    rwF "PreviousRide" 2
    rwF "PreviousRideTimeOut" 2
    rwArr (readGuestThought version)
    rwF "LitterCount" 1
    rwF "DisgustingCount" 1
    rwF "AmountOfFood" 1
    rwF "AmountOfDrinks" 1
    rwF "AmountOfSouvenirs" 1
    rwF "VandalismSeen" 1
    rwF "VoucherType" 1
    rwF "VoucherRideId" 2
    rwF "SurroundingsThoughtTimeout" 1
    rwF "Angriness" 1
    rwF "TimeLost" 1
    rwF "DaysInQueue" 1
    rwF "BalloonColour" 1
    rwF "UmbrellaColour" 1
    rwF "HatColour" 1
    rwF "FavouriteRide" 2
    rwF "FavouriteRideRating" 1
    rwF "ItemFlags" 8

/-- `ReadWriteEntity<Staff>` (source lines 2013-2043), reading mode: the
peep base, the patrol-area vector, then (only for versions > 1) the
disjoint staff tail, which skips one byte up to version 2. -/
def readStaffEntity (version : Nat) : ReadM Unit := do
  readWritePeep version false
  rwVec readPatrolElem
  if version ≤ 1 then pure ()
  else do
    rwF "AssignedStaffType" 1
    rwF "MechanicTimeSinceCall" 2
    rwF "HireDate" 4
    if version ≤ 2 then ignoreN 1 else pure ()
    rwF "StaffOrders" 1
    rwF "StaffMowingTimeout" 1
    rwF "StaffLawnsMown" 2
    rwF "StaffGardensWatered" 2
    rwF "StaffLitterSwept" 2
    rwF "StaffBinsEmptied" 2


/-! ### Reference layout decoders

Modelled from the spec: the three Peep wire layouts the spec names — the
interleaved pre-split layout (guest-only and staff-only fields positional
with skip padding for the absent kind), and the disjoint post-split
layout, whose ride-use history is a pair of fixed bitmap arrays below
version 3 and a pair of id lists from version 3 on.  Each decoder is a
single fully specialised field list with no version conditionals. -/

/-- Modelled from the spec: the interleaved legacy Peep base as read for a
Guest record. -/
def peepInterleavedGuestLayout : ReadM Unit := do
  readEntityCommon
  let _ ← rwStr "Name"
  rwF "NextLoc.x" 4
  rwF "NextLoc.y" 4
  rwF "NextLoc.z" 4
  rwF "NextFlags" 1
  rwF "OutsideOfPark" 1
  rwF "State" 1
  rwF "SubState" 1
  rwF "SpriteType" 1
  rwF "GuestNumRides" 1
  rwF "TshirtColour" 1
  rwF "TrousersColour" 1
  rwF "DestinationX" 2
  rwF "DestinationY" 2
  rwF "DestinationTolerance" 1
  rwF "Var37" 1
  rwF "Energy" 1
  rwF "EnergyTarget" 1
  peepHappinessG
  rwF "Mass" 1
  rwF "TimeToConsume" 1
  peepIntensityG
  rwF "WindowInvalidateFlags" 1
  peepPaidOnDrinkG
  rwF "CurrentRide" 2
  rwF "CurrentRideStation" 1
  rwF "CurrentTrain" 1
  rwF "TimeToSitdown" 1
  rwF "SpecialSprite" 1
  rwF "ActionSpriteType" 1
  rwF "NextActionSpriteType" 1
  rwF "ActionSpriteImageOffset" 1
  rwF "Action" 1
  rwF "ActionFrame" 1
  rwF "StepProgress" 1
  rwF "GuestNextInQueue" 2
  rwF "PeepDirection" 1
  rwF "InteractionRideIndex" 2
  peepQueueG
  rwF "Id" 4
  peepCashG
  rwF "PathCheckOptimisation" 1
  peepHeadingG
  rwF "PeepFlags" 4
  rwF "PathfindGoal.x" 1
  rwF "PathfindGoal.y" 1
  rwF "PathfindGoal.z" 1
  rwF "PathfindGoal.direction" 1
  peepPathfindHistory
  rwF "WalkingFrameNum" 1
  peepFinalG

/-- Modelled from the spec: the interleaved legacy Peep base as read for a
Staff record, with placeholder skips where the guest fields would sit. -/
def peepInterleavedStaffLayout : ReadM Unit := do
  readEntityCommon
  let _ ← rwStr "Name"
  rwF "NextLoc.x" 4
  rwF "NextLoc.y" 4
  rwF "NextLoc.z" 4
  rwF "NextFlags" 1
  ignoreN 1
  rwF "State" 1
  rwF "SubState" 1
  rwF "SpriteType" 1
  rwF "AssignedStaffType" 1
  rwF "TshirtColour" 1
  rwF "TrousersColour" 1
  rwF "DestinationX" 2
  rwF "DestinationY" 2
  rwF "DestinationTolerance" 1
  rwF "Var37" 1
  rwF "Energy" 1
  rwF "EnergyTarget" 1
  peepHappinessS
  rwF "Mass" 1
  ignoreN 1
  peepIntensityS
  rwF "WindowInvalidateFlags" 1
  peepPaidOnDrinkS
  rwF "CurrentRide" 2
  rwF "CurrentRideStation" 1
  rwF "CurrentTrain" 1
  rwF "TimeToSitdown" 1
  rwF "SpecialSprite" 1
  rwF "ActionSpriteType" 1
  rwF "NextActionSpriteType" 1
  rwF "ActionSpriteImageOffset" 1
  rwF "Action" 1
  rwF "ActionFrame" 1
  rwF "StepProgress" 1
  rwF "MechanicTimeSinceCall" 2
  rwF "PeepDirection" 1
  rwF "InteractionRideIndex" 2
  peepQueueS
  rwF "Id" 4
  peepCashS
  rwF "PathCheckOptimisation" 1
  peepHeadingS
  rwF "PeepFlags" 4
  rwF "PathfindGoal.x" 1
  rwF "PathfindGoal.y" 1
  rwF "PathfindGoal.z" 1
  rwF "PathfindGoal.direction" 1
  peepPathfindHistory
  rwF "WalkingFrameNum" 1
  peepFinalS

/-- Modelled from the spec: the disjoint post-split Peep base (no
interleaved fields; identical for Guest and Staff). -/
def peepDisjointLayout : ReadM Unit := do
  readEntityCommon
  let _ ← rwStr "Name"
  rwF "NextLoc.x" 4
  rwF "NextLoc.y" 4
  rwF "NextLoc.z" 4
  rwF "NextFlags" 1
  rwF "State" 1
  rwF "SubState" 1
  rwF "SpriteType" 1
  rwF "TshirtColour" 1
  rwF "TrousersColour" 1
  rwF "DestinationX" 2
  rwF "DestinationY" 2
  rwF "DestinationTolerance" 1
  rwF "Var37" 1
  rwF "Energy" 1
  rwF "EnergyTarget" 1
  rwF "Mass" 1
  rwF "WindowInvalidateFlags" 1
  rwF "CurrentRide" 2
  rwF "CurrentRideStation" 1
  rwF "CurrentTrain" 1
  rwF "TimeToSitdown" 1
  rwF "SpecialSprite" 1
  rwF "ActionSpriteType" 1
  rwF "NextActionSpriteType" 1
  rwF "ActionSpriteImageOffset" 1
  rwF "Action" 1
  rwF "ActionFrame" 1
  rwF "StepProgress" 1
  rwF "PeepDirection" 1
  rwF "InteractionRideIndex" 2
  rwF "Id" 4
  rwF "PathCheckOptimisation" 1
  rwF "PeepFlags" 4
  rwF "PathfindGoal.x" 1
  rwF "PathfindGoal.y" 1
  rwF "PathfindGoal.z" 1
  rwF "PathfindGoal.direction" 1
  peepPathfindHistory
  rwF "WalkingFrameNum" 1

/-- Modelled from the spec: a thought element whose item is two bytes
(pre-version-3 disjoint tails). -/
def guestThought16 : ReadM Unit := do
  rwF "thought.type" 1
  rwF "thought.item" 2
  rwF "thought.freshness" 1
  rwF "thought.fresh_timeout" 1

/-- Modelled from the spec: a thought element whose item is one byte
(version ≥ 3 disjoint tails). -/
def guestThought8 : ReadM Unit := do
  rwF "thought.type" 1
  rwF "thought.item" 1
  rwF "thought.freshness" 1
  rwF "thought.fresh_timeout" 1

/-- Modelled from the spec: the interleaved legacy layout for a full Guest
record (nothing follows the peep base in that layout). -/
def guestInterleavedLayout : ReadM Unit := do
  peepInterleavedGuestLayout
  pure ()

/-- Modelled from the spec: the interleaved legacy layout for a full Staff
record (the patrol-area vector follows the peep base). -/
def staffInterleavedLayout : ReadM Unit := do
  peepInterleavedStaffLayout
  rwVec readPatrolElem
  pure ()

/-- Modelled from the spec: the disjoint post-split Guest layout with the
pre-version-3 representations (bitmap ride history, two-byte thought
item). -/
def guestDisjointBitmapLayout : ReadM Unit := do
  peepDisjointLayout
  rwF "GuestNumRides" 1
  rwF "GuestNextInQueue" 2
  rwF "ParkEntryTime" 4
  rwF "GuestHeadingToRideId" 2
  rwF "GuestIsLostCountdown" 1
  rwF "GuestTimeOnRide" 1
  rwF "PaidToEnter" 2
  rwF "PaidOnRides" 2
  rwF "PaidOnFood" 2
  rwF "PaidOnDrink" 2
  rwF "PaidOnSouvenirs" 2
  rwF "OutsideOfPark" 1
  rwF "Happiness" 1
  rwF "HappinessTarget" 1
  rwF "Nausea" 1
  rwF "NauseaTarget" 1
  rwF "Hunger" 1
  rwF "Thirst" 1
  rwF "Toilet" 1
  rwF "TimeToConsume" 1
  rwF "Intensity" 1
  rwF "NauseaTolerance" 1
  rwArr (rwF "RideTypesBeenOn" 1)
  rwF "TimeInQueue" 2
  rwArr (rwF "RidesBeenOn" 1)
  rwF "CashInPocket" 4
  rwF "CashSpent" 4
  rwF "Photo1RideRef" 2
  rwF "Photo2RideRef" 2
  rwF "Photo3RideRef" 2
  rwF "Photo4RideRef" 2
  rwF "RejoinQueueTimeout" 1
  rwF "PreviousRide" 2
  rwF "PreviousRideTimeOut" 2
  rwArr guestThought16
  rwF "LitterCount" 1
  rwF "DisgustingCount" 1
  rwF "AmountOfFood" 1
  rwF "AmountOfDrinks" 1
  rwF "AmountOfSouvenirs" 1
  rwF "VandalismSeen" 1
  rwF "VoucherType" 1
  rwF "VoucherRideId" 2
  rwF "SurroundingsThoughtTimeout" 1
  rwF "Angriness" 1
  rwF "TimeLost" 1
  rwF "DaysInQueue" 1
  rwF "BalloonColour" 1
  rwF "UmbrellaColour" 1
  rwF "HatColour" 1
  rwF "FavouriteRide" 2
  rwF "FavouriteRideRating" 1
  rwF "ItemFlags" 8

/-- Modelled from the spec: the disjoint post-split Guest layout with the
version ≥ 3 representations (ride-use id lists, one-byte thought item). -/
def guestDisjointListLayout : ReadM Unit := do
  peepDisjointLayout
  rwF "GuestNumRides" 1
  rwF "GuestNextInQueue" 2
  rwF "ParkEntryTime" 4
  rwF "GuestHeadingToRideId" 2
  rwF "GuestIsLostCountdown" 1
  rwF "GuestTimeOnRide" 1
  rwF "PaidToEnter" 2
  rwF "PaidOnRides" 2
  rwF "PaidOnFood" 2
  rwF "PaidOnDrink" 2
  rwF "PaidOnSouvenirs" 2
  rwF "OutsideOfPark" 1
  rwF "Happiness" 1
  rwF "HappinessTarget" 1
  rwF "Nausea" 1
  rwF "NauseaTarget" 1
  rwF "Hunger" 1
  rwF "Thirst" 1
  rwF "Toilet" 1
  rwF "TimeToConsume" 1
  rwF "Intensity" 1
  rwF "NauseaTolerance" 1
  rwF "TimeInQueue" 2
  rwVec (rwF "RideUseHistory" 2)
  rwVec (rwF "RideTypeUseHistory" 2)
  rwF "CashInPocket" 4
  rwF "CashSpent" 4
  rwF "Photo1RideRef" 2
  rwF "Photo2RideRef" 2
  rwF "Photo3RideRef" 2
  rwF "Photo4RideRef" 2
  rwF "RejoinQueueTimeout" 1
  rwF "PreviousRide" 2
  rwF "PreviousRideTimeOut" 2
  rwArr guestThought8
  rwF "LitterCount" 1
  rwF "DisgustingCount" 1
  rwF "AmountOfFood" 1
  rwF "AmountOfDrinks" 1
  rwF "AmountOfSouvenirs" 1
  rwF "VandalismSeen" 1
  rwF "VoucherType" 1
  rwF "VoucherRideId" 2
  rwF "SurroundingsThoughtTimeout" 1
  rwF "Angriness" 1
  rwF "TimeLost" 1
  rwF "DaysInQueue" 1
  rwF "BalloonColour" 1
  rwF "UmbrellaColour" 1
  rwF "HatColour" 1
  rwF "FavouriteRide" 2
  rwF "FavouriteRideRating" 1
  rwF "ItemFlags" 8

/-- Modelled from the spec: the disjoint post-split Staff layout as it
stands at version 2, with one skipped byte inside the tail. -/
def staffDisjointSkipLayout : ReadM Unit := do
  peepDisjointLayout
  rwVec readPatrolElem
  rwF "AssignedStaffType" 1
  rwF "MechanicTimeSinceCall" 2
  rwF "HireDate" 4
  ignoreN 1
  rwF "StaffOrders" 1
  rwF "StaffMowingTimeout" 1
  rwF "StaffLawnsMown" 2
  rwF "StaffGardensWatered" 2
  rwF "StaffLitterSwept" 2
  rwF "StaffBinsEmptied" 2

/-- Modelled from the spec: the disjoint post-split Staff layout from
version 3 on (no skipped byte). -/
def staffDisjointLayout : ReadM Unit := do
  peepDisjointLayout
  rwVec readPatrolElem
  rwF "AssignedStaffType" 1
  rwF "MechanicTimeSinceCall" 2
  rwF "HireDate" 4
  rwF "StaffOrders" 1
  rwF "StaffMowingTimeout" 1
  rwF "StaffLawnsMown" 2
  rwF "StaffGardensWatered" 2
  rwF "StaffLitterSwept" 2
  rwF "StaffBinsEmptied" 2

def c2Stream : List Nat := List.replicate 187 0

/-! ## Helper lemmas: monad application and encode/decode round trips -/

theorem bind_app {α β : Type} (m : ReadM α) (k : α → ReadM β) (st : RSt) :
    (m >>= k) st =
      match m st with
      | .ok (a, st2) => k a st2
      | .error e => .error e := rfl

theorem pure_app {α : Type} (a : α) (st : RSt) : (pure a : ReadM α) st = .ok (a, st) := rfl

theorem toLE_length (w v : Nat) : (toLE w v).length = w := by
  induction w generalizing v with
  | zero => rfl
  | succ w ih => simp [toLE, ih]

theorem leVal_toLE {w v : Nat} (h : v < 256 ^ w) : leVal (toLE w v) = v := by
  induction w generalizing v with
  | zero =>
    interval_cases v
    rfl
  | succ w ih =>
    have hdiv : v / 256 < 256 ^ w := by
      rw [Nat.div_lt_iff_lt_mul (by norm_num)]
      calc v < 256 ^ (w + 1) := h
        _ = 256 ^ w * 256 := by ring
    simp only [toLE, leVal, List.foldr_cons]
    have : (toLE w (v / 256)).foldr (fun b a => b + 256 * a) 0 = v / 256 := ih hdiv
    rw [this]
    omega

theorem readBytes_app {n : Nat} {bs rest : List Nat} {tr : List (String × List Nat)}
    (h : bs.length = n) :
    readBytes n ⟨bs ++ rest, tr⟩ = .ok (bs, ⟨rest, tr⟩) := by
  unfold readBytes
  have hle : n ≤ (bs ++ rest).length := by
    simp [List.length_append, ← h, Nat.le_add_right]
  rw [if_pos hle]
  simp only [List.take_left' h, List.drop_left' h]

theorem emit_app (name : String) (bs : List Nat) (st : RSt) :
    emit name bs st = .ok ((), ⟨st.input, st.trace ++ [(name, bs)]⟩) := rfl

theorem rwN_raw_app {name : String} {w : Nat} {bs rest : List Nat}
    {tr : List (String × List Nat)} (h : bs.length = w) :
    rwN name w ⟨bs ++ rest, tr⟩ = .ok (leVal bs, ⟨rest, tr ++ [(name, bs)]⟩) := by
  unfold rwN
  rw [readBytes_app h]

theorem rwN_app {name : String} {w v : Nat} {rest : List Nat}
    {tr : List (String × List Nat)} (h : v < 256 ^ w) :
    rwN name w ⟨wN w v ++ rest, tr⟩ = .ok (v, ⟨rest, tr ++ [(name, wN w v)]⟩) := by
  rw [wN, rwN_raw_app (toLE_length w v), leVal_toLE h]

theorem ignoreN_raw_app {w : Nat} {bs rest : List Nat} {tr : List (String × List Nat)}
    (h : bs.length = w) :
    ignoreN w ⟨bs ++ rest, tr⟩ = .ok ((), ⟨rest, tr⟩) := by
  unfold ignoreN
  rw [readBytes_app h]

theorem ignoreN_app {w v : Nat} {rest : List Nat} {tr : List (String × List Nat)} :
    ignoreN w ⟨wN w v ++ rest, tr⟩ = .ok ((), ⟨rest, tr⟩) :=
  ignoreN_raw_app (toLE_length w v)

theorem readLen_app {n : Nat} {rest : List Nat} {tr : List (String × List Nat)}
    (h : n < 256 ^ 4) :
    readLen ⟨wN 4 n ++ rest, tr⟩ = .ok (n, ⟨rest, tr⟩) := by
  unfold readLen
  rw [wN, readBytes_app (toLE_length 4 n)]
  simp only [leVal_toLE h]

theorem rwStr_app {name : String} {s rest : List Nat} {tr : List (String × List Nat)}
    (h : s.length < 256 ^ 4) :
    rwStr name ⟨wStr s ++ rest, tr⟩ = .ok (s, ⟨rest, tr ++ [(name, s)]⟩) := by
  unfold rwStr wStr
  rw [List.append_assoc, show toLE 4 s.length = wN 4 s.length from rfl, readLen_app h]
  simp only [readBytes_app rfl]

theorem ignoreStr_app {s rest : List Nat} {tr : List (String × List Nat)}
    (h : s.length < 256 ^ 4) :
    ignoreStr ⟨wStr s ++ rest, tr⟩ = .ok ((), ⟨rest, tr⟩) := by
  unfold ignoreStr wStr
  rw [List.append_assoc, show toLE 4 s.length = wN 4 s.length from rfl, readLen_app h]
  simp only [readBytes_app rfl]

/-! ## `NTree` correctness: insertion-based duplicate detection -/

theorem NTree.mem_of_forall {p : Nat → Prop} {t : NTree} (h : t.Forall p) {x : Nat}
    (hx : t.Mem x) : p x := by
  induction t with
  | leaf => exact absurd hx (by simp [NTree.Mem])
  | node l k r ihl ihr =>
    rcases h with ⟨hl, hk, hr⟩
    rcases hx with hx | rfl | hx
    · exact ihl hl hx
    · exact hk
    · exact ihr hr hx

theorem NTree.forall_insert {p : Nat → Prop} {t t' : NTree} {a : Nat}
    (h : t.Forall p) (ha : p a) (hins : t.insert? a = some t') : t'.Forall p := by
  induction t generalizing t' with
  | leaf =>
    simp [NTree.insert?] at hins
    subst hins
    exact ⟨trivial, ha, trivial⟩
  | node l k r ihl ihr =>
    rcases h with ⟨hl, hk, hr⟩
    by_cases h1 : a < k
    · simp only [NTree.insert?, if_pos h1] at hins
      cases hl2 : l.insert? a with
      | none => rw [hl2] at hins; exact absurd hins (by simp)
      | some l2 =>
        rw [hl2] at hins
        simp at hins
        subst hins
        exact ⟨ihl hl hl2, hk, hr⟩
    · by_cases h2 : k < a
      · simp only [NTree.insert?, if_neg h1, if_pos h2] at hins
        cases hr2 : r.insert? a with
        | none => rw [hr2] at hins; exact absurd hins (by simp)
        | some r2 =>
          rw [hr2] at hins
          simp at hins
          subst hins
          exact ⟨hl, hk, ihr hr hr2⟩
      · simp only [NTree.insert?, if_neg h1, if_neg h2] at hins
        exact absurd hins (by simp)

theorem NTree.ordered_insert {t t' : NTree} {a : Nat}
    (h : t.Ordered) (hins : t.insert? a = some t') : t'.Ordered := by
  induction t generalizing t' with
  | leaf =>
    simp [NTree.insert?] at hins
    subst hins
    exact ⟨trivial, trivial, trivial, trivial⟩
  | node l k r ihl ihr =>
    rcases h with ⟨hol, hor, hfl, hfr⟩
    by_cases h1 : a < k
    · simp only [NTree.insert?, if_pos h1] at hins
      cases hl2 : l.insert? a with
      | none => rw [hl2] at hins; exact absurd hins (by simp)
      | some l2 =>
        rw [hl2] at hins
        simp at hins
        subst hins
        exact ⟨ihl hol hl2, hor, NTree.forall_insert hfl h1 hl2, hfr⟩
    · by_cases h2 : k < a
      · simp only [NTree.insert?, if_neg h1, if_pos h2] at hins
        cases hr2 : r.insert? a with
        | none => rw [hr2] at hins; exact absurd hins (by simp)
        | some r2 =>
          rw [hr2] at hins
          simp at hins
          subst hins
          exact ⟨hol, ihr hor hr2, hfl, NTree.forall_insert hfr h2 hr2⟩
      · simp only [NTree.insert?, if_neg h1, if_neg h2] at hins
        exact absurd hins (by simp)

theorem NTree.mem_insert {t t' : NTree} {a : Nat}
    (hins : t.insert? a = some t') : t'.Mem a := by
  induction t generalizing t' with
  | leaf =>
    simp [NTree.insert?] at hins
    subst hins
    simp [NTree.Mem]
  | node l k r ihl ihr =>
    by_cases h1 : a < k
    · simp only [NTree.insert?, if_pos h1] at hins
      cases hl2 : l.insert? a with
      | none => rw [hl2] at hins; exact absurd hins (by simp)
      | some l2 =>
        rw [hl2] at hins
        simp at hins
        subst hins
        exact Or.inl (ihl hl2)
    · by_cases h2 : k < a
      · simp only [NTree.insert?, if_neg h1, if_pos h2] at hins
        cases hr2 : r.insert? a with
        | none => rw [hr2] at hins; exact absurd hins (by simp)
        | some r2 =>
          rw [hr2] at hins
          simp at hins
          subst hins
          exact Or.inr (Or.inr (ihr hr2))
      · simp only [NTree.insert?, if_neg h1, if_neg h2] at hins
        exact absurd hins (by simp)

theorem NTree.mem_insert_iff {t t' : NTree} {a x : Nat}
    (hins : t.insert? a = some t') : t'.Mem x ↔ (t.Mem x ∨ x = a) := by
  induction t generalizing t' with
  | leaf =>
    simp [NTree.insert?] at hins
    subst hins
    simp [NTree.Mem]
  | node l k r ihl ihr =>
    by_cases h1 : a < k
    · simp only [NTree.insert?, if_pos h1] at hins
      cases hl2 : l.insert? a with
      | none => rw [hl2] at hins; exact absurd hins (by simp)
      | some l2 =>
        rw [hl2] at hins
        simp at hins
        subst hins
        show l2.Mem x ∨ x = k ∨ r.Mem x ↔ _
        rw [ihl hl2]
        show (l.Mem x ∨ x = a) ∨ x = k ∨ r.Mem x ↔ (l.Mem x ∨ x = k ∨ r.Mem x) ∨ x = a
        tauto
    · by_cases h2 : k < a
      · simp only [NTree.insert?, if_neg h1, if_pos h2] at hins
        cases hr2 : r.insert? a with
        | none => rw [hr2] at hins; exact absurd hins (by simp)
        | some r2 =>
          rw [hr2] at hins
          simp at hins
          subst hins
          show l.Mem x ∨ x = k ∨ r2.Mem x ↔ _
          rw [ihr hr2]
          show l.Mem x ∨ x = k ∨ (r.Mem x ∨ x = a) ↔ (l.Mem x ∨ x = k ∨ r.Mem x) ∨ x = a
          tauto
      · simp only [NTree.insert?, if_neg h1, if_neg h2] at hins
        exact absurd hins (by simp)

theorem NTree.not_mem_of_insert {t t' : NTree} {a : Nat}
    (ho : t.Ordered) (hins : t.insert? a = some t') : ¬ t.Mem a := by
  induction t generalizing t' with
  | leaf => simp [NTree.Mem]
  | node l k r ihl ihr =>
    rcases ho with ⟨hol, hor, hfl, hfr⟩
    by_cases h1 : a < k
    · simp only [NTree.insert?, if_pos h1] at hins
      cases hl2 : l.insert? a with
      | none => rw [hl2] at hins; exact absurd hins (by simp)
      | some l2 =>
        intro hmem
        rcases hmem with h | h | h
        · exact ihl hol hl2 h
        · exact absurd h1 (by simp [h])
        · exact absurd (NTree.mem_of_forall hfr h) (by omega)
    · by_cases h2 : k < a
      · simp only [NTree.insert?, if_neg h1, if_pos h2] at hins
        cases hr2 : r.insert? a with
        | none => rw [hr2] at hins; exact absurd hins (by simp)
        | some r2 =>
          intro hmem
          rcases hmem with h | h | h
          · exact absurd (NTree.mem_of_forall hfl h) (by omega)
          · exact absurd h2 (by simp [h])
          · exact ihr hor hr2 h
      · simp only [NTree.insert?, if_neg h1, if_neg h2] at hins
        exact absurd hins (by simp)

theorem NTree.insertList_nodup {l : List Nat} {t t' : NTree}
    (ho : t.Ordered) (hins : t.insertList? l = some t') :
    l.Nodup ∧ ∀ x, t.Mem x → x ∉ l := by
  induction l generalizing t with
  | nil => exact ⟨List.nodup_nil, fun x _ => List.not_mem_nil x⟩
  | cons a rest ih =>
    simp only [NTree.insertList?] at hins
    cases h1 : t.insert? a with
    | none => rw [h1] at hins; exact absurd hins (by simp)
    | some t2 =>
      rw [h1] at hins
      have ho2 := NTree.ordered_insert ho h1
      rcases ih ho2 hins with ⟨hnd, hnm⟩
      have hanot : a ∉ rest := hnm a (NTree.mem_insert h1)
      refine ⟨List.nodup_cons.mpr ⟨hanot, hnd⟩, ?_⟩
      intro x hx
      have hx2 : t2.Mem x := (NTree.mem_insert_iff h1).mpr (Or.inl hx)
      have hxrest : x ∉ rest := hnm x hx2
      have hxa : x ≠ a := fun he => NTree.not_mem_of_insert ho h1 (he ▸ hx)
      simp only [List.mem_cons, not_or]
      exact ⟨hxa, hxrest⟩

theorem nodup_of_checkNodupN {l : List Nat} (h : checkNodupN l = true) : l.Nodup := by
  unfold checkNodupN at h
  cases hins : NTree.insertList? NTree.leaf l with
  | none => rw [hins] at h; simp at h
  | some t =>
    have hord : NTree.Ordered NTree.leaf := by simp [NTree.Ordered]
    exact (NTree.insertList_nodup hord hins).1

set_option maxHeartbeats 4000000 in
theorem oldObjectKeyCodes_nodup : oldObjectKeyCodes.Nodup :=
  nodup_of_checkNodupN (by decide)

theorem oldObjectIds_keys_nodup : oldObjectKeys.Nodup :=
  List.Nodup.of_map strCode oldObjectKeyCodes_nodup

/-! ## Association-list lookup under distinct keys -/

theorem lookup_eq_some_of_mem {l : List (String × String)}
    (hnd : (l.map Prod.fst).Nodup) {k v : String} (hm : (k, v) ∈ l) :
    l.lookup k = some v := by
  induction l with
  | nil => exact absurd hm (List.not_mem_nil _)
  | cons p rest ih =>
    rcases p with ⟨k0, v0⟩
    simp only [List.map_cons, List.nodup_cons] at hnd
    rcases hnd with ⟨hk0, hnd⟩
    rcases List.mem_cons.mp hm with he | hm2
    · rw [Prod.mk.injEq] at he
      rcases he with ⟨he1, he2⟩
      subst he1
      subst he2
      simp [List.lookup]
    · have hk : k ≠ k0 := by
        intro he2
        subst he2
        exact hk0 (List.mem_map.mpr ⟨(k, v), hm2, rfl⟩)
      have hbeq : (k == k0) = false := beq_eq_false_iff_ne.mpr hk
      simp only [List.lookup, hbeq]
      exact ih hnd hm2

theorem lookup_eq_none_of_forall_ne {l : List (String × String)} {s : String}
    (h : ∀ p ∈ l, p.1 ≠ s) : l.lookup s = none := by
  induction l with
  | nil => rfl
  | cons p rest ih =>
    rcases p with ⟨k0, v0⟩
    have hp : k0 ≠ s := h (k0, v0) (List.mem_cons_self _ _)
    have hbeq : (s == k0) = false := beq_eq_false_iff_ne.mpr (fun he => hp he.symm)
    simp only [List.lookup, hbeq]
    exact ih (fun q hq => h q (List.mem_cons_of_mem _ hq))

theorem forall_ne_of_all_check {l : List (String × String)} {s : String}
    (h : l.all (fun p => p.1 != s) = true) : ∀ p ∈ l, p.1 ≠ s := by
  intro p hp
  have := List.all_eq_true.mp h p hp
  simpa using this

/-! ## Claim theorems -/

/-- C6: the identifier remapping function is a pure total function over all
strings: every identifier present in the static legacy-to-current table maps
to its table value (the table's keys are pairwise distinct, so this is
well-defined and call-independent), and every identifier absent from the
table passes through unchanged; there is no error case. -/
theorem C6_remap_pure_total :
    (∀ p ∈ oldObjectIds, MapToNewObjectIdentifier p.1 = p.2) ∧
    (∀ s : String, (∀ p ∈ oldObjectIds, p.1 ≠ s) → MapToNewObjectIdentifier s = s) := by
  constructor
  · intro p hp
    unfold MapToNewObjectIdentifier
    have hm : (p.1, p.2) ∈ oldObjectIds := by
      rcases p with ⟨k, v⟩
      exact hp
    rw [lookup_eq_some_of_mem oldObjectIds_keys_nodup hm]
  · intro s hs
    unfold MapToNewObjectIdentifier
    rw [lookup_eq_none_of_forall_ne hs]

set_option maxHeartbeats 1000000 in
/-- Witness for C6: a concrete legacy identifier from the table is remapped
to its table value, and a concrete identifier not in the table is returned
unchanged. -/
theorem C6_remap_pure_total_witness :
    MapToNewObjectIdentifier "official.scgpanda" = "rct2dlc.scenery_group.scgpanda" ∧
    MapToNewObjectIdentifier "openrct2.not.in.the.table" = "openrct2.not.in.the.table" :=
  ⟨C6_remap_pure_total.1 ("official.scgpanda", "rct2dlc.scenery_group.scgpanda") (by decide),
   C6_remap_pure_total.2 "openrct2.not.in.the.table" (forall_ne_of_all_check (by decide))⟩

/-- C7: reading the rides chunk with header version < 5 decodes min and max
cars-per-train from a single packed byte, min from the high nibble
(`value >> 4`) and max from the low nibble (`value & 0xF`); with header
version ≥ 5 the two values are read as two independent fields. -/
theorem C7_min_max_cars_version_gate (version b b2 : Nat) (rest : List Nat)
    (tr : List (String × List Nat)) (hb : b < 256) (hb2 : b2 < 256) :
    (version < 5 →
      readRideMinMaxCarsPerTrain version ⟨wN 1 b ++ rest, tr⟩ =
        .ok ((b / 16, b % 16), ⟨rest, tr ++ [("MinMaxCarsPerTrainPacked", wN 1 b)]⟩)) ∧
    (5 ≤ version →
      readRideMinMaxCarsPerTrain version ⟨wN 1 b ++ (wN 1 b2 ++ rest), tr⟩ =
        .ok ((b, b2),
          ⟨rest, tr ++ [("MinCarsPerTrain", wN 1 b), ("MaxCarsPerTrain", wN 1 b2)]⟩)) := by
  have hb' : b < 256 ^ 1 := by simpa using hb
  have hb2' : b2 < 256 ^ 1 := by simpa using hb2
  constructor
  · intro hv
    unfold readRideMinMaxCarsPerTrain
    have hmin : GetMinCarsPerTrain b = b / 16 := by
      unfold GetMinCarsPerTrain
      rw [Nat.shiftRight_eq_div_pow]
    have hmax : GetMaxCarsPerTrain b = b % 16 := by
      unfold GetMaxCarsPerTrain
      exact Nat.and_pow_two_sub_one_eq_mod b 4
    rw [if_pos hv]
    simp only [bind_app, rwN_app hb', pure_app, hmin, hmax]
  · intro hv
    unfold readRideMinMaxCarsPerTrain
    rw [if_neg (by omega)]
    simp only [bind_app, rwN_app hb', rwN_app hb2', pure_app, List.append_assoc]
    rfl

/-- Witness for C7: version 2 splits packed byte 0x5A into (5, 10); version 6
reads the two bytes 7 and 9 as independent fields. -/
theorem C7_min_max_cars_version_gate_witness :
    readRideMinMaxCarsPerTrain 2 ⟨wN 1 90 ++ [], []⟩ =
      .ok ((5, 10), ⟨[], [("MinMaxCarsPerTrainPacked", wN 1 90)]⟩) ∧
    readRideMinMaxCarsPerTrain 6 ⟨wN 1 7 ++ (wN 1 9 ++ []), []⟩ =
      .ok ((7, 9), ⟨[], [("MinCarsPerTrain", wN 1 7), ("MaxCarsPerTrain", wN 1 9)]⟩) :=
  ⟨(C7_min_max_cars_version_gate 2 90 0 [] [] (by norm_num) (by norm_num)).1 (by norm_num),
   (C7_min_max_cars_version_gate 6 7 9 [] [] (by norm_num) (by norm_num)).2 (by norm_num)⟩

/-! ## Footpath registration lemmas (claim C3) -/

theorem findObj_setObjNil_self (s : String) : ∀ c, findObj (setObj [] c s) s = some c := by
  intro c
  induction c with
  | zero => simp [setObj, findObj]
  | succ n ih =>
    simp only [setObj, findObj]
    rw [if_neg (by simp)]
    rw [ih]
    rfl

theorem findObj_cons_none {x : Option String} {xs : List (Option String)} {s : String}
    (h : findObj (x :: xs) s = none) : x ≠ some s ∧ findObj xs s = none := by
  by_cases hx : x = some s
  · simp [findObj, hx] at h
  · simp only [findObj, if_neg hx] at h
    exact ⟨hx, Option.map_eq_none'.mp h⟩

theorem findObj_setObj_self {l : List (Option String)} {s : String} :
    ∀ {c : Nat}, findObj l s = none → l.length ≤ c →
      findObj (setObj l c s) s = some c := by
  induction l with
  | nil => intro c _ _; exact findObj_setObjNil_self s c
  | cons x xs ih =>
    intro c hnone hlen
    rcases findObj_cons_none hnone with ⟨hx, hxs⟩
    match c with
    | 0 => simp at hlen
    | c' + 1 =>
      simp only [setObj, findObj, if_neg hx]
      rw [ih hxs (by simpa using hlen)]
      rfl

theorem findObj_setObj_of_some {l : List (Option String)} {s s2 : String} :
    ∀ {i c : Nat}, findObj l s = some i → l.length ≤ c →
      findObj (setObj l c s2) s = some i := by
  induction l with
  | nil => intro i c h _; simp [findObj] at h
  | cons x xs ih =>
    intro i c h hlen
    match c with
    | 0 => simp at hlen
    | c' + 1 =>
      by_cases hx : x = some s
      · simp only [findObj, if_pos hx] at h
        simp only [setObj, findObj, if_pos hx]
        exact h
      · simp only [findObj, if_neg hx] at h
        rcases Option.map_eq_some'.mp h with ⟨j, hj, hji⟩
        simp only [setObj, findObj, if_neg hx]
        rw [ih hj (by simpa using hlen)]
        simp [hji]

theorem findObj_setObjNil_ne {s s2 : String} (hne : s2 ≠ s) :
    ∀ c, findObj (setObj [] c s2) s = none := by
  intro c
  induction c with
  | zero =>
    simp only [setObj, findObj]
    rw [if_neg (by simpa using hne)]
    rfl
  | succ n ih =>
    simp only [setObj, findObj]
    rw [if_neg (by simp)]
    rw [ih]
    rfl

theorem findObj_setObj_none_ne {l : List (Option String)} {s s2 : String} (hne : s2 ≠ s) :
    ∀ {c : Nat}, findObj l s = none → l.length ≤ c →
      findObj (setObj l c s2) s = none := by
  induction l with
  | nil => intro c _ _; exact findObj_setObjNil_ne hne c
  | cons x xs ih =>
    intro c hnone hlen
    rcases findObj_cons_none hnone with ⟨hx, hxs⟩
    match c with
    | 0 => simp at hlen
    | c' + 1 =>
      simp only [setObj, findObj, if_neg hx]
      rw [ih hxs (by simpa using hlen)]
      rfl

theorem setObj_length {l : List (Option String)} {s : String} :
    ∀ {c : Nat}, l.length ≤ c → (setObj l c s).length = c + 1 := by
  induction l with
  | nil =>
    intro c _
    induction c with
    | zero => rfl
    | succ n ih2 => simpa [setObj] using ih2 (by simp)
  | cons x xs ih =>
    intro c hlen
    match c with
    | 0 => simp at hlen
    | c' + 1 =>
      simp only [setObj, List.length_cons]
      rw [ih (by simpa using hlen)]

/-! ## Occurrence counts under registration -/

theorem count_setObjNil_self (s : String) :
    ∀ c, (setObj [] c s).count (some s) = 1 := by
  intro c
  induction c with
  | zero => simp [setObj]
  | succ n ih => simpa [setObj, List.count_cons] using ih

theorem count_setObjNil_ne {s s2 : String} (hne : s2 ≠ s) :
    ∀ c, (setObj [] c s2).count (some s) = 0 := by
  intro c
  induction c with
  | zero => simp [setObj, List.count_cons, hne]
  | succ n ih => simpa [setObj, List.count_cons] using ih

theorem count_setObj_self {l : List (Option String)} {s : String} :
    ∀ {c : Nat}, l.length ≤ c →
      (setObj l c s).count (some s) = l.count (some s) + 1 := by
  induction l with
  | nil =>
    intro c _
    simp [count_setObjNil_self s c]
  | cons x xs ih =>
    intro c hlen
    match c with
    | 0 => simp at hlen
    | c' + 1 =>
      simp only [setObj, List.count_cons, ih (by simpa using hlen)]
      omega

theorem count_setObj_ne {l : List (Option String)} {s s2 : String} (hne : s2 ≠ s) :
    ∀ {c : Nat}, l.length ≤ c →
      (setObj l c s2).count (some s) = l.count (some s) := by
  induction l with
  | nil =>
    intro c _
    simp [count_setObjNil_ne hne c]
  | cons x xs ih =>
    intro c hlen
    match c with
    | 0 => simp at hlen
    | c' + 1 =>
      simp only [setObj, List.count_cons, ih (by simpa using hlen)]

theorem count_pos_of_findObj_some {l : List (Option String)} {s : String} :
    ∀ {i : Nat}, findObj l s = some i → 1 ≤ l.count (some s) := by
  induction l with
  | nil => intro i h; simp [findObj] at h
  | cons x xs ih =>
    intro i h
    by_cases hx : x = some s
    · simp [List.count_cons, hx]
    · simp only [findObj, if_neg hx] at h
      rcases Option.map_eq_some'.mp h with ⟨j, hj, _⟩
      have := ih hj
      simp [List.count_cons]
      omega

theorem count_eq_zero_of_findObj_none {l : List (Option String)} {s : String}
    (h : findObj l s = none) : l.count (some s) = 0 := by
  induction l with
  | nil => simp
  | cons x xs ih =>
    rcases findObj_cons_none h with ⟨hx, hxs⟩
    simp [List.count_cons, ih hxs, hx]

/-! ## `registerFPObject` lemmas -/

theorem registerFPObject_find_self {l : List (Option String)} {c : Nat} {s : String}
    (hlen : l.length ≤ c) :
    findObj (registerFPObject l c s).2.1 s = some (registerFPObject l c s).1 := by
  unfold registerFPObject
  cases h : findObj l s with
  | some i => simpa using h
  | none => simpa using findObj_setObj_self h hlen

theorem registerFPObject_len {l : List (Option String)} {c : Nat} {s : String}
    (hlen : l.length ≤ c) :
    (registerFPObject l c s).2.1.length ≤ (registerFPObject l c s).2.2 := by
  unfold registerFPObject
  cases h : findObj l s with
  | some i => simpa using hlen
  | none => simp [setObj_length hlen]

theorem registerFPObject_of_find {l : List (Option String)} {c : Nat} {s : String}
    {i : Nat} (h : findObj l s = some i) : registerFPObject l c s = (i, l, c) := by
  unfold registerFPObject
  rw [h]

theorem registerFPObject_preserve_find {l : List (Option String)} {c : Nat}
    {s s2 : String} {i : Nat} (h : findObj l s = some i) (hlen : l.length ≤ c) :
    findObj (registerFPObject l c s2).2.1 s = some i := by
  unfold registerFPObject
  cases h2 : findObj l s2 with
  | some j => simpa using h
  | none => simpa using findObj_setObj_of_some h hlen

theorem registerFPObject_count {l : List (Option String)} {c : Nat} {s : String}
    (hlen : l.length ≤ c) (hc : l.count (some s) ≤ 1) :
    (registerFPObject l c s).2.1.count (some s) = 1 := by
  unfold registerFPObject
  cases h : findObj l s with
  | some i =>
    have h1 := count_pos_of_findObj_some h
    simp only []
    omega
  | none => simp [count_setObj_self hlen, count_eq_zero_of_findObj_none h]

theorem registerFPObject_count_ne {l : List (Option String)} {c : Nat} {s s2 : String}
    (hne : s2 ≠ s) (hlen : l.length ≤ c) :
    (registerFPObject l c s2).2.1.count (some s) = l.count (some s) := by
  unfold registerFPObject
  cases h : findObj l s2 with
  | some i => simp
  | none => simpa using count_setObj_ne hne hlen

/-- C3: two legacy footpath entries decoded in one Objects-chunk read that
resolve to the same (surface, queue-surface, railings) mapping triple
register each of the three target identifiers exactly once (an identifier
already present in its category reuses its existing slot index instead of
appending — the second call changes neither the required-object list nor the
running counts), and the three legacy-mapping arrays hold the same surface,
queue-surface and railings indices for both original entry indices. -/
theorem C3_footpath_mapping_dedup (st st1 st2 : FPState) (j1 j2 : Nat)
    (fm : FootpathMapping)
    (hs : st.requiredObjects.footpathSurface.length ≤ st.surfaceCount)
    (hr : st.requiredObjects.footpathRailings.length ≤ st.railingCount)
    (hc1 : st.requiredObjects.footpathSurface.count (some fm.NormalSurface) ≤ 1)
    (hc2 : st.requiredObjects.footpathSurface.count (some fm.QueueSurface) ≤ 1)
    (hc3 : st.requiredObjects.footpathRailings.count (some fm.Railing) ≤ 1)
    (hst1 : st1 = UpdateFootpathsFromMapping st j1 fm)
    (hst2 : st2 = UpdateFootpathsFromMapping st1 j2 fm) :
    st2.requiredObjects = st1.requiredObjects ∧
    st2.surfaceCount = st1.surfaceCount ∧
    st2.railingCount = st1.railingCount ∧
    st2.requiredObjects.footpathSurface.count (some fm.NormalSurface) = 1 ∧
    st2.requiredObjects.footpathSurface.count (some fm.QueueSurface) = 1 ∧
    st2.requiredObjects.footpathRailings.count (some fm.Railing) = 1 ∧
    st2.pathToSurfaceMap j2 = st1.pathToSurfaceMap j1 ∧
    st2.pathToQueueSurfaceMap j2 = st1.pathToQueueSurfaceMap j1 ∧
    st2.pathToRailingsMap j2 = st1.pathToRailingsMap j1 ∧
    st2.pathToSurfaceMap j1 = st2.pathToSurfaceMap j2 ∧
    st2.pathToQueueSurfaceMap j1 = st2.pathToQueueSurfaceMap j2 ∧
    st2.pathToRailingsMap j1 = st2.pathToRailingsMap j2 := by
  subst hst2
  subst hst1
  obtain ⟨⟨l0, r0⟩, c0, rc0, m1, m2, m3⟩ := st
  dsimp only at hs hr hc1 hc2 hc3
  simp only [UpdateFootpathsFromMapping]
  set rA := registerFPObject l0 c0 fm.NormalSurface with hrA
  set rB := registerFPObject rA.2.1 rA.2.2 fm.QueueSurface with hrB
  set rC := registerFPObject r0 rc0 fm.Railing with hrC
  have hA1 : findObj rA.2.1 fm.NormalSurface = some rA.1 :=
    registerFPObject_find_self hs
  have hA2 : rA.2.1.length ≤ rA.2.2 := registerFPObject_len hs
  have hB1 : findObj rB.2.1 fm.QueueSurface = some rB.1 :=
    registerFPObject_find_self hA2
  have hB2 : rB.2.1.length ≤ rB.2.2 := registerFPObject_len hA2
  have hNSB : findObj rB.2.1 fm.NormalSurface = some rA.1 :=
    registerFPObject_preserve_find hA1 hA2
  have hC1 : findObj rC.2.1 fm.Railing = some rC.1 :=
    registerFPObject_find_self hr
  have eA : registerFPObject rB.2.1 rB.2.2 fm.NormalSurface = (rA.1, rB.2.1, rB.2.2) :=
    registerFPObject_of_find hNSB
  have eB : registerFPObject rB.2.1 rB.2.2 fm.QueueSurface = (rB.1, rB.2.1, rB.2.2) :=
    registerFPObject_of_find hB1
  have eC : registerFPObject rC.2.1 rC.2.2 fm.Railing = (rC.1, rC.2.1, rC.2.2) :=
    registerFPObject_of_find hC1
  rw [eA]
  dsimp only
  rw [eB, eC]
  have cntA : rA.2.1.count (some fm.NormalSurface) = 1 :=
    registerFPObject_count hs hc1
  have cntNS : rB.2.1.count (some fm.NormalSurface) = 1 := by
    by_cases hqs : fm.QueueSurface = fm.NormalSurface
    · rw [hrB, hqs]
      exact registerFPObject_count hA2 (by omega)
    · rw [hrB, registerFPObject_count_ne hqs hA2]
      exact cntA
  have cntQS : rB.2.1.count (some fm.QueueSurface) = 1 := by
    by_cases hqs : fm.QueueSurface = fm.NormalSurface
    · rw [hqs]
      exact cntNS
    · have hql : rA.2.1.count (some fm.QueueSurface) ≤ 1 := by
        rw [hrA, registerFPObject_count_ne (fun h => hqs h.symm) hs]
        exact hc2
      rw [hrB]
      exact registerFPObject_count hA2 hql
  have cntR : rC.2.1.count (some fm.Railing) = 1 := registerFPObject_count hr hc3
  refine ⟨rfl, rfl, rfl, cntNS, cntQS, cntR, ?_, ?_, ?_, ?_, ?_, ?_⟩
  · simp [updMap]
  · simp [updMap]
  · simp [updMap]
  · by_cases hj : j1 = j2 <;> simp [updMap, hj]
  · by_cases hj : j1 = j2 <;> simp [updMap, hj]
  · by_cases hj : j1 = j2 <;> simp [updMap, hj]

/-- Witness for C3: both entries 0 and 1 of an empty state mapped through the
`rct1.path.tarmac` triple share slot indices (surface 0, queue-surface 1,
railings 0), and the second decode registers nothing new. -/
theorem C3_footpath_mapping_dedup_witness :
    (UpdateFootpathsFromMapping
        (UpdateFootpathsFromMapping
          ⟨⟨[], []⟩, 0, 0, fun _ => none, fun _ => none, fun _ => none⟩ 0
          ⟨"rct1.path.tarmac", "rct1.footpath_surface.tarmac",
            "rct1.footpath_surface.queue_blue", "rct2.footpath_railings.wood"⟩) 1
        ⟨"rct1.path.tarmac", "rct1.footpath_surface.tarmac",
          "rct1.footpath_surface.queue_blue", "rct2.footpath_railings.wood"⟩).requiredObjects
      = (UpdateFootpathsFromMapping
          ⟨⟨[], []⟩, 0, 0, fun _ => none, fun _ => none, fun _ => none⟩ 0
          ⟨"rct1.path.tarmac", "rct1.footpath_surface.tarmac",
            "rct1.footpath_surface.queue_blue", "rct2.footpath_railings.wood"⟩).requiredObjects ∧
    (UpdateFootpathsFromMapping
        (UpdateFootpathsFromMapping
          ⟨⟨[], []⟩, 0, 0, fun _ => none, fun _ => none, fun _ => none⟩ 0
          ⟨"rct1.path.tarmac", "rct1.footpath_surface.tarmac",
            "rct1.footpath_surface.queue_blue", "rct2.footpath_railings.wood"⟩) 1
        ⟨"rct1.path.tarmac", "rct1.footpath_surface.tarmac",
          "rct1.footpath_surface.queue_blue", "rct2.footpath_railings.wood"⟩).pathToSurfaceMap 1
      = (UpdateFootpathsFromMapping
          ⟨⟨[], []⟩, 0, 0, fun _ => none, fun _ => none, fun _ => none⟩ 0
          ⟨"rct1.path.tarmac", "rct1.footpath_surface.tarmac",
            "rct1.footpath_surface.queue_blue", "rct2.footpath_railings.wood"⟩).pathToSurfaceMap 0 := by
  have h := C3_footpath_mapping_dedup
    ⟨⟨[], []⟩, 0, 0, fun _ => none, fun _ => none, fun _ => none⟩ _ _ 0 1
    ⟨"rct1.path.tarmac", "rct1.footpath_surface.tarmac",
      "rct1.footpath_surface.queue_blue", "rct2.footpath_railings.wood"⟩
    (by decide) (by decide) (by decide) (by decide) (by decide) rfl rfl
  exact ⟨h.1, h.2.2.2.2.2.2.1⟩

/-- C5: during Import, absence of the General chunk raises the fatal
diagnostic "No general chunk found." and absence of the Tiles chunk raises
"No tiles chunk found." (Tiles is checked first in Import order), while the
absence of any other per-domain chunk raises no error: with Tiles and
General present, the Import presence pass succeeds no matter which other
chunks are absent. -/
theorem C5_mandatory_chunks (f : ParkChunkFile) :
    (hasChunk f 0x30 = false → importPresence f = .error "No tiles chunk found.") ∧
    (hasChunk f 0x30 = true → hasChunk f 0x04 = false →
      importPresence f = .error "No general chunk found.") ∧
    (hasChunk f 0x30 = true → hasChunk f 0x04 = true → importPresence f = .ok ()) := by
  refine ⟨?_, ?_, ?_⟩
  · intro h30
    simp [importPresence, readWriteTilesChunkCheck, h30, Bind.bind, Except.bind]
  · intro h30 h04
    simp [importPresence, readWriteTilesChunkCheck, readWriteGeneralChunkCheck,
      readWriteOptionalChunkCheck, h30, h04, Bind.bind, Except.bind]
  · intro h30 h04
    simp [importPresence, readWriteTilesChunkCheck, readWriteGeneralChunkCheck,
      readWriteOptionalChunkCheck, h30, h04, Bind.bind, Except.bind]

/-- Witness for C5: a file with no chunks fails with the Tiles diagnostic, a
file with only a Tiles chunk fails with the General diagnostic, and a file
with only Tiles and General chunks imports without error. -/
theorem C5_mandatory_chunks_witness :
    importPresence [] = .error "No tiles chunk found." ∧
    importPresence [(0x30, [])] = .error "No general chunk found." ∧
    importPresence [(0x30, []), (0x04, [])] = .ok () :=
  ⟨(C5_mandatory_chunks []).1 (by decide),
   (C5_mandatory_chunks [(0x30, [])]).2.1 (by decide) (by decide),
   (C5_mandatory_chunks [(0x30, []), (0x04, [])]).2.2 (by decide) (by decide)⟩

/-- C9: the footpath-patching pass of the Tiles-chunk read modifies only
path elements that carry a legacy path entry with a non-null railings
mapping (those get the queue/non-queue surface mapping and the railings
mapping); every other element — non-path elements, path elements without a
legacy entry, and path elements whose entry has no railings mapping — is
left exactly as installed from the stream. -/
theorem C9_tiles_footpath_patch_frame (s q r : Nat → Option Nat)
    (els : List TileElement) :
    ((∀ e : TileElement, (∀ d, e ≠ .path d) → patchLegacyPathElement s q r e = e) ∧
     (∀ d : PathElementData, d.hasLegacyPathEntry = false →
        patchLegacyPathElement s q r (.path d) = .path d) ∧
     (∀ d : PathElementData, d.hasLegacyPathEntry = true →
        r d.legacyPathEntryIndex = none →
        patchLegacyPathElement s q r (.path d) = .path d) ∧
     (∀ (d : PathElementData) (ri : Nat), d.hasLegacyPathEntry = true →
        r d.legacyPathEntryIndex = some ri →
        patchLegacyPathElement s q r (.path d) =
          .path { d with
                  surfaceEntryIndex :=
                    if d.isQueue then q d.legacyPathEntryIndex
                    else s d.legacyPathEntryIndex
                  railingsEntryIndex := some ri })) ∧
    (∀ i : Nat, (patchLegacyPathElements s q r els)[i]? =
      els[i]?.map (patchLegacyPathElement s q r)) := by
  refine ⟨⟨?_, ?_, ?_, ?_⟩, ?_⟩
  · intro e he
    match e with
    | .path d => exact absurd rfl (he d)
    | .track d => rfl
    | .other t p => rfl
  · intro d hd
    simp [patchLegacyPathElement, hd]
  · intro d hd hn
    simp [patchLegacyPathElement, hd, hn]
  · intro d ri hd hr
    simp [patchLegacyPathElement, hd, hr]
  · intro i
    simp [patchLegacyPathElements, List.getElem?_map]

/-- Witness for C9: with a railings mapping only at legacy index 3, a
non-queue path element with entry 3 is rewritten to surface 7 / railings 9,
while a path element with entry 4, a legacy-free path element and a track
element are unchanged. -/
theorem C9_tiles_footpath_patch_frame_witness :
    patchLegacyPathElement (fun i => if i = 3 then some 7 else none)
        (fun i => if i = 3 then some 8 else none)
        (fun i => if i = 3 then some 9 else none)
        (.path ⟨true, 3, false, some 1, some 2⟩) =
      .path ⟨true, 3, false, some 7, some 9⟩ ∧
    patchLegacyPathElement (fun i => if i = 3 then some 7 else none)
        (fun i => if i = 3 then some 8 else none)
        (fun i => if i = 3 then some 9 else none)
        (.path ⟨true, 4, false, some 1, some 2⟩) =
      .path ⟨true, 4, false, some 1, some 2⟩ ∧
    patchLegacyPathElement (fun i => if i = 3 then some 7 else none)
        (fun i => if i = 3 then some 8 else none)
        (fun i => if i = 3 then some 9 else none)
        (.path ⟨false, 3, false, some 1, some 2⟩) =
      .path ⟨false, 3, false, some 1, some 2⟩ ∧
    patchLegacyPathElement (fun i => if i = 3 then some 7 else none)
        (fun i => if i = 3 then some 8 else none)
        (fun i => if i = 3 then some 9 else none)
        (.track ⟨5, 6⟩) = .track ⟨5, 6⟩ := by
  have h := C9_tiles_footpath_patch_frame (fun i => if i = 3 then some 7 else none)
    (fun i => if i = 3 then some 8 else none) (fun i => if i = 3 then some 9 else none) []
  refine ⟨?_, ?_, ?_, ?_⟩
  · have := h.1.2.2.2 ⟨true, 3, false, some 1, some 2⟩ 9 rfl (by decide)
    simpa using this
  · exact h.1.2.2.1 ⟨true, 4, false, some 1, some 2⟩ rfl (by decide)
  · exact h.1.2.1 ⟨false, 3, false, some 1, some 2⟩ rfl
  · exact h.1.1 (.track ⟨5, 6⟩) (by intro d h2; exact absurd h2 (by simp))

/-- C10: when Import runs on a file with header target version below 4, the
final pass overwrites the stored ride type of every track element whose
referenced ride exists with that ride's current type and leaves everything
else unchanged; for target version ≥ 4 the pass does not run and the tile
elements keep exactly the decoded values. -/
theorem C10_track_ride_type_version_gate (version : Nat)
    (rides : Nat → Option RideRec) (els : List TileElement) :
    (4 ≤ version → importTrackRideTypePass version rides els = els) ∧
    (version < 4 →
      (∀ i : Nat, ∀ d : TrackElementData, ∀ rr : RideRec,
        els[i]? = some (.track d) → rides d.rideIndex = some rr →
        (importTrackRideTypePass version rides els)[i]? =
          some (.track ⟨d.rideIndex, rr.rideType⟩)) ∧
      (∀ i : Nat, ∀ d : TrackElementData,
        els[i]? = some (.track d) → rides d.rideIndex = none →
        (importTrackRideTypePass version rides els)[i]? = some (.track d)) ∧
      (∀ i : Nat, ∀ e : TileElement, (∀ d, e ≠ .track d) →
        els[i]? = some e →
        (importTrackRideTypePass version rides els)[i]? = some e)) := by
  constructor
  · intro hv
    unfold importTrackRideTypePass
    rw [if_neg (by omega)]
  · intro hv
    unfold importTrackRideTypePass
    rw [if_pos hv]
    unfold UpdateTrackElementsRideType
    refine ⟨?_, ?_, ?_⟩
    · intro i d rr hel hrr
      rw [List.getElem?_map, hel]
      simp [hrr]
    · intro i d hel hrr
      rw [List.getElem?_map, hel]
      simp [hrr]
    · intro i e he hel
      rw [List.getElem?_map, hel]
      match e with
      | .path d => rfl
      | .track d => exact absurd rfl (he d)
      | .other t p => rfl

/-- Witness for C10: with version 2 a track element referencing an existing
ride of type 11 is rewritten to type 11, a track element referencing a
missing ride and a path element are unchanged; with version 4 the whole
element list is untouched. -/
theorem C10_track_ride_type_version_gate_witness :
    (importTrackRideTypePass 2 (fun i => if i = 5 then some ⟨11⟩ else none)
        [.track ⟨5, 3⟩, .track ⟨6, 4⟩, .other 0 0])[0]? = some (.track ⟨5, 11⟩) ∧
    (importTrackRideTypePass 2 (fun i => if i = 5 then some ⟨11⟩ else none)
        [.track ⟨5, 3⟩, .track ⟨6, 4⟩, .other 0 0])[1]? = some (.track ⟨6, 4⟩) ∧
    (importTrackRideTypePass 2 (fun i => if i = 5 then some ⟨11⟩ else none)
        [.track ⟨5, 3⟩, .track ⟨6, 4⟩, .other 0 0])[2]? = some (.other 0 0) ∧
    importTrackRideTypePass 4 (fun i => if i = 5 then some ⟨11⟩ else none)
        [.track ⟨5, 3⟩, .track ⟨6, 4⟩, .other 0 0] =
      [.track ⟨5, 3⟩, .track ⟨6, 4⟩, .other 0 0] := by
  have h := C10_track_ride_type_version_gate 2
    (fun i => if i = 5 then some ⟨11⟩ else none) [.track ⟨5, 3⟩, .track ⟨6, 4⟩, .other 0 0]
  have h4 := C10_track_ride_type_version_gate 4
    (fun i => if i = 5 then some ⟨11⟩ else none) [.track ⟨5, 3⟩, .track ⟨6, 4⟩, .other 0 0]
  refine ⟨?_, ?_, ?_, h4.1 (by omega)⟩
  · exact (h.2 (by omega)).1 0 ⟨5, 3⟩ ⟨11⟩ rfl (by decide)
  · exact (h.2 (by omega)).2.1 1 ⟨6, 4⟩ rfl (by decide)
  · exact (h.2 (by omega)).2.2 2 (.other 0 0) (by intro d h2; exact absurd h2 (by simp)) rfl

/-! ## Consumption lemmas and the expenditure-table claim (C1) -/

theorem rwF_app {name : String} {w : Nat} {bs rest : List Nat}
    {tr : List (String × List Nat)} (h : bs.length = w) :
    rwF name w ⟨bs ++ rest, tr⟩ = .ok ((), ⟨rest, tr ++ [(name, bs)]⟩) := by
  unfold rwF
  rw [rwN_raw_app h]

theorem consumesT_rwF (name : String) (w : Nat) : ConsumesT (rwF name w) w 1 := by
  intro bs rest tr h
  exact ⟨[(name, bs)], rfl, rwF_app h⟩

theorem consumesT_timesM {m : ReadM Unit} {w ec : Nat} (hm : ConsumesT m w ec) :
    ∀ n, ConsumesT (timesM n m) (n * w) (n * ec) := by
  intro n
  induction n with
  | zero =>
    intro bs rest tr hlen
    refine ⟨[], by simp, ?_⟩
    have hbs : bs = [] := List.eq_nil_of_length_eq_zero (by simpa using hlen)
    subst hbs
    simp [timesM, pure_app]
  | succ n ih =>
    intro bs rest tr hlen
    have hmul : (n + 1) * w = n * w + w := by ring
    have hwle : w ≤ bs.length := by
      rw [hlen, hmul]
      omega
    have h1 : (bs.take w).length = w := by
      rw [List.length_take]
      omega
    obtain ⟨es1, hes1, hm1⟩ := hm (bs.take w) (bs.drop w ++ rest) tr h1
    have h2 : (bs.drop w).length = n * w := by
      rw [List.length_drop, hlen, hmul]
      omega
    obtain ⟨es2, hes2, hm2⟩ := ih (bs.drop w) rest (tr ++ es1) h2
    refine ⟨es1 ++ es2, ?_, ?_⟩
    · rw [List.length_append, hes1, hes2]
      ring
    · show timesM (n + 1) m ⟨bs ++ rest, tr⟩ = _
      have hsplit : bs ++ rest = bs.take w ++ (bs.drop w ++ rest) := by
        rw [← List.append_assoc, List.take_append_drop]
      simp only [timesM, bind_app, hsplit, hm1]
      rw [hm2, List.append_assoc]

/-- C1 (amended): when the stored expenditure table declares `dm` months and
`dt` types, the reader fills the live table only up to the fixed dimensions
(`min 16 dm * min 14 dt` entries decoded) and raises no error, but it
consumes only those capped entries — the stored entries beyond the caps are
left in the stream, so every subsequent Park-chunk field decodes from the
position right after the capped entries.  That position is the true end of
the stored table exactly when the declared dimensions do not exceed the
caps; when `dm > 16` (and at least one type is stored) a non-empty residue
of the stored table precedes the next field, so subsequent fields are
misaligned. -/
theorem C1_expenditure_cap_truncation (dm dt : Nat) (entries rest : List Nat)
    (tr : List (String × List Nat)) (hdm : dm < 256 ^ 4) (hdt : dt < 256 ^ 4)
    (hlen : entries.length = 8 * (dm * dt)) :
    ∃ es, es.length = min 16 dm * min 14 dt ∧
      readExpenditureTable ⟨wN 4 dm ++ (wN 4 dt ++ (entries ++ rest)), tr⟩ =
        .ok ((), ⟨entries.drop (8 * (min 16 dm * min 14 dt)) ++ rest, tr ++ es⟩) ∧
      (dm ≤ 16 → dt ≤ 14 → entries.drop (8 * (min 16 dm * min 14 dt)) = []) ∧
      (16 < dm → 0 < dt → entries.drop (8 * (min 16 dm * min 14 dt)) ≠ []) := by
  have hinner := consumesT_timesM (consumesT_rwF "ExpenditureTable" 8) (min 14 dt)
  have houter := consumesT_timesM hinner (min 16 dm)
  have hmm : min 16 dm * min 14 dt ≤ dm * dt :=
    Nat.mul_le_mul (Nat.min_le_right 16 dm) (Nat.min_le_right 14 dt)
  have htake : (entries.take (8 * (min 16 dm * min 14 dt))).length =
      min 16 dm * (min 14 dt * 8) := by
    rw [List.length_take, hlen]
    have h8 : 8 * (min 16 dm * min 14 dt) ≤ 8 * (dm * dt) :=
      Nat.mul_le_mul_left 8 hmm
    have : min 16 dm * (min 14 dt * 8) = 8 * (min 16 dm * min 14 dt) := by ring
    omega
  obtain ⟨es, hes, happ⟩ := houter (entries.take (8 * (min 16 dm * min 14 dt)))
    (entries.drop (8 * (min 16 dm * min 14 dt)) ++ rest) tr htake
  refine ⟨es, by rw [hes]; ring, ?_, ?_, ?_⟩
  · unfold readExpenditureTable
    rw [show EXPENDITURE_TABLE_MONTH_COUNT = 16 from rfl,
      show ExpenditureTypeCount = 14 from rfl]
    simp only [bind_app, readLen_app hdm, readLen_app hdt]
    have hsplit : entries ++ rest =
        entries.take (8 * (min 16 dm * min 14 dt)) ++
          (entries.drop (8 * (min 16 dm * min 14 dt)) ++ rest) := by
      rw [← List.append_assoc, List.take_append_drop]
    rw [hsplit, happ]
  · intro h16 h14
    have : min 16 dm = dm := Nat.min_eq_right h16
    have : min 14 dt = dt := Nat.min_eq_right h14
    apply List.eq_nil_of_length_eq_zero
    rw [List.length_drop, hlen]
    simp_all
  · intro h16 h0
    have hm16 : min 16 dm = 16 := Nat.min_eq_left (by omega)
    intro hnil
    have hdrop : entries.length - 8 * (min 16 dm * min 14 dt) = 0 := by
      have := congrArg List.length hnil
      simpa [List.length_drop] using this
    rw [hlen, hm16] at hdrop
    have h14 : min 14 dt ≤ 14 := Nat.min_le_left 14 dt
    have h1le : 1 ≤ dt := h0
    have hge : dm * dt ≥ 17 * dt := Nat.mul_le_mul_right dt (by omega)
    have hlt : 16 * min 14 dt < 17 * dt := by
      have : min 14 dt ≤ dt := Nat.min_le_right 14 dt
      calc 16 * min 14 dt ≤ 16 * dt := Nat.mul_le_mul_left 16 this
        _ < 17 * dt := by omega
    omega

/-- Witness for C1 (amended): a table declaring 17 months × 1 type with 136
stored entry bytes is decoded into exactly 16 capped entries, and the
8-byte residue of the stored table is left in front of the following
bytes. -/
theorem C1_expenditure_cap_truncation_witness :
    ∃ es, es.length = min 16 17 * min 14 1 ∧
      readExpenditureTable
          ⟨wN 4 17 ++ (wN 4 1 ++ (List.replicate 136 0 ++ [9, 9])), []⟩ =
        .ok ((), ⟨(List.replicate 136 0).drop (8 * (min 16 17 * min 14 1)) ++ [9, 9],
          [] ++ es⟩) ∧
      (17 ≤ 16 → 1 ≤ 14 →
        (List.replicate 136 0).drop (8 * (min 16 17 * min 14 1)) = []) ∧
      (16 < 17 → 0 < 1 →
        (List.replicate 136 0).drop (8 * (min 16 17 * min 14 1)) ≠ []) :=
  C1_expenditure_cap_truncation 17 1 (List.replicate 136 0) [9, 9] []
    (by norm_num) (by norm_num) (by simp)

/-! ## Symbolic execution lemmas for concrete streams -/

theorem readBytes_fail {n : Nat} {st : RSt} (h : st.input.length < n) :
    readBytes n st = .error "EndOfStream" := by
  unfold readBytes
  rw [if_neg (by omega)]

theorem timesM_zero_app (m : ReadM Unit) (st : RSt) :
    timesM 0 m st = .ok ((), st) := rfl

theorem timesM_one_app (m : ReadM Unit) (st : RSt) :
    timesM 1 m st =
      match m st with
      | .ok (_, st2) => .ok ((), st2)
      | .error e => .error e := by
  show (m >>= fun _ => timesM 0 m) st = _
  rw [bind_app]
  cases hm : m st with
  | ok p =>
    rcases p with ⟨a, st2⟩
    rfl
  | error e => rfl

theorem timesM_blocks_rwF (name : String) (bs : List Nat) (hbs : bs.length = 8) :
    ∀ (n : Nat) (rest : List Nat) (tr : List (String × List Nat)),
      timesM n (timesM 1 (rwF name 8)) ⟨blocks bs n ++ rest, tr⟩ =
        .ok ((), ⟨rest, tr ++ List.replicate n (name, bs)⟩) := by
  intro n
  induction n with
  | zero =>
    intro rest tr
    simp [blocks, timesM, pure_app]
  | succ n ih =>
    intro rest tr
    have hstep : blocks bs (n + 1) = bs ++ blocks bs n := rfl
    show (timesM 1 (rwF name 8) >>= fun _ => timesM n (timesM 1 (rwF name 8)))
        ⟨blocks bs (n + 1) ++ rest, tr⟩ = _
    rw [hstep, List.append_assoc]
    simp only [bind_app, timesM_one_app, rwF_app hbs, ih]
    simp [List.replicate_succ, List.append_assoc]

/-- Counterexample for C1 as stated: in `c1CexStream` the stored table
declares 17 months (one beyond the cap) and the stored historical-profit
field holds 0, yet the Park-chunk read assigns the historical-profit field
the bytes of the 17th stored table entry (value 5) — the subsequent fields
do NOT decode from their correct stream positions. -/
theorem C1_counterexample :
    parkFieldBytes c1CexStream "HistoricalProfit" = some (wN 8 5) ∧
    parkFieldBytes c1CexStream "HistoricalProfit" ≠ some (wN 8 0) := by
  have hbs : (wN 8 5).length = 8 := toLE_length 8 5
  have htable := timesM_blocks_rwF "ExpenditureTable" (wN 8 5) hbs 16
  have hsplit17 : blocks (wN 8 5) 17 ++ List.replicate 117 0 =
      blocks (wN 8 5) 16 ++ (wN 8 5 ++ List.replicate 117 0) := by decide
  have hzeros : (List.replicate 117 0 : List Nat) =
      wN 4 0 ++ (wN 4 0 ++ (wN 8 0 ++ (wN 8 0 ++ (wN 4 0 ++ (wN 2 0 ++ (wN 2 0 ++
        (wN 2 0 ++ (wN 2 0 ++ (wN 8 0 ++ (wN 8 0 ++ (wN 8 0 ++ (wN 2 0 ++ (wN 4 0 ++
        (wN 8 0 ++ (wN 2 0 ++ (wN 2 0 ++ (wN 1 0 ++ (wN 4 0 ++ (wN 2 0 ++ (wN 4 0 ++
        (wN 4 0 ++ (wN 4 0 ++ (wN 4 0 ++ (wN 4 0 ++ (wN 4 0 ++
        List.replicate 8 0))))))))))))))))))))))))) := by decide
  have hm16 : min EXPENDITURE_TABLE_MONTH_COUNT 17 = 16 := by decide
  have hm1 : min ExpenditureTypeCount 1 = 1 := by decide
  have hblocks_eq : blocks (wN 8 5) 17 = blocks (wN 8 5) 16 ++ wN 8 5 := by decide
  have hsplit17 : ∀ t : List Nat,
      blocks (wN 8 5) 17 ++ t = blocks (wN 8 5) 16 ++ (wN 8 5 ++ t) := by
    intro t
    rw [hblocks_eq, List.append_assoc]
  have hl8 : (wN 8 0).length = 8 := toLE_length 8 0
  have hl4 : (wN 4 0).length = 4 := toLE_length 4 0
  have hl2 : (wN 2 0).length = 2 := toLE_length 2 0
  have hl1 : (wN 1 0).length = 1 := toLE_length 1 0
  have hval : parkFieldBytes c1CexStream "HistoricalProfit" = some (wN 8 5) := by
    unfold parkFieldBytes readParkChunk readParkChunkPre readExpenditureTable
      readParkChunkPost readMarketingCampaigns readAwards rwVec rwArr c1CexStream
    simp only [bind_app, pure_app,
      rwStr_app (show ([] : List Nat).length < 256 ^ 4 by norm_num),
      rwF_app hl8, rwF_app hl4, rwF_app hl2, rwF_app hl1, rwF_app hbs,
      readLen_app (show (17 : Nat) < 256 ^ 4 by norm_num),
      readLen_app (show (1 : Nat) < 256 ^ 4 by norm_num),
      readLen_app (show (0 : Nat) < 256 ^ 4 by norm_num),
      hm16, hm1, hsplit17, htable, hzeros, timesM_zero_app]
    decide
  exact ⟨hval, by rw [hval]; decide⟩


/-! ## Banners chunk lemmas and claim C4 -/

theorem readWriteBanner_app {version : Nat} {b : Banner} {rest : List Nat}
    {tr : List (String × List Nat)} (hwf : WFBanner b) :
    readWriteBanner version ⟨writeBanner version b ++ rest, tr⟩ =
      .ok ((if 1 ≤ version then b else { b with id := 0 }),
        ⟨rest, tr ++ bannerTrace version b⟩) := by
  obtain ⟨h1, h2, h3, h4, h5, h6, h7, h8, h9⟩ := hwf
  have h1' : b.id < 256 ^ 2 := by norm_num at h1 ⊢; omega
  have h2' : b.type < 256 ^ 1 := by norm_num at h2 ⊢; omega
  have h3' : b.flags < 256 ^ 1 := by norm_num at h3 ⊢; omega
  have h4' : b.text.length < 256 ^ 4 := by norm_num at h4 ⊢; omega
  have h5' : b.colour < 256 ^ 1 := by norm_num at h5 ⊢; omega
  have h6' : b.ride_index < 256 ^ 2 := by norm_num at h6 ⊢; omega
  have h7' : b.text_colour < 256 ^ 1 := by norm_num at h7 ⊢; omega
  have h8' : b.posX < 256 ^ 4 := by norm_num at h8 ⊢; omega
  have h9' : b.posY < 256 ^ 4 := by norm_num at h9 ⊢; omega
  unfold readWriteBanner writeBanner bannerTrace
  by_cases hv : 1 ≤ version
  · simp only [if_pos hv, List.append_assoc, bind_app, pure_app,
      rwN_app h1', rwN_app h2', rwN_app h3', rwStr_app h4', rwN_app h5',
      rwN_app h6', rwN_app h7', rwN_app h8', rwN_app h9',
      List.singleton_append, List.cons_append, List.nil_append]
  · simp only [if_neg hv, List.nil_append, List.append_assoc, bind_app, pure_app,
      rwN_app h2', rwN_app h3', rwStr_app h4', rwN_app h5',
      rwN_app h6', rwN_app h7', rwN_app h8', rwN_app h9',
      List.singleton_append, List.cons_append, List.nil_append]

theorem repM_readWriteBanner (version : Nat) :
    ∀ (bs : List Banner) (rest : List Nat) (tr : List (String × List Nat)),
      (∀ b ∈ bs, WFBanner b) →
      ∃ es, repM bs.length (readWriteBanner version)
          ⟨(bs.map (writeBanner version)).flatten ++ rest, tr⟩ =
        .ok (bs.map (fun b => if 1 ≤ version then b else { b with id := 0 }),
          ⟨rest, tr ++ es⟩) := by
  intro bs
  induction bs with
  | nil =>
    intro rest tr _
    exact ⟨[], by simp [repM, pure_app]⟩
  | cons b bs ih =>
    intro rest tr h
    obtain ⟨es2, hes2⟩ := ih rest (tr ++ bannerTrace version b)
      (fun q hq => h q (List.mem_cons_of_mem _ hq))
    refine ⟨bannerTrace version b ++ es2, ?_⟩
    have hb := h b (List.mem_cons_self _ _)
    simp only [List.map_cons, List.flatten_cons, List.length_cons, List.append_assoc]
    simp only [repM, bind_app, readWriteBanner_app hb, hes2, pure_app]
    rw [List.append_assoc]

theorem placeBannersByPosition_spec :
    ∀ (bs : List Banner) (t : List (Option Banner)) (i : Nat),
      (∀ k : Nat, ∀ hk : k < bs.length, i + k < t.length →
        (placeBannersByPosition t bs i)[i + k]? =
          some (some { bs.get ⟨k, hk⟩ with id := i + k })) ∧
      (∀ j : Nat, (j < i ∨ i + bs.length ≤ j) →
        (placeBannersByPosition t bs i)[j]? = t[j]?) ∧
      (placeBannersByPosition t bs i).length = t.length := by
  intro bs
  induction bs with
  | nil =>
    intro t i
    exact ⟨fun k hk => absurd hk (by simp), fun j _ => rfl, rfl⟩
  | cons b bs ih =>
    intro t i
    simp only [placeBannersByPosition]
    by_cases hi : i < t.length
    · rw [if_pos hi]
      obtain ⟨hget, hframe, hlen⟩ := ih (t.set i (some { b with id := i })) (i + 1)
      refine ⟨?_, ?_, by simpa using hlen⟩
      · intro k hk hik
        match k with
        | 0 =>
          rw [show i + 0 = i by omega]
          rw [hframe i (Or.inl (by omega))]
          simp [List.getElem?_set, hi]
        | k + 1 =>
          have := hget k (by simpa using hk) (by simpa [List.length_set] using by omega)
          rw [show i + (k + 1) = (i + 1) + k by omega]
          rw [this]
          simp [show (i + 1) + k = i + (k + 1) by omega]
      · intro j hj
        rcases hj with hj | hj
        · rw [hframe j (Or.inl (by omega))]
          rw [List.getElem?_set_ne (by omega)]
        · have hj' : i + 1 + bs.length ≤ j := by
            simp only [List.length_cons] at hj; omega
          rw [hframe j (Or.inr hj')]
          rw [List.getElem?_set_ne (show i ≠ j by omega)]
    · rw [if_neg hi]
      obtain ⟨hget, hframe, hlen⟩ := ih t (i + 1)
      refine ⟨?_, ?_, hlen⟩
      · intro k hk hik
        omega
      · intro j hj
        rcases hj with hj | hj
        · exact hframe j (Or.inl (by omega))
        · exact hframe j (Or.inr (by simp only [List.length_cons] at hj; omega))

theorem applyBannersById_frame :
    ∀ (bs : List Banner) (t : List (Option Banner)) (j : Nat),
      (∀ b ∈ bs, b.id ≠ j) → (applyBannersById t bs)[j]? = t[j]? := by
  intro bs
  induction bs with
  | nil => intro t j _; rfl
  | cons b bs ih =>
    intro t j h
    simp only [applyBannersById, List.foldl_cons] at ih ⊢
    rw [ih _ _ (fun q hq => h q (List.mem_cons_of_mem _ hq))]
    exact List.getElem?_set_ne (h b (List.mem_cons_self _ _))

theorem applyBannersById_mem :
    ∀ (bs : List Banner) (t : List (Option Banner)),
      (bs.map Banner.id).Nodup → (∀ b ∈ bs, b.id < t.length) →
      ∀ b ∈ bs, (applyBannersById t bs)[b.id]? = some (some b) := by
  intro bs
  induction bs with
  | nil => intro t _ _ b hb; cases hb
  | cons b0 bs ih =>
    intro t hnd hlt b hb
    have hnd' := hnd
    simp only [List.map_cons, List.nodup_cons] at hnd'
    rcases List.mem_cons.mp hb with hb | hb
    · subst hb
      have hframe := applyBannersById_frame bs (t.set b.id (some b)) b.id
        (fun q hq hqe => hnd'.1 (hqe ▸ List.mem_map_of_mem Banner.id hq))
      simp only [applyBannersById, List.foldl_cons]
      rw [show (List.foldl (fun t2 q => t2.set q.id (some q)) (t.set b.id (some b)) bs) =
        applyBannersById (t.set b.id (some b)) bs from rfl] at *
      rw [hframe]
      simp [List.getElem?_set, hlt b (List.mem_cons_self _ _)]
    · have := ih (t.set b0.id (some b0)) hnd'.2
        (fun q hq => by rw [List.length_set]; exact hlt q (List.mem_cons_of_mem _ hq))
        b hb
      simpa [applyBannersById, List.foldl_cons] using this

theorem readBannersById_run {version : Nat} (hv : 1 ≤ version) :
    ∀ (bs : List Banner) (t : List (Option Banner)) (rest : List Nat)
      (tr : List (String × List Nat)),
      (∀ b ∈ bs, WFBanner b) →
      ((∀ b ∈ bs, b.id < t.length) →
        ∃ es, readBannersById version t bs.length
            ⟨(bs.map (writeBanner version)).flatten ++ rest, tr⟩ =
          .ok (applyBannersById t bs, ⟨rest, tr ++ es⟩)) ∧
      (∀ pre bad post, bs = pre ++ bad :: post →
        (∀ b ∈ pre, b.id < t.length) → t.length ≤ bad.id →
        readBannersById version t bs.length
            ⟨(bs.map (writeBanner version)).flatten ++ rest, tr⟩ =
          .error "Invalid banner index") := by
  intro bs
  induction bs with
  | nil =>
    intro t rest tr _
    constructor
    · intro _
      exact ⟨[], by simp [readBannersById, pure_app, applyBannersById]⟩
    · intro pre bad post habs _ _
      exact absurd habs (by simp)
  | cons b bs ih =>
    intro t rest tr hwf
    have hwfb := hwf b (List.mem_cons_self _ _)
    have hwf' := fun q hq => hwf q (List.mem_cons_of_mem _ hq)
    constructor
    · intro hlt
      have hltb := hlt b (List.mem_cons_self _ _)
      obtain ⟨es, hes⟩ := (ih (t.set b.id (some b)) rest (tr ++ bannerTrace version b)
        hwf').1 (fun q hq => by
          rw [List.length_set]; exact hlt q (List.mem_cons_of_mem _ hq))
      refine ⟨bannerTrace version b ++ es, ?_⟩
      simp only [List.map_cons, List.flatten_cons, List.length_cons, List.append_assoc]
      simp only [readBannersById, bind_app, readWriteBanner_app hwfb, if_pos hv,
        if_pos hltb, hes, applyBannersById, List.foldl_cons, List.append_assoc]
    · intro pre bad post habs hpre hbad
      match pre, habs with
      | [], habs =>
        rw [List.nil_append] at habs
        injection habs with hb htl
        subst hb
        simp only [List.map_cons, List.flatten_cons, List.length_cons, List.append_assoc]
        simp only [readBannersById, bind_app, readWriteBanner_app hwfb, if_pos hv,
          if_neg (show ¬ b.id < t.length by omega), fail]
      | p :: pre, habs =>
        rw [List.cons_append] at habs
        injection habs with hb htl
        subst hb
        have hltb := hpre b (List.mem_cons_self _ _)
        have := (ih (t.set b.id (some b)) rest (tr ++ bannerTrace version b)
          hwf').2 pre bad post htl
          (fun q hq => by
            rw [List.length_set]; exact hpre q (List.mem_cons_of_mem _ hq))
          (by rw [List.length_set]; exact hbad)
        simp only [List.map_cons, List.flatten_cons, List.length_cons, List.append_assoc]
        simp only [readBannersById, bind_app, readWriteBanner_app hwfb, if_pos hv,
          if_pos hltb, this]

/-- C4: reading a version-0 Banners chunk assigns each record to the live
slot equal to its list position and sets the record id to that index;
for version ≥ 1 each record carries an explicit id, is placed into the
slot for that id, and when the slot cannot be created (id out of table
range) the load fails fatally with "Invalid banner index". -/
theorem C4_banners_version_dispatch
    (bs : List Banner) (t : List (Option Banner)) (version : Nat)
    (rest : List Nat) (tr : List (String × List Nat))
    (hwf : ∀ b ∈ bs, WFBanner b) (ht : t.length = MAX_BANNERS)
    (hn : bs.length < 2 ^ 32) :
    (∃ t2 es, readWriteBannersChunk 0 t ⟨writeBannersChunk 0 bs ++ rest, tr⟩ =
        .ok (t2, ⟨rest, tr ++ es⟩) ∧
      (∀ k : Nat, ∀ hk : k < bs.length, k < MAX_BANNERS →
        t2[k]? = some (some { bs.get ⟨k, hk⟩ with id := k })) ∧
      (∀ j : Nat, bs.length ≤ j → t2[j]? = t[j]?)) ∧
    (1 ≤ version → (bs.map Banner.id).Nodup → (∀ b ∈ bs, b.id < MAX_BANNERS) →
      ∃ t2 es, readWriteBannersChunk version t
          ⟨writeBannersChunk version bs ++ rest, tr⟩ =
        .ok (t2, ⟨rest, tr ++ es⟩) ∧
      (∀ b ∈ bs, t2[b.id]? = some (some b)) ∧
      (∀ j : Nat, (∀ b ∈ bs, b.id ≠ j) → t2[j]? = t[j]?)) ∧
    (1 ≤ version → ∀ pre bad post, bs = pre ++ bad :: post →
      (∀ b ∈ pre, b.id < MAX_BANNERS) → MAX_BANNERS ≤ bad.id →
      readWriteBannersChunk version t
          ⟨writeBannersChunk version bs ++ rest, tr⟩ =
        .error "Invalid banner index") := by
  have hn' : bs.length < 256 ^ 4 := by norm_num at hn ⊢; omega
  refine ⟨?_, ?_, ?_⟩
  · obtain ⟨es, hes⟩ := repM_readWriteBanner 0 bs rest tr hwf
    have hds : (bs.map fun b => if 1 ≤ 0 then b else { b with id := 0 }) =
        bs.map (fun b => { b with id := 0 }) := by simp
    rw [hds] at hes
    refine ⟨placeBannersByPosition t (bs.map (fun b => { b with id := 0 })) 0,
      es, ?_, ?_, ?_⟩
    · unfold readWriteBannersChunk writeBannersChunk
      simp only [if_pos rfl, if_true, List.append_assoc, bind_app,
        readLen_app hn', hes, pure_app]
    · intro k hk hkM
      obtain ⟨hget, _, _⟩ :=
        placeBannersByPosition_spec (bs.map (fun b => { b with id := 0 })) t 0
      have hkd : k < (bs.map (fun b => { b with id := 0 })).length := by
        simpa using hk
      have hg := hget k hkd (by rw [ht]; simpa using hkM)
      simp only [Nat.zero_add] at hg
      rw [hg]
      congr 2
      simp [List.getElem_map]
    · intro j hj
      obtain ⟨_, hframe, _⟩ :=
        placeBannersByPosition_spec (bs.map (fun b => { b with id := 0 })) t 0
      exact hframe j (Or.inr (by simpa using hj))
  · intro hv hnd hlt
    have hlt' : ∀ b ∈ bs, b.id < t.length := fun b hb => by
      rw [ht]; exact hlt b hb
    obtain ⟨es, hes⟩ := (readBannersById_run hv bs t rest tr hwf).1 hlt'
    refine ⟨applyBannersById t bs, es, ?_, ?_, ?_⟩
    · unfold readWriteBannersChunk writeBannersChunk
      rw [if_neg (by omega)]
      simp only [List.append_assoc, bind_app, readLen_app hn', hes]
    · exact applyBannersById_mem bs t hnd hlt'
    · intro j hj
      exact applyBannersById_frame bs t j hj
  · intro hv pre bad post habs hpre hbad
    have hfail := (readBannersById_run hv bs t rest tr hwf).2 pre bad post habs
      (fun q hq => by rw [ht]; exact hpre q hq) (by rw [ht]; exact hbad)
    unfold readWriteBannersChunk writeBannersChunk
    rw [if_neg (by omega)]
    simp only [List.append_assoc, bind_app, readLen_app hn', hfail]

theorem C4_banners_version_dispatch_witness :
    (∀ b ∈ c4Bs, WFBanner b) ∧ c4T.length = MAX_BANNERS ∧
      ((∃ t2 es, readWriteBannersChunk 0 c4T
          ⟨writeBannersChunk 0 c4Bs ++ [9], []⟩ =
          .ok (t2, ⟨[9], [] ++ es⟩) ∧
        (∀ k : Nat, ∀ hk : k < c4Bs.length, k < MAX_BANNERS →
          t2[k]? = some (some { c4Bs.get ⟨k, hk⟩ with id := k })) ∧
        (∀ j : Nat, c4Bs.length ≤ j → t2[j]? = c4T[j]?)) ∧
      (1 ≤ 2 → (c4Bs.map Banner.id).Nodup → (∀ b ∈ c4Bs, b.id < MAX_BANNERS) →
        ∃ t2 es, readWriteBannersChunk 2 c4T
            ⟨writeBannersChunk 2 c4Bs ++ [9], []⟩ =
          .ok (t2, ⟨[9], [] ++ es⟩) ∧
        (∀ b ∈ c4Bs, t2[b.id]? = some (some b)) ∧
        (∀ j : Nat, (∀ b ∈ c4Bs, b.id ≠ j) → t2[j]? = c4T[j]?)) ∧
      (1 ≤ 2 → ∀ pre bad post, c4Bs = pre ++ bad :: post →
        (∀ b ∈ pre, b.id < MAX_BANNERS) → MAX_BANNERS ≤ bad.id →
        readWriteBannersChunk 2 c4T
            ⟨writeBannersChunk 2 c4Bs ++ [9], []⟩ =
          .error "Invalid banner index")) :=
  ⟨by decide, by decide,
    C4_banners_version_dispatch c4Bs c4T 2 [9] [] (by decide) (by decide)
      (by decide)⟩

/-! ## Scenario chunk lemmas and claim C8 -/

theorem readSTEntries_zero_app (st : RSt) :
    readSTEntries 0 st = .ok ([], st) := rfl

theorem readSTEntries_one_app {lc v rest : List Nat}
    {tr : List (String × List Nat)}
    (h1 : lc.length < 256 ^ 4) (h2 : v.length < 256 ^ 4) :
    readSTEntries 1 ⟨wStr lc ++ (wStr v ++ rest), tr⟩ =
      .ok ([(lc, v)], ⟨rest, tr ++ [("lcode", lc), ("value", v)]⟩) := by
  show (rwStr "lcode" >>= fun lc => rwStr "value" >>= fun v =>
    readSTEntries 0 >>= fun r => pure ((lc, v) :: r)) _ = _
  simp only [bind_app, rwStr_app h1, rwStr_app h2, readSTEntries_zero_app,
    pure_app, List.append_assoc, List.cons_append, List.nil_append]

theorem readStringTable_app {d v rest : List Nat}
    {tr : List (String × List Nat)} (h : v.length < 256 ^ 4) :
    readStringTable d ⟨writeStringTable enGB v ++ rest, tr⟩ =
      .ok (v, ⟨rest, tr ++ [("lcode", enGB), ("value", v)]⟩) := by
  have h1 : enGB.length < 256 ^ 4 := by decide
  have hn : (1 : Nat) < 256 ^ 4 := by decide
  unfold readStringTable writeStringTable
  simp only [List.append_assoc, bind_app, readLen_app hn,
    readSTEntries_one_app h1 h, pure_app, List.lookup]
  simp [pure_app]

/-- C8: writing the Scenario chunk blanks the completing-player name
exactly when the completed company value is one of the two sentinels:
reading back the written chunk recovers every field, with the name field
empty in the sentinel cases and the stored name otherwise. -/
theorem C8_completed_by_blanking (version : Nat) (s old : ScenarioState)
    (rest : List Nat) (hwf : WFScenario s) :
    Except.map (fun r => (r.1, r.2.input))
        (readScenarioChunk version old
          ⟨writeScenarioChunk version s ++ rest, []⟩) =
      .ok ({ s with
        completedBy :=
          if s.completedCompanyValue = MONEY64_UNDEFINED ∨
              s.completedCompanyValue = COMPANY_VALUE_ON_FAILED_OBJECTIVE
          then [] else s.completedBy,
        fileName := if 1 ≤ version then s.fileName else old.fileName },
        rest) := by
  obtain ⟨h1, h2, h3, h4, h5, h6, h7, h8, h9, h10, h11, h12, h13⟩ := hwf
  have h1' : s.category < 256 ^ 1 := by norm_num at h1 ⊢; omega
  have h2' : s.scenarioName.length < 256 ^ 4 := by norm_num at h2 ⊢; omega
  have h3' : s.parkName.length < 256 ^ 4 := by norm_num at h3 ⊢; omega
  have h4' : s.details.length < 256 ^ 4 := by norm_num at h4 ⊢; omega
  have h5' : s.objectiveType < 256 ^ 1 := by norm_num at h5 ⊢; omega
  have h6' : s.objectiveYear < 256 ^ 1 := by norm_num at h6 ⊢; omega
  have h7' : s.objectiveNumGuests < 256 ^ 2 := by norm_num at h7 ⊢; omega
  have h8' : s.objectiveCurrency < 256 ^ 8 := by norm_num at h8 ⊢; omega
  have h9' : s.ratingWarningDays < 256 ^ 2 := by norm_num at h9 ⊢; omega
  have h10' : s.completedCompanyValue < 256 ^ 8 := by norm_num at h10 ⊢; omega
  have h11' : s.completedBy.length < 256 ^ 4 := by norm_num at h11 ⊢; omega
  have h12' : s.earlyCompletion < 256 ^ 1 := by norm_num at h12 ⊢; omega
  have h13' : s.fileName.length < 256 ^ 4 := by norm_num at h13 ⊢; omega
  have hnil : ([] : List Nat).length < 256 ^ 4 := by decide
  unfold readScenarioChunk writeScenarioChunk
  by_cases hsent : s.completedCompanyValue = MONEY64_UNDEFINED ∨
      s.completedCompanyValue = COMPANY_VALUE_ON_FAILED_OBJECTIVE
  · by_cases hv : 1 ≤ version
    · simp only [if_pos hsent, if_pos hv, List.append_assoc, bind_app,
        rwN_app h1', readStringTable_app h2', readStringTable_app h3',
        readStringTable_app h4', rwN_app h5', rwN_app h6', rwN_app h7',
        rwN_app h8', rwN_app h9', rwN_app h10', rwStr_app hnil,
        rwN_app h12', rwStr_app h13', pure_app, Except.map]
    · simp only [if_pos hsent, if_neg hv, List.append_nil, List.append_assoc,
        bind_app, rwN_app h1', readStringTable_app h2', readStringTable_app h3',
        readStringTable_app h4', rwN_app h5', rwN_app h6', rwN_app h7',
        rwN_app h8', rwN_app h9', rwN_app h10', rwStr_app hnil,
        rwN_app h12', pure_app, Except.map]
  · by_cases hv : 1 ≤ version
    · simp only [if_neg hsent, if_pos hv, List.append_assoc, bind_app,
        rwN_app h1', readStringTable_app h2', readStringTable_app h3',
        readStringTable_app h4', rwN_app h5', rwN_app h6', rwN_app h7',
        rwN_app h8', rwN_app h9', rwN_app h10', rwStr_app h11',
        rwN_app h12', rwStr_app h13', pure_app, Except.map]
    · simp only [if_neg hsent, if_neg hv, List.append_nil, List.append_assoc,
        bind_app, rwN_app h1', readStringTable_app h2', readStringTable_app h3',
        readStringTable_app h4', rwN_app h5', rwN_app h6', rwN_app h7',
        rwN_app h8', rwN_app h9', rwN_app h10', rwStr_app h11',
        rwN_app h12', pure_app, Except.map]

theorem C8_completed_by_blanking_witness :
    WFScenario c8S ∧
      Except.map (fun r => (r.1, r.2.input))
          (readScenarioChunk 2 c8Old ⟨writeScenarioChunk 2 c8S ++ [7], []⟩) =
        .ok ({ c8S with
          completedBy :=
            if c8S.completedCompanyValue = MONEY64_UNDEFINED ∨
                c8S.completedCompanyValue = COMPANY_VALUE_ON_FAILED_OBJECTIVE
            then [] else c8S.completedBy,
          fileName := if 1 ≤ 2 then c8S.fileName else c8Old.fileName },
          [7]) :=
  ⟨by decide, C8_completed_by_blanking 2 c8S c8Old [7] (by decide)⟩

/-! ## Peep layout lemmas and claim C2 -/

theorem pure_bind {α β : Type} (a : α) (k : α → ReadM β) :
    (pure a >>= k : ReadM β) = k a := rfl

theorem bind_pure_unit (m : ReadM Unit) :
    (m >>= fun _ => pure () : ReadM Unit) = m := by
  funext st
  rw [bind_app]
  cases h : m st with
  | ok p =>
    obtain ⟨a, st2⟩ := p
    cases a
    rfl
  | error e => rfl

theorem readStaffEntity_two_eq : readStaffEntity 2 = staffDisjointSkipLayout := by
  simp only [readStaffEntity, readWritePeep, staffDisjointSkipLayout,
    peepDisjointLayout, show ((2:Nat) ≤ 1) = False from by decide,
    show ((2:Nat) ≤ 2) = True from by decide, if_true, if_false, pure_bind,
    bind_pure_unit]

theorem readGuestEntity_one_eq : readGuestEntity 1 = guestInterleavedLayout := by
  simp only [readGuestEntity, readWritePeep, guestInterleavedLayout,
    peepInterleavedGuestLayout, show ((1:Nat) ≤ 1) = True from by decide,
    show (true = true) = True from by decide, if_true, if_false, pure_bind,
    bind_pure_unit]

theorem readGuestEntity_two_eq :
    readGuestEntity 2 = guestDisjointBitmapLayout := by
  simp only [readGuestEntity, readWritePeep, guestDisjointBitmapLayout,
    peepDisjointLayout, readGuestThought, guestThought16,
    show ((2:Nat) ≤ 1) = False from by decide,
    show ((2:Nat) < 3) = True from by decide,
    show ((2:Nat) ≤ 2) = True from by decide, if_true, if_false, pure_bind,
    bind_pure_unit]

theorem readGuestEntity_six_eq :
    readGuestEntity 6 = guestDisjointListLayout := by
  simp only [readGuestEntity, readWritePeep, guestDisjointListLayout,
    peepDisjointLayout, readGuestThought, guestThought8,
    show ((6:Nat) ≤ 1) = False from by decide,
    show ((6:Nat) < 3) = False from by decide,
    show ((6:Nat) ≤ 2) = False from by decide, if_true, if_false, pure_bind,
    bind_pure_unit]

theorem readStaffEntity_one_eq : readStaffEntity 1 = staffInterleavedLayout := by
  simp only [readStaffEntity, readWritePeep, staffInterleavedLayout,
    peepInterleavedStaffLayout, show ((1:Nat) ≤ 1) = True from by decide,
    show (false = true) = False from by decide, if_true, if_false, pure_bind,
    bind_pure_unit]

theorem readStaffEntity_six_eq : readStaffEntity 6 = staffDisjointLayout := by
  simp only [readStaffEntity, readWritePeep, staffDisjointLayout,
    peepDisjointLayout, show ((6:Nat) ≤ 1) = False from by decide,
    show ((6:Nat) ≤ 2) = False from by decide, if_true, if_false, pure_bind,
    bind_pure_unit]

theorem c2Stream_splitA :
    c2Stream =
      wN 2 0 ++ (wN 1 0 ++ (wN 2 0 ++ (wN 2 0 ++ (wN 2 0 ++ (wN 1 0 ++ (wN
      1 0 ++ (wN 1 0 ++ (wStr [] ++ (wN 4 0 ++ (wN 4 0 ++ (wN 4 0 ++ (wN 1
      0 ++ (wN 1 0 ++ (wN 1 0 ++ (wN 1 0 ++ (wN 1 0 ++ (wN 1 0 ++ (wN 1 0
      ++ (wN 1 0 ++ (wN 2 0 ++ (wN 2 0 ++ (wN 1 0 ++ (wN 1 0 ++ (wN 1 0 ++
      (wN 1 0 ++ (wN 1 0 ++ (wN 1 0 ++ (wN 1 0 ++ (wN 1 0 ++ (wN 1 0 ++
      (wN 1 0 ++ (wN 1 0 ++ (wN 1 0 ++ (wN 1 0 ++ (wN 1 0 ++ (wN 1 0 ++
      (wN 1 0 ++ (wN 2 0 ++ (wN 4 0 ++ (wN 8 0 ++ (wN 2 0 ++ (wN 2 0 ++
      (wN 2 0 ++ (wN 2 0 ++ (wN 1 0 ++ (wN 1 0 ++ (wN 1 0 ++ (wN 1 0 ++
      (wN 1 0 ++ (wN 1 0 ++ (wN 1 0 ++ (wN 1 0 ++ (wN 1 0 ++ (wN 1 0 ++
      (wN 2 0 ++ (wN 1 0 ++ (wN 2 0 ++ (wN 2 0 ++ (wN 4 0 ++ (wN 4 0 ++
      (wN 4 0 ++ (wN 4 0 ++ (wN 4 0 ++ (wN 1 0 ++ (wN 2 0 ++ (wN 2 0 ++
      (wN 4 0 ++ (wN 1 0 ++ (wN 2 0 ++ (wN 1 0 ++ (wN 2 0 ++ (wN 4 0 ++
      (wN 1 0 ++ (wN 1 0 ++ (wN 1 0 ++ (wN 1 0 ++ (wN 1 0 ++ (wN 1 0 ++
      (wN 1 0 ++ (wN 1 0 ++ (wN 1 0 ++ (wN 1 0 ++ (wN 1 0 ++ (wN 1 0 ++
      (wN 1 0 ++ (wN 1 0 ++ (wN 1 0 ++ (wN 1 0 ++ (wN 1 0 ++ (wN 1 0 ++
      (wN 1 0 ++ (wN 1 0 ++ (wN 1 0 ++ (wN 1 0 ++ (wN 1 0 ++ (wN 1 0 ++
      (wN 2 0 ++ (wN 2 0 ++ (wN 2 0 ++ (wN 2 0 ++ (wN 1 0 ++ (wN 1 0 ++
      (wN 1 0 ++ (wN 1 0 ++ (wN 1 0 ++ (wN 2 0 ++ (wN 1 0 ++ (wN 1 0 ++
      (wN 1 0 ++ (wN 1 0 ++ (wN 1 0 ++ (wN 1 0 ++ (wN 1 0 ++ (wN 2 0 ++
      (wN 1 0 ++ (wN 4 0 ++ ([])))))))))))))))))))))))))))))))))))))))))))
      ))))))))))))))))))))))))))))))))))))))))))))))))))))))))))))))))))))
      )))))) := by
  decide

theorem c2Stream_splitB :
    c2Stream =
      wN 2 0 ++ (wN 1 0 ++ (wN 2 0 ++ (wN 2 0 ++ (wN 2 0 ++ (wN 1 0 ++ (wN
      1 0 ++ (wN 1 0 ++ (wStr [] ++ (wN 4 0 ++ (wN 4 0 ++ (wN 4 0 ++ (wN 1
      0 ++ (wN 1 0 ++ (wN 1 0 ++ (wN 1 0 ++ (wN 1 0 ++ (wN 1 0 ++ (wN 2 0
      ++ (wN 2 0 ++ (wN 1 0 ++ (wN 1 0 ++ (wN 1 0 ++ (wN 1 0 ++ (wN 1 0 ++
      (wN 1 0 ++ (wN 2 0 ++ (wN 1 0 ++ (wN 1 0 ++ (wN 1 0 ++ (wN 1 0 ++
      (wN 1 0 ++ (wN 1 0 ++ (wN 1 0 ++ (wN 1 0 ++ (wN 1 0 ++ (wN 1 0 ++
      (wN 1 0 ++ (wN 2 0 ++ (wN 4 0 ++ (wN 1 0 ++ (wN 4 0 ++ (wN 1 0 ++
      (wN 1 0 ++ (wN 1 0 ++ (wN 1 0 ++ (wN 1 0 ++ (wN 1 0 ++ (wN 1 0 ++
      (wN 1 0 ++ (wN 1 0 ++ (wN 1 0 ++ (wN 1 0 ++ (wN 1 0 ++ (wN 1 0 ++
      (wN 1 0 ++ (wN 1 0 ++ (wN 1 0 ++ (wN 1 0 ++ (wN 1 0 ++ (wN 1 0 ++
      (wN 1 0 ++ (wN 1 0 ++ (wN 4 0 ++ (wN 1 0 ++ (wN 2 0 ++ (wN 4 0 ++
      (wN 1 0 ++ (wN 1 0 ++ (wN 1 0 ++ (wN 2 0 ++ (wN 2 0 ++ (wN 2 0 ++
      (wN 2 0 ++ (List.replicate 76 0)))))))))))))))))))))))))))))))))))))
      ))))))))))))))))))))))))))))))))))))) := by
  decide


theorem c2RunA_eval :
    Except.map (fun r => r.2.input)
      (staffInterleavedLayout ⟨c2Stream, []⟩) = .ok [] := by
  have hl1 : (wN 1 0).length = 1 := toLE_length 1 0
  have hl2 : (wN 2 0).length = 2 := toLE_length 2 0
  have hl4 : (wN 4 0).length = 4 := toLE_length 4 0
  have hl8 : (wN 8 0).length = 8 := toLE_length 8 0
  have hstr : ([] : List Nat).length < 256 ^ 4 := by decide
  have hc : (0 : Nat) < 256 ^ 4 := by decide
  rw [c2Stream_splitA]
  simp only [staffInterleavedLayout, peepInterleavedStaffLayout,
    readEntityCommon, peepHappinessS, peepIntensityS, peepPaidOnDrinkS,
    peepQueueS, peepCashS, peepHeadingS, peepFinalS, peepPathfindHistory,
    rwVec, bind_app, pure_app, rwF_app hl1, rwF_app hl2, rwF_app hl4,
    rwF_app hl8, ignoreN_app, rwStr_app hstr, readLen_app hc,
    timesM_zero_app, Except.map]

theorem c2RunB_eval :
    Except.map (fun r => r.2.input)
      (readStaffEntity 2 ⟨c2Stream, []⟩) = .ok (List.replicate 76 0) := by
  have hl1 : (wN 1 0).length = 1 := toLE_length 1 0
  have hl2 : (wN 2 0).length = 2 := toLE_length 2 0
  have hl4 : (wN 4 0).length = 4 := toLE_length 4 0
  have hl8 : (wN 8 0).length = 8 := toLE_length 8 0
  have hstr : ([] : List Nat).length < 256 ^ 4 := by decide
  have hc : (0 : Nat) < 256 ^ 4 := by decide
  rw [readStaffEntity_two_eq, c2Stream_splitB]
  simp only [staffDisjointSkipLayout, peepDisjointLayout, readEntityCommon,
    peepPathfindHistory, rwVec, bind_app, pure_app, rwF_app hl1,
    rwF_app hl2, rwF_app hl4, rwF_app hl8, ignoreN_app, rwStr_app hstr,
    readLen_app hc, timesM_zero_app, Except.map]

/-- C2: version gating of the Peep wire layouts.  A version-2 file decodes
Guest and Staff records with the disjoint post-split layout (carrying the
pre-version-3 representations: bitmap ride history, two-byte thought item,
staff tail skip byte), a version-6 file decodes the disjoint layout with
the version ≥ 3 id-list representations, and only files of version ≤ 1 use
the interleaved legacy layout. -/
theorem C2_peep_layout_version_gate :
    readGuestEntity 2 = guestDisjointBitmapLayout ∧
    readStaffEntity 2 = staffDisjointSkipLayout ∧
    readGuestEntity 6 = guestDisjointListLayout ∧
    readStaffEntity 6 = staffDisjointLayout ∧
    readGuestEntity 1 = guestInterleavedLayout ∧
    readStaffEntity 1 = staffInterleavedLayout :=
  ⟨readGuestEntity_two_eq, readStaffEntity_two_eq, readGuestEntity_six_eq,
    readStaffEntity_six_eq, readGuestEntity_one_eq, readStaffEntity_one_eq⟩

/-- A version-2 file does not decode Peep records with the interleaved
legacy layout: on a concrete 187-byte stream the version-2 Staff decoder
and the interleaved-layout decoder return different results. -/
theorem C2_counterexample_peep :
    readStaffEntity 2 ⟨c2Stream, []⟩ ≠ staffInterleavedLayout ⟨c2Stream, []⟩ := by
  intro h
  have hB := c2RunB_eval
  rw [h, c2RunA_eval] at hB
  exact absurd hB (by decide)

end ParkFile
